import Mathlib

/-!
# Client library of the checkpoint service (`lib/ckpt.c`)

A shallow embedding of the functions of `lib/ckpt.c`.  The process state (the
three handle databases and the instance blocks they hold) is an explicit
`World`; every call takes a `World` and returns its result with the next
`World`.  What the outside does (the outcome of each send, receive, poll,
allocation and connect) is read from an `Env`, indexed by how many calls of
that sort were made before, so a theorem that quantifies over `Env` covers
every behaviour of the server and of the transport.  Each library primitive
also appends one `Event` to `World.trace`, which is how the order of effects
("before the callback", "zero bytes sent") is observed.
-/

set_option linter.unusedVariables false

namespace Ckpt

/-! ## Declarations of headers that are not among the sources -/

/-- Modelled from the spec: the status type `SaAisErrorT` of `saAis.h`, which is
not among the sources.  The constructors are the codes the spec lists (OK,
invalid-parameter, bad-handle, access-denied, try-again, no-memory,
version-mismatch); `other` stands for "whatever status the server embeds in a
response" besides these, and for the transport errors of the retry wrappers. -/
inductive SaAisErrorT where
  | SA_AIS_OK
  | SA_AIS_ERR_VERSION
  | SA_AIS_ERR_TRY_AGAIN
  | SA_AIS_ERR_INVALID_PARAM
  | SA_AIS_ERR_NO_MEMORY
  | SA_AIS_ERR_BAD_HANDLE
  | SA_AIS_ERR_ACCESS
  | other (code : Nat)
  deriving DecidableEq, Repr

open SaAisErrorT

/-- The dispatch modes of `SaDispatchFlagsT`; `invalid` is any other value of
the integer type. -/
inductive SaDispatchFlagsT where
  | SA_DISPATCH_ONE
  | SA_DISPATCH_ALL
  | SA_DISPATCH_BLOCKING
  | invalid (value : Nat)
  deriving DecidableEq, Repr

/-- The request kinds written into `header.id` by the functions of `ckpt.c`. -/
inductive ReqId where
  | MESSAGE_REQ_CKPT_CHECKPOINT_CHECKPOINTOPEN
  | MESSAGE_REQ_CKPT_CHECKPOINT_CHECKPOINTOPENASYNC
  | MESSAGE_REQ_CKPT_CHECKPOINT_CHECKPOINTCLOSE
  | MESSAGE_REQ_CKPT_CHECKPOINT_CHECKPOINTUNLINK
  | MESSAGE_REQ_CKPT_CHECKPOINT_CHECKPOINTRETENTIONDURATIONSET
  | MESSAGE_REQ_CKPT_ACTIVEREPLICASET
  | MESSAGE_REQ_CKPT_CHECKPOINT_CHECKPOINTSTATUSGET
  | MESSAGE_REQ_CKPT_CHECKPOINT_SECTIONCREATE
  | MESSAGE_REQ_CKPT_CHECKPOINT_SECTIONDELETE
  | MESSAGE_REQ_CKPT_CHECKPOINT_SECTIONEXPIRATIONTIMESET
  | MESSAGE_REQ_CKPT_SECTIONITERATOR_SECTIONITERATORINITIALIZE
  | MESSAGE_REQ_CKPT_SECTIONITERATOR_SECTIONITERATORNEXT
  | MESSAGE_REQ_CKPT_CHECKPOINT_SECTIONWRITE
  | MESSAGE_REQ_CKPT_CHECKPOINT_SECTIONOVERWRITE
  | MESSAGE_REQ_CKPT_CHECKPOINT_SECTIONREAD
  | MESSAGE_REQ_CKPT_CHECKPOINT_CHECKPOINTSYNCHRONIZE
  deriving DecidableEq, Repr

open ReqId

/-- The constants and structure sizes that `ckpt.c` takes from `saCkpt.h`,
`ipc_gen.h` and `ipc_ckpt.h`.  These headers are not among the sources, so the
values are parameters of every function that uses them: the three open-flag
masks, the id of the open-completed notification, the width in bits of the
`size` field of a request header, and `sizeof` of the response header, of
`struct list_head` and of the request and response structure of each request
kind. -/
structure Headers where
  SA_CKPT_CHECKPOINT_READ : Nat
  SA_CKPT_CHECKPOINT_WRITE : Nat
  SA_CKPT_CHECKPOINT_CREATE : Nat
  MESSAGE_RES_CKPT_CHECKPOINT_CHECKPOINTOPENASYNC : Nat
  header_size_bits : Nat
  sizeof_res_header : Nat
  sizeof_list_head : Nat
  sizeof_req : ReqId → Nat
  sizeof_res : ReqId → Nat

/-- The modulus of `size_t` arithmetic (64-bit `size_t`). -/
def SIZE_T_MOD : Nat := 2 ^ 64

/-- Conversion of an integer to `int` (32 bits, two's complement). -/
def toInt32 (x : Int) : Int := (x + 2 ^ 31) % 2 ^ 32 - 2 ^ 31

/-- The value that `header.size` holds after `v` is assigned to it. -/
def headerSize (K : Headers) (v : Nat) : Nat := v % 2 ^ K.header_size_bits

/-! ## Data model -/

/-- A checkpoint name (`SaNameT`): a length and the bytes. -/
structure SaNameT where
  length : Nat
  value : List Nat
  deriving DecidableEq, Repr

/-- A protocol version (`SaVersionT`). -/
structure SaVersionT where
  releaseCode : Char
  major : Nat
  minor : Nat
  deriving DecidableEq, Repr

/-- The creation attributes of a checkpoint. -/
structure SaCkptCheckpointCreationAttributesT where
  creationFlags : Nat
  checkpointSize : Nat
  retentionDuration : Nat
  maxSections : Nat
  maxSectionSize : Nat
  maxSectionIdSize : Nat
  deriving DecidableEq, Repr

/-- A section identifier: its length field and its bytes. -/
structure SaCkptSectionIdT where
  idLen : Nat
  id : List Nat
  deriving DecidableEq, Repr

/-- The creation attributes of a section. -/
structure SaCkptSectionCreationAttributesT where
  sectionId : SaCkptSectionIdT
  expirationTime : Nat
  deriving DecidableEq, Repr

/-- One element of an I/O vector.  The contents of `dataBuffer` are not tracked,
only the sizes are. -/
structure SaCkptIOVectorElementT where
  sectionId : SaCkptSectionIdT
  dataSize : Nat
  dataOffset : Nat
  readSize : Nat
  deriving DecidableEq, Repr

/-- The callback table; a function pointer is `none` (NULL) or names a user
function. -/
structure SaCkptCallbacksT where
  saCkptCheckpointOpenCallback : Option Nat
  saCkptCheckpointSynchronizeCallback : Option Nat
  deriving DecidableEq, Repr

/-- Instance block of a library handle (`struct ckptInstance`).  The intrusive
`checkpoint_list` is the list of the checkpoint handles whose instances are
linked in, newest first. -/
structure ckptInstance where
  response_fd : Int
  dispatch_fd : Int
  callbacks : SaCkptCallbacksT
  finalize : Int
  checkpoint_list : List Nat
  deriving DecidableEq, Repr

/-- Instance block of a checkpoint handle (`struct ckptCheckpointInstance`). -/
structure ckptCheckpointInstance where
  response_fd : Int
  ckptHandle : Nat
  checkpointHandle : Nat
  checkpointOpenFlags : Nat
  checkpointName : SaNameT
  deriving DecidableEq, Repr

/-- Instance block of a section iterator
(`struct ckptSectionIterationInstance`); `sectionIdListHead` lists the retained
identifier buffers, newest first. -/
structure ckptSectionIterationInstance where
  response_fd : Int
  checkpointHandle : Nat
  sectionIdListHead : List Nat
  deriving DecidableEq, Repr

/-- The zeroed block that `saHandleCreate` hands out for a library instance. -/
def ckptInstance.zero : ckptInstance := ⟨0, 0, ⟨none, none⟩, 0, []⟩

/-- The zeroed block of a checkpoint instance. -/
def ckptCheckpointInstance.zero : ckptCheckpointInstance := ⟨0, 0, 0, 0, ⟨0, []⟩⟩

/-- The zeroed block of a section iterator instance. -/
def ckptSectionIterationInstance.zero : ckptSectionIterationInstance := ⟨0, 0, []⟩

/-- The fields of a request that the functions of `ckpt.c` fill in. -/
structure Request where
  id : ReqId
  size : Nat
  checkpointName : SaNameT
  checkpointCreationAttributesSet : Nat
  checkpointCreationAttributes : Option SaCkptCheckpointCreationAttributesT
  checkpointOpenFlags : Nat
  invocation : Nat
  checkpointHandle : Nat
  idLen : Nat
  dataSize : Nat
  dataOffset : Nat
  time : Nat
  sectionsChosen : Nat
  deriving DecidableEq, Repr

/-- A request of kind `id` and declared size `size` for checkpoint `name`, the
other fields zero. -/
def Request.base (id : ReqId) (size : Nat) (name : SaNameT) : Request :=
  ⟨id, size, name, 0, none, 0, 0, 0, 0, 0, 0, 0, 0⟩

/-- The response header: `size` is the total size as the `size_t` comparisons
of the code read it, `id` the message kind, `error` the embedded status. -/
structure ResHeader where
  size : Nat
  id : Nat
  error : SaAisErrorT
  deriving DecidableEq, Repr

/-- A message from the server: the header and the body fields the library
reads. -/
structure Message where
  header : ResHeader
  invocation : Nat
  checkpointHandle : Nat
  dataRead : Nat
  checkpointDescriptor : Nat
  sectionDescriptor : Nat
  deriving DecidableEq, Repr

/-- The section descriptor handed back by the iterator: the descriptor copied
from the response, and the retained buffer its identifier pointer aliases. -/
structure SaCkptSectionDescriptorT where
  descriptor : Nat
  sectionId_id : Option Nat
  deriving DecidableEq, Repr

/-- What one segment handed to a send call holds. -/
inductive Segment where
  | request (r : Request)
  | sectionId
  | data
  deriving DecidableEq, Repr

/-- The three handle databases. -/
inductive Db where
  | ckpt
  | checkpoint
  | iteration
  deriving DecidableEq, Repr

/-- The mutexes of the instances, named by the handle of the owning instance. -/
inductive Mutex where
  | ckpt_response (h : Nat)
  | ckpt_dispatch (h : Nat)
  | checkpoint_response (h : Nat)
  | iteration_response (h : Nat)
  deriving DecidableEq, Repr

/-- The observable effects of the library, in the order they happen. -/
inductive Event where
  | handleCreate (db : Db) (h : Nat)
  | instanceGet (db : Db) (h : Nat) (result : SaAisErrorT)
  | instancePut (db : Db) (h : Nat)
  | handleDestroy (db : Db) (h : Nat)
  | lock (m : Mutex)
  | unlock (m : Mutex)
  | send (fd : Int) (seg : Segment) (len : Nat)
  | sendMsg (fd : Int) (iov : List (Segment × Nat))
  | recv (fd : Int) (len : Nat)
  | poll (fd : Int) (timeout : Int)
  | listAdd (ckptHandle : Nat) (checkpointHandle : Nat)
  | listDel (checkpointHandle : Nat)
  | callback (fn : Nat) (invocation : Nat) (checkpointHandle : Int) (error : SaAisErrorT)
  | malloc (buf : Nat) (size : Nat)
  | free (buf : Nat)
  | connect (response_fd : Int) (dispatch_fd : Int)
  | shutdown (fd : Int)
  | close (fd : Int)
  deriving DecidableEq, Repr

/-- The state of a slot of a handle database. -/
inductive HandleState where
  | EMPTY
  | ACTIVE
  | PENDINGREMOVAL
  deriving DecidableEq, Repr

/-- One slot of a handle database. -/
structure HandleEntry (α : Type) where
  state : HandleState
  refCount : Int
  inst : α
  deriving DecidableEq, Repr

/-- The process state: the three handle databases, the number of send, receive,
poll, allocation and connect calls made so far, and the trace of effects. -/
structure World where
  ckptHandleDatabase : List (HandleEntry ckptInstance)
  checkpointHandleDatabase : List (HandleEntry ckptCheckpointInstance)
  ckptSectionIterationHandleDatabase : List (HandleEntry ckptSectionIterationInstance)
  nSend : Nat
  nRecv : Nat
  nPoll : Nat
  nAlloc : Nat
  nConnect : Nat
  trace : List Event
  deriving DecidableEq, Repr

/-- The outcome of receiving one message: `error` is the transport result of
the receive of the fixed part, `msg` what it delivers, and `trailError` the
transport result of the receive of the trailing segment, when the code makes
one. -/
structure RecvOutcome where
  error : SaAisErrorT
  msg : Message
  trailError : SaAisErrorT
  deriving DecidableEq, Repr

/-- The `revents` bits that `saCkptDispatch` tests. -/
structure Revents where
  pollin : Bool
  pollerr : Bool
  pollhup : Bool
  pollnval : Bool
  deriving DecidableEq, Repr

/-- The outcome of one `saPollRetry`. -/
structure PollOutcome where
  error : SaAisErrorT
  revents : Revents
  deriving DecidableEq, Repr

/-- The outcome of one `saServiceConnectTwo`. -/
structure ConnectOutcome where
  error : SaAisErrorT
  response_fd : Int
  dispatch_fd : Int
  deriving DecidableEq, Repr

/-- The behaviour of the outside: the result of the n-th send call (`saSendRetry`
or `saSendMsgRetry`), of the n-th message received, of the n-th poll, whether
the n-th allocation succeeds, and the result of the n-th connect. -/
structure Env where
  send : Nat → SaAisErrorT
  recv : Nat → RecvOutcome
  poll : Nat → PollOutcome
  alloc : Nat → Bool
  connect : Nat → ConnectOutcome

/-- Appends one event to the trace. -/
def World.log (w : World) (e : Event) : World :=
  { w with trace := w.trace ++ [e] }

/-- The number of bytes handed to send calls by the events of a trace. -/
def bytesSent : List Event → Nat
  | [] => 0
  | Event.send _ _ len :: es => len + bytesSent es
  | Event.sendMsg _ iov :: es => (iov.map Prod.snd).sum + bytesSent es
  | _ :: es => bytesSent es

/-- The number of send calls (`saSendRetry` and `saSendMsgRetry`) in a trace. -/
def sendCalls : List Event → Nat
  | [] => 0
  | Event.send _ _ _ :: es => 1 + sendCalls es
  | Event.sendMsg _ _ :: es => 1 + sendCalls es
  | _ :: es => sendCalls es

/-! ## Handle table -/

/-- Modelled from the spec: `saHandleCreate` of `util.c`, which is not among the
sources.  "Allocates a zeroed instance block, assigns an unused handle,
refcount=1.  Fails ResourceExhausted on allocation failure."  The unused handle
is the index of a new slot. -/
def saHandleCreate {α : Type} (db : List (HandleEntry α)) (zero : α) (allocated : Bool) :
    SaAisErrorT × Option Nat × List (HandleEntry α) :=
  if allocated then (SA_AIS_OK, some db.length, db ++ [⟨HandleState.ACTIVE, 1, zero⟩])
  else (SA_AIS_ERR_NO_MEMORY, none, db)

/-- Modelled from the spec: `saHandleInstanceGet` of `util.c`.  "Validates
liveness, increments refcount, returns a pointer usable until matching put.
Fails BadHandle if unknown/destroyed."  The pointer is the handle itself. -/
def saHandleInstanceGet {α : Type} (db : List (HandleEntry α)) (h : Nat) :
    SaAisErrorT × List (HandleEntry α) :=
  match db[h]? with
  | some e =>
    if e.state = HandleState.ACTIVE then
      (SA_AIS_OK, db.set h { e with refCount := e.refCount + 1 })
    else (SA_AIS_ERR_BAD_HANDLE, db)
  | none => (SA_AIS_ERR_BAD_HANDLE, db)

/-- Modelled from the spec: `saHandleInstancePut` of `util.c`.  "Decrements
refcount; if marked destroyed and refcount hits zero, runs the namespace
destructor and frees storage."  The boolean tells whether the slot was freed,
so that the caller runs the destructor of its namespace. -/
def saHandleInstancePut {α : Type} (db : List (HandleEntry α)) (h : Nat) :
    List (HandleEntry α) × Bool :=
  match db[h]? with
  | some e =>
    if e.state = HandleState.PENDINGREMOVAL ∧ e.refCount - 1 = 0 then
      (db.set h { e with state := HandleState.EMPTY, refCount := 0 }, true)
    else (db.set h { e with refCount := e.refCount - 1 }, false)
  | none => (db, false)

/-- Modelled from the spec: `saHandleDestroy` of `util.c`.  "Marks destroyed;
storage is freed by the last put, not immediately." -/
def saHandleDestroy {α : Type} (db : List (HandleEntry α)) (h : Nat) : List (HandleEntry α) :=
  match db[h]? with
  | some e =>
    if e.state = HandleState.ACTIVE then db.set h { e with state := HandleState.PENDINGREMOVAL }
    else db
  | none => db

/-- Whether a lookup of handle `h` succeeds: the slot exists and is active. -/
def isLive {α : Type} (db : List (HandleEntry α)) (h : Nat) : Bool :=
  match db[h]? with
  | some e => decide (e.state = HandleState.ACTIVE)
  | none => false

/-- The reference count of handle `h` (zero for an unknown handle). -/
def refCountOf {α : Type} (db : List (HandleEntry α)) (h : Nat) : Int :=
  match db[h]? with
  | some e => e.refCount
  | none => 0

/-- The instance block a pointer obtained for handle `h` points to. -/
def instanceAt {α : Type} (db : List (HandleEntry α)) (h : Nat) (zero : α) : α :=
  match db[h]? with
  | some e => e.inst
  | none => zero

/-- A write through a pointer obtained for handle `h`. -/
def modifyInstance {α : Type} (db : List (HandleEntry α)) (h : Nat) (f : α → α) :
    List (HandleEntry α) :=
  match db[h]? with
  | some e => db.set h { e with inst := f e.inst }
  | none => db

/-! ## Primitives on the process state -/

/-- `saHandleCreate` on the library database; `cell` is the content of the
handle cell, which is written on success only. -/
def World.createCkpt (env : Env) (cell : Nat) (w : World) : SaAisErrorT × Nat × World :=
  match saHandleCreate w.ckptHandleDatabase ckptInstance.zero (env.alloc w.nAlloc) with
  | (e, some h, db) =>
    (e, h, { w with ckptHandleDatabase := db, nAlloc := w.nAlloc + 1,
                    trace := w.trace ++ [Event.handleCreate Db.ckpt h] })
  | (e, none, db) => (e, cell, { w with ckptHandleDatabase := db, nAlloc := w.nAlloc + 1 })

/-- `saHandleCreate` on the checkpoint database. -/
def World.createCheckpoint (env : Env) (cell : Nat) (w : World) : SaAisErrorT × Nat × World :=
  match saHandleCreate w.checkpointHandleDatabase ckptCheckpointInstance.zero
      (env.alloc w.nAlloc) with
  | (e, some h, db) =>
    (e, h, { w with checkpointHandleDatabase := db, nAlloc := w.nAlloc + 1,
                    trace := w.trace ++ [Event.handleCreate Db.checkpoint h] })
  | (e, none, db) => (e, cell, { w with checkpointHandleDatabase := db, nAlloc := w.nAlloc + 1 })

/-- `saHandleCreate` on the section iterator database. -/
def World.createIteration (env : Env) (cell : Nat) (w : World) : SaAisErrorT × Nat × World :=
  match saHandleCreate w.ckptSectionIterationHandleDatabase ckptSectionIterationInstance.zero
      (env.alloc w.nAlloc) with
  | (e, some h, db) =>
    (e, h, { w with ckptSectionIterationHandleDatabase := db, nAlloc := w.nAlloc + 1,
                    trace := w.trace ++ [Event.handleCreate Db.iteration h] })
  | (e, none, db) =>
    (e, cell, { w with ckptSectionIterationHandleDatabase := db, nAlloc := w.nAlloc + 1 })

/-- `saHandleInstanceGet` on the library database. -/
def World.getCkpt (w : World) (h : Nat) : SaAisErrorT × World :=
  ((saHandleInstanceGet w.ckptHandleDatabase h).1,
   { w with ckptHandleDatabase := (saHandleInstanceGet w.ckptHandleDatabase h).2,
            trace := w.trace ++
              [Event.instanceGet Db.ckpt h (saHandleInstanceGet w.ckptHandleDatabase h).1] })

/-- `saHandleInstanceGet` on the checkpoint database. -/
def World.getCheckpoint (w : World) (h : Nat) : SaAisErrorT × World :=
  ((saHandleInstanceGet w.checkpointHandleDatabase h).1,
   { w with checkpointHandleDatabase := (saHandleInstanceGet w.checkpointHandleDatabase h).2,
            trace := w.trace ++
              [Event.instanceGet Db.checkpoint h
                (saHandleInstanceGet w.checkpointHandleDatabase h).1] })

/-- `saHandleInstanceGet` on the section iterator database. -/
def World.getIteration (w : World) (h : Nat) : SaAisErrorT × World :=
  ((saHandleInstanceGet w.ckptSectionIterationHandleDatabase h).1,
   { w with
      ckptSectionIterationHandleDatabase :=
        (saHandleInstanceGet w.ckptSectionIterationHandleDatabase h).2,
      trace := w.trace ++
        [Event.instanceGet Db.iteration h
          (saHandleInstanceGet w.ckptSectionIterationHandleDatabase h).1] })

/-- `saHandleInstancePut` on the library database; `ckptHandleInstanceDestructor`
does nothing. -/
def World.putCkpt (w : World) (h : Nat) : World :=
  { w with ckptHandleDatabase := (saHandleInstancePut w.ckptHandleDatabase h).1,
           trace := w.trace ++ [Event.instancePut Db.ckpt h] }

/-- `saHandleInstancePut` on the checkpoint database;
`checkpointHandleInstanceDestructor` does nothing. -/
def World.putCheckpoint (w : World) (h : Nat) : World :=
  { w with checkpointHandleDatabase := (saHandleInstancePut w.checkpointHandleDatabase h).1,
           trace := w.trace ++ [Event.instancePut Db.checkpoint h] }

/-- What `ckptSectionIterationHandleInstanceDestructor` does to an instance:
it shuts down and closes `response_fd` unless that is -1. -/
def ckptSectionIterationHandleInstanceDestructor (i : ckptSectionIterationInstance) :
    List Event :=
  if i.response_fd ≠ -1 then [Event.shutdown i.response_fd, Event.close i.response_fd] else []

/-- `saHandleInstancePut` on the section iterator database, running the
destructor when the slot is freed. -/
def World.putIteration (w : World) (h : Nat) : World :=
  { w with
      ckptSectionIterationHandleDatabase :=
        (saHandleInstancePut w.ckptSectionIterationHandleDatabase h).1,
      trace := w.trace ++ [Event.instancePut Db.iteration h] ++
        (if (saHandleInstancePut w.ckptSectionIterationHandleDatabase h).2 then
          ckptSectionIterationHandleInstanceDestructor
            (instanceAt w.ckptSectionIterationHandleDatabase h ckptSectionIterationInstance.zero)
         else []) }

/-- `saHandleDestroy` on the library database. -/
def World.destroyCkpt (w : World) (h : Nat) : World :=
  { w with ckptHandleDatabase := saHandleDestroy w.ckptHandleDatabase h,
           trace := w.trace ++ [Event.handleDestroy Db.ckpt h] }

/-- `saHandleDestroy` on the checkpoint database. -/
def World.destroyCheckpoint (w : World) (h : Nat) : World :=
  { w with checkpointHandleDatabase := saHandleDestroy w.checkpointHandleDatabase h,
           trace := w.trace ++ [Event.handleDestroy Db.checkpoint h] }

/-- `saHandleDestroy` on the section iterator database. -/
def World.destroyIteration (w : World) (h : Nat) : World :=
  { w with
      ckptSectionIterationHandleDatabase :=
        saHandleDestroy w.ckptSectionIterationHandleDatabase h,
      trace := w.trace ++ [Event.handleDestroy Db.iteration h] }

/-- A write to the library instance of handle `h`. -/
def World.setCkpt (w : World) (h : Nat) (f : ckptInstance → ckptInstance) : World :=
  { w with ckptHandleDatabase := modifyInstance w.ckptHandleDatabase h f }

/-- A write to the checkpoint instance of handle `h`. -/
def World.setCheckpoint (w : World) (h : Nat)
    (f : ckptCheckpointInstance → ckptCheckpointInstance) : World :=
  { w with checkpointHandleDatabase := modifyInstance w.checkpointHandleDatabase h f }

/-- A write to the section iterator instance of handle `h`. -/
def World.setIteration (w : World) (h : Nat)
    (f : ckptSectionIterationInstance → ckptSectionIterationInstance) : World :=
  { w with
      ckptSectionIterationHandleDatabase :=
        modifyInstance w.ckptSectionIterationHandleDatabase h f }

/-- The library instance a pointer for handle `h` points to. -/
def World.ckptInstanceOf (w : World) (h : Nat) : ckptInstance :=
  instanceAt w.ckptHandleDatabase h ckptInstance.zero

/-- The checkpoint instance a pointer for handle `h` points to. -/
def World.checkpointInstanceOf (w : World) (h : Nat) : ckptCheckpointInstance :=
  instanceAt w.checkpointHandleDatabase h ckptCheckpointInstance.zero

/-- The section iterator instance a pointer for handle `h` points to. -/
def World.iterationInstanceOf (w : World) (h : Nat) : ckptSectionIterationInstance :=
  instanceAt w.ckptSectionIterationHandleDatabase h ckptSectionIterationInstance.zero

/-- How a call of `saCkptDispatch` or of `saCkptCheckpointClose` ends: it returns
a status; or the assertion on the lookup of the notified checkpoint handle
fails; or a receive has written past the end of `data` in
`struct message_overlay`; or `list_del` has dereferenced the null pointers of a
link that was never linked; or `list_del` has written to the list head inside a
library instance whose storage the last put has freed.  After the last three the
behaviour of the program is undefined, and the call is taken to end there. -/
inductive Outcome where
  | returned (error : SaAisErrorT)
  | assertionFailed
  | bufferOverflow
  | nullDereference
  | useAfterFree
  deriving DecidableEq, Repr

/-- The capacity in bytes of `data` in `struct message_overlay`
(`char data[4096]`). -/
def sizeof_message_overlay_data : Nat := 4096

/-- Modelled from the spec: whether the link `list` of the checkpoint instance
of handle `c` is a member of a checkpoint list.  `saHandleCreate` hands out a
zeroed instance block, so the link of an instance that was never linked holds
two null pointers. -/
def World.isLinked (w : World) (c : Nat) : Bool :=
  w.ckptHandleDatabase.any (fun e => decide (c ∈ e.inst.checkpoint_list))

/-- Modelled from the spec: whether a neighbour of the link of checkpoint handle
`c` is the list head of a library instance whose storage has been freed: the
slot of the library handle is empty (the last put after `saHandleDestroy` frees
the instance) and `c` is the first or the last member of the list that was
headed there. -/
def World.isDangling (w : World) (c : Nat) : Bool :=
  w.ckptHandleDatabase.any (fun e =>
    decide (e.state = HandleState.EMPTY) &&
      (decide (e.inst.checkpoint_list.head? = some c) ||
        decide (e.inst.checkpoint_list.getLast? = some c)))

/-- Modelled from the spec: `list_init` followed by `list_add` of `list.h`, which
is not among the sources: the checkpoint instance of handle `c` is linked at the
head of the checkpoint list of library instance `lib`.  This describes the call
for an instance that is not a member of a list; `list_init` on a link that is a
member detaches it from its neighbours without unlinking it, which a list of
handles does not express, so the theorems take the instance to be unlinked
where they speak of the list. -/
def World.listAdd (w : World) (lib : Nat) (c : Nat) : World :=
  { w with
      ckptHandleDatabase :=
        modifyInstance w.ckptHandleDatabase lib
          (fun i => { i with checkpoint_list := c :: i.checkpoint_list }),
      trace := w.trace ++ [Event.listAdd lib c] }

/-- Modelled from the spec: `list_del` of `list.h`: the checkpoint instance of
handle `c` is unlinked from the list it is a member of, by writes to its two
neighbours.  When a neighbour is the head inside a freed library instance the
write goes to freed storage; on an instance that was never linked `list_del`
writes through the null pointers of the zeroed link.  In both cases the result
is the fault. -/
def World.listDel (w : World) (c : Nat) : Except Outcome World :=
  if w.isDangling c then Except.error Outcome.useAfterFree
  else if w.isLinked c then
    Except.ok { w with
      ckptHandleDatabase :=
        w.ckptHandleDatabase.map
          (fun e => { e with inst :=
            { e.inst with checkpoint_list := e.inst.checkpoint_list.filter (fun x => x ≠ c) } }),
      trace := w.trace ++ [Event.listDel c] }
  else Except.error Outcome.nullDereference

/-- One `saSendRetry` of `len` bytes: the result is that of the next send of
the environment. -/
def saSendRetry (env : Env) (fd : Int) (seg : Segment) (len : Nat) (w : World) :
    SaAisErrorT × World :=
  (env.send w.nSend,
   { w with nSend := w.nSend + 1, trace := w.trace ++ [Event.send fd seg len] })

/-- One `saSendMsgRetry` of the segments `iov`. -/
def saSendMsgRetry (env : Env) (fd : Int) (iov : List (Segment × Nat)) (w : World) :
    SaAisErrorT × World :=
  (env.send w.nSend,
   { w with nSend := w.nSend + 1, trace := w.trace ++ [Event.sendMsg fd iov] })

/-- One `saRecvRetry` of the fixed part of the next message. -/
def saRecvRetry (env : Env) (fd : Int) (len : Nat) (w : World) : RecvOutcome × World :=
  (env.recv w.nRecv,
   { w with nRecv := w.nRecv + 1, trace := w.trace ++ [Event.recv fd len] })

/-- One `saRecvRetry` of the trailing segment of message `n`. -/
def saRecvRetryTrailing (env : Env) (n : Nat) (fd : Int) (len : Nat) (w : World) :
    SaAisErrorT × World :=
  ((env.recv n).trailError, w.log (Event.recv fd len))

/-- One `saPollRetry` on `fd`. -/
def saPollRetry (env : Env) (fd : Int) (timeout : Int) (w : World) : PollOutcome × World :=
  (env.poll w.nPoll,
   { w with nPoll := w.nPoll + 1, trace := w.trace ++ [Event.poll fd timeout] })

/-- One `saServiceConnectTwo`: the result and the two descriptors are those of
the next connect of the environment. -/
def saServiceConnectTwo (env : Env) (w : World) : ConnectOutcome × World :=
  (env.connect w.nConnect,
   { w with nConnect := w.nConnect + 1,
            trace := w.trace ++
              [Event.connect (env.connect w.nConnect).response_fd
                (env.connect w.nConnect).dispatch_fd] })

/-- The table `ckptVersionsSupported`. -/
def ckptVersionsSupported : List SaVersionT := [⟨'B', 1, 1⟩]

/-- Modelled from the spec: `saVersionVerify` of `util.c`: "validates the
requested protocol version against a small supported-version table (fails
VersionMismatch on mismatch)". -/
def saVersionVerify (table : List SaVersionT) (version : SaVersionT) : SaAisErrorT :=
  if version ∈ table then SA_AIS_OK else SA_AIS_ERR_VERSION

/-- The difference `a - b` in `size_t` arithmetic. -/
def sizeSub (a b : Nat) : Nat := (a + SIZE_T_MOD - b % SIZE_T_MOD) % SIZE_T_MOD

/-- The value of `error == SA_AIS_OK ? res.header.error : error`. -/
def statusOf (error : SaAisErrorT) (resError : SaAisErrorT) : SaAisErrorT :=
  if error = SA_AIS_OK then resError else error

/-! ## Library lifecycle -/

/-- `saCkptInitialize`.  `ckptHandle` is `none` for a NULL pointer and else the
content of the handle cell; the result holds the content of the cell
afterwards. -/
def saCkptInitialize (env : Env) (ckptHandle : Option Nat)
    (callbacks : Option SaCkptCallbacksT) (version : SaVersionT) (w : World) :
    SaAisErrorT × Option Nat × World :=
  match ckptHandle with
  | none => (SA_AIS_ERR_INVALID_PARAM, none, w)
  | some cell =>
    if saVersionVerify ckptVersionsSupported version ≠ SA_AIS_OK then
      (saVersionVerify ckptVersionsSupported version, some cell, w)
    else
      let c := w.createCkpt env cell
      if c.1 ≠ SA_AIS_OK then (c.1, some c.2.1, c.2.2)
      else
        let g := c.2.2.getCkpt c.2.1
        if g.1 ≠ SA_AIS_OK then (g.1, some c.2.1, g.2.destroyCkpt c.2.1)
        else
          let w1 := g.2.setCkpt c.2.1 (fun i => { i with response_fd := -1 })
          let k := saServiceConnectTwo env w1
          if k.1.error ≠ SA_AIS_OK then
            (k.1.error, some c.2.1, (k.2.putCkpt c.2.1).destroyCkpt c.2.1)
          else
            let w3 := k.2.setCkpt c.2.1 (fun i =>
              { i with response_fd := k.1.response_fd, dispatch_fd := k.1.dispatch_fd,
                       callbacks := callbacks.getD ⟨none, none⟩,
                       checkpoint_list := [] })
            (SA_AIS_OK, some c.2.1, w3.putCkpt c.2.1)

/-- `saCkptSelectionObjectGet`; the result holds the content of the
`selectionObject` cell afterwards. -/
def saCkptSelectionObjectGet (ckptHandle : Nat) (selectionObject : Option Int) (w : World) :
    SaAisErrorT × Option Int × World :=
  match selectionObject with
  | none => (SA_AIS_ERR_INVALID_PARAM, none, w)
  | some cell =>
    let g := w.getCkpt ckptHandle
    if g.1 ≠ SA_AIS_OK then (g.1, some cell, g.2)
    else (SA_AIS_OK, some (g.2.ckptInstanceOf ckptHandle).dispatch_fd, g.2.putCkpt ckptHandle)

/-- The loop of `saCkptFinalize` over `checkpoint_list`: one put per linked
checkpoint instance, on the handle stored in the instance. -/
def finalizePutAll (w : World) (checkpoint_list : List Nat) : World :=
  checkpoint_list.foldl
    (fun w c => w.putCheckpoint (w.checkpointInstanceOf c).checkpointHandle) w

/-- `saCkptFinalize`. -/
def saCkptFinalize (ckptHandle : Nat) (w : World) : SaAisErrorT × World :=
  let g := w.getCkpt ckptHandle
  if g.1 ≠ SA_AIS_OK then (g.1, g.2)
  else
    let inst := g.2.ckptInstanceOf ckptHandle
    let w1 := g.2.log (Event.lock (Mutex.ckpt_response ckptHandle))
    if inst.finalize ≠ 0 then
      (SA_AIS_ERR_BAD_HANDLE,
       (w1.log (Event.unlock (Mutex.ckpt_response ckptHandle))).putCkpt ckptHandle)
    else
      let w2 := (w1.setCkpt ckptHandle (fun i => { i with finalize := 1 })).log
        (Event.unlock (Mutex.ckpt_response ckptHandle))
      let w3 := finalizePutAll w2 inst.checkpoint_list
      let w4 := w3.destroyCkpt ckptHandle
      let w5 := if inst.response_fd ≠ -1 then
          (w4.log (Event.shutdown inst.response_fd)).log (Event.close inst.response_fd)
        else w4
      let w6 := if inst.dispatch_fd ≠ -1 then
          (w5.log (Event.shutdown inst.dispatch_fd)).log (Event.close inst.dispatch_fd)
        else w5
      (SA_AIS_OK, w6.putCkpt ckptHandle)

/-! ## Checkpoint open, close and the fixed-shape operations -/

/-- `saCkptCheckpointOpen`.  `checkpointHandle` is the content of the handle cell
before the call, the result holds its content afterwards.  The `timeout`
argument is accepted and not used. -/
def saCkptCheckpointOpen (env : Env) (K : Headers) (ckptHandle : Nat)
    (checkpointName : SaNameT)
    (checkpointCreationAttributes : Option SaCkptCheckpointCreationAttributesT)
    (checkpointOpenFlags : Nat) (timeout : Nat) (checkpointHandle : Nat) (w : World) :
    SaAisErrorT × Nat × World :=
  if checkpointOpenFlags &&& K.SA_CKPT_CHECKPOINT_CREATE ≠ 0 ∧
      checkpointCreationAttributes = none then
    (SA_AIS_ERR_INVALID_PARAM, checkpointHandle, w)
  else if checkpointOpenFlags &&& K.SA_CKPT_CHECKPOINT_CREATE = 0 ∧
      checkpointCreationAttributes ≠ none then
    (SA_AIS_ERR_INVALID_PARAM, checkpointHandle, w)
  else
    let g := w.getCkpt ckptHandle
    if g.1 ≠ SA_AIS_OK then (g.1, checkpointHandle, g.2)
    else
      let c := g.2.createCheckpoint env checkpointHandle
      if c.1 ≠ SA_AIS_OK then (c.1, c.2.1, c.2.2.putCkpt ckptHandle)
      else
        let g2 := c.2.2.getCheckpoint c.2.1
        if g2.1 ≠ SA_AIS_OK then
          (g2.1, c.2.1, (g2.2.destroyCheckpoint c.2.1).putCkpt ckptHandle)
        else
          let fd := (g2.2.ckptInstanceOf ckptHandle).response_fd
          let w1 := g2.2.setCheckpoint c.2.1 (fun _ =>
            ⟨fd, ckptHandle, c.2.1, checkpointOpenFlags, checkpointName⟩)
          let req : Request :=
            { Request.base MESSAGE_REQ_CKPT_CHECKPOINT_CHECKPOINTOPEN
                (headerSize K (K.sizeof_req MESSAGE_REQ_CKPT_CHECKPOINT_CHECKPOINTOPEN))
                checkpointName with
              checkpointCreationAttributesSet :=
                if checkpointCreationAttributes ≠ none then 1 else 0,
              checkpointCreationAttributes := checkpointCreationAttributes,
              checkpointOpenFlags := checkpointOpenFlags }
          let s := saSendRetry env fd (Segment.request req)
            (K.sizeof_req MESSAGE_REQ_CKPT_CHECKPOINT_CHECKPOINTOPEN) w1
          if s.1 ≠ SA_AIS_OK then
            (s.1, c.2.1,
             ((s.2.putCheckpoint c.2.1).destroyCheckpoint c.2.1).putCkpt ckptHandle)
          else
            let r := saRecvRetry env fd
              (K.sizeof_res MESSAGE_REQ_CKPT_CHECKPOINT_CHECKPOINTOPEN) s.2
            if r.1.error ≠ SA_AIS_OK then
              (r.1.error, c.2.1,
               ((r.2.putCheckpoint c.2.1).destroyCheckpoint c.2.1).putCkpt ckptHandle)
            else if r.1.msg.header.error ≠ SA_AIS_OK then
              (r.1.msg.header.error, c.2.1,
               ((r.2.putCheckpoint c.2.1).destroyCheckpoint c.2.1).putCkpt ckptHandle)
            else
              (r.1.error, c.2.1,
               ((r.2.putCheckpoint c.2.1).putCkpt ckptHandle).listAdd ckptHandle c.2.1)

/-- `saCkptCheckpointOpenAsync`.  The checkpoint handle is a local of the
function; the result holds it when one was created. -/
def saCkptCheckpointOpenAsync (env : Env) (K : Headers) (ckptHandle : Nat)
    (invocation : Nat) (checkpointName : SaNameT)
    (checkpointCreationAttributes : Option SaCkptCheckpointCreationAttributesT)
    (checkpointOpenFlags : Nat) (w : World) : SaAisErrorT × Option Nat × World :=
  if checkpointOpenFlags &&& K.SA_CKPT_CHECKPOINT_CREATE ≠ 0 ∧
      checkpointCreationAttributes = none then
    (SA_AIS_ERR_INVALID_PARAM, none, w)
  else if checkpointOpenFlags &&& K.SA_CKPT_CHECKPOINT_CREATE = 0 ∧
      checkpointCreationAttributes ≠ none then
    (SA_AIS_ERR_INVALID_PARAM, none, w)
  else
    let g := w.getCkpt ckptHandle
    if g.1 ≠ SA_AIS_OK then (g.1, none, g.2)
    else
      let c := g.2.createCheckpoint env 0
      if c.1 ≠ SA_AIS_OK then (c.1, none, c.2.2.putCkpt ckptHandle)
      else
        let g2 := c.2.2.getCheckpoint c.2.1
        if g2.1 ≠ SA_AIS_OK then
          (g2.1, some c.2.1, (g2.2.destroyCheckpoint c.2.1).putCkpt ckptHandle)
        else
          let fd := (g2.2.ckptInstanceOf ckptHandle).response_fd
          let w1 := g2.2.setCheckpoint c.2.1 (fun _ =>
            ⟨fd, ckptHandle, c.2.1, checkpointOpenFlags, checkpointName⟩)
          let req : Request :=
            { Request.base MESSAGE_REQ_CKPT_CHECKPOINT_CHECKPOINTOPENASYNC
                (headerSize K (K.sizeof_req MESSAGE_REQ_CKPT_CHECKPOINT_CHECKPOINTOPENASYNC))
                checkpointName with
              invocation := invocation,
              checkpointCreationAttributesSet :=
                if checkpointCreationAttributes ≠ none then 1 else 0,
              checkpointCreationAttributes := checkpointCreationAttributes,
              checkpointOpenFlags := checkpointOpenFlags,
              checkpointHandle := c.2.1 }
          let s := saSendRetry env fd (Segment.request req)
            (K.sizeof_req MESSAGE_REQ_CKPT_CHECKPOINT_CHECKPOINTOPENASYNC) w1
          if s.1 ≠ SA_AIS_OK then
            (s.1, some c.2.1,
             ((s.2.putCheckpoint c.2.1).destroyCheckpoint c.2.1).putCkpt ckptHandle)
          else
            (s.1, some c.2.1, (s.2.putCheckpoint c.2.1).putCkpt ckptHandle)

/-- `saCkptCheckpointClose`.  The result holds how the call ends and the state
it leaves; when `list_del` faults, that is the state before it. -/
def saCkptCheckpointClose (env : Env) (K : Headers) (checkpointHandle : Nat) (w : World) :
    Outcome × World :=
  let g := w.getCheckpoint checkpointHandle
  if g.1 ≠ SA_AIS_OK then (Outcome.returned g.1, g.2)
  else
    let inst := g.2.checkpointInstanceOf checkpointHandle
    let req := Request.base MESSAGE_REQ_CKPT_CHECKPOINT_CHECKPOINTCLOSE
      (headerSize K (K.sizeof_req MESSAGE_REQ_CKPT_CHECKPOINT_CHECKPOINTCLOSE))
      inst.checkpointName
    let s := saSendRetry env inst.response_fd (Segment.request req)
      (K.sizeof_req MESSAGE_REQ_CKPT_CHECKPOINT_CHECKPOINTCLOSE) g.2
    if s.1 ≠ SA_AIS_OK then (Outcome.returned s.1, s.2.putCheckpoint checkpointHandle)
    else
      let r := saRecvRetry env inst.response_fd
        (K.sizeof_res MESSAGE_REQ_CKPT_CHECKPOINT_CHECKPOINTCLOSE) s.2
      match r.2.listDel checkpointHandle with
      | Except.error fault => (fault, r.2)
      | Except.ok w1 =>
        (Outcome.returned r.1.error,
         (w1.destroyCheckpoint checkpointHandle).putCheckpoint checkpointHandle)

/-- `saCkptCheckpointRetentionDurationSet`. -/
def saCkptCheckpointRetentionDurationSet (env : Env) (K : Headers) (checkpointHandle : Nat)
    (retentionDuration : Nat) (w : World) : SaAisErrorT × World :=
  let g := w.getCheckpoint checkpointHandle
  if g.1 ≠ SA_AIS_OK then (g.1, g.2)
  else
    let inst := g.2.checkpointInstanceOf checkpointHandle
    let req : Request :=
      { Request.base MESSAGE_REQ_CKPT_CHECKPOINT_CHECKPOINTRETENTIONDURATIONSET
          (headerSize K
            (K.sizeof_req MESSAGE_REQ_CKPT_CHECKPOINT_CHECKPOINTRETENTIONDURATIONSET))
          inst.checkpointName with
        time := retentionDuration }
    let w1 := g.2.log (Event.lock (Mutex.checkpoint_response checkpointHandle))
    let s := saSendRetry env inst.response_fd (Segment.request req)
      (K.sizeof_req MESSAGE_REQ_CKPT_CHECKPOINT_CHECKPOINTRETENTIONDURATIONSET) w1
    if s.1 ≠ SA_AIS_OK then (s.1, s.2.putCheckpoint checkpointHandle)
    else
      let r := saRecvRetry env inst.response_fd
        (K.sizeof_res MESSAGE_REQ_CKPT_CHECKPOINT_CHECKPOINTRETENTIONDURATIONSET) s.2
      (statusOf r.1.error r.1.msg.header.error,
       (r.2.log (Event.unlock (Mutex.checkpoint_response checkpointHandle))).putCheckpoint
         checkpointHandle)

/-- `saCkptActiveReplicaSet`. -/
def saCkptActiveReplicaSet (env : Env) (K : Headers) (checkpointHandle : Nat) (w : World) :
    SaAisErrorT × World :=
  let g := w.getCheckpoint checkpointHandle
  if g.1 ≠ SA_AIS_OK then (g.1, g.2)
  else
    let inst := g.2.checkpointInstanceOf checkpointHandle
    if inst.checkpointOpenFlags &&& K.SA_CKPT_CHECKPOINT_WRITE = 0 then
      (SA_AIS_ERR_ACCESS, g.2.putCheckpoint checkpointHandle)
    else
      let req := Request.base MESSAGE_REQ_CKPT_ACTIVEREPLICASET
        (headerSize K (K.sizeof_req MESSAGE_REQ_CKPT_ACTIVEREPLICASET)) inst.checkpointName
      let w1 := g.2.log (Event.lock (Mutex.checkpoint_response checkpointHandle))
      let s := saSendRetry env inst.response_fd (Segment.request req)
        (K.sizeof_req MESSAGE_REQ_CKPT_ACTIVEREPLICASET) w1
      if s.1 ≠ SA_AIS_OK then (s.1, s.2.putCheckpoint checkpointHandle)
      else
        let r := saRecvRetry env inst.response_fd
          (K.sizeof_res MESSAGE_REQ_CKPT_ACTIVEREPLICASET) s.2
        (statusOf r.1.error r.1.msg.header.error,
         (r.2.log (Event.unlock (Mutex.checkpoint_response checkpointHandle))).putCheckpoint
           checkpointHandle)

/-- `saCkptCheckpointStatusGet`.  `checkpointStatus` is `none` for a NULL pointer
and else the content of the descriptor cell; the result holds the content of
the cell afterwards. -/
def saCkptCheckpointStatusGet (env : Env) (K : Headers) (checkpointHandle : Nat)
    (checkpointStatus : Option Nat) (w : World) : SaAisErrorT × Option Nat × World :=
  match checkpointStatus with
  | none => (SA_AIS_ERR_INVALID_PARAM, none, w)
  | some cell =>
    let g := w.getCheckpoint checkpointHandle
    if g.1 ≠ SA_AIS_OK then (g.1, some cell, g.2)
    else
      let inst := g.2.checkpointInstanceOf checkpointHandle
      let req := Request.base MESSAGE_REQ_CKPT_CHECKPOINT_CHECKPOINTSTATUSGET
        (headerSize K (K.sizeof_req MESSAGE_REQ_CKPT_CHECKPOINT_CHECKPOINTSTATUSGET))
        inst.checkpointName
      let w1 := g.2.log (Event.lock (Mutex.checkpoint_response checkpointHandle))
      let s := saSendRetry env inst.response_fd (Segment.request req)
        (K.sizeof_req MESSAGE_REQ_CKPT_CHECKPOINT_CHECKPOINTSTATUSGET) w1
      if s.1 ≠ SA_AIS_OK then (s.1, some cell, s.2.putCheckpoint checkpointHandle)
      else
        let r := saRecvRetry env inst.response_fd
          (K.sizeof_res MESSAGE_REQ_CKPT_CHECKPOINT_CHECKPOINTSTATUSGET) s.2
        if r.1.error ≠ SA_AIS_OK then
          (r.1.error, some cell, r.2.putCheckpoint checkpointHandle)
        else
          (statusOf r.1.error r.1.msg.header.error, some r.1.msg.checkpointDescriptor,
           (r.2.log (Event.unlock (Mutex.checkpoint_response checkpointHandle))).putCheckpoint
             checkpointHandle)

/-- `saCkptCheckpointSynchronize`.  The `timeout` argument is accepted and not
used. -/
def saCkptCheckpointSynchronize (env : Env) (K : Headers) (checkpointHandle : Nat)
    (timeout : Nat) (w : World) : SaAisErrorT × World :=
  let g := w.getCheckpoint checkpointHandle
  if g.1 ≠ SA_AIS_OK then (g.1, g.2)
  else
    let inst := g.2.checkpointInstanceOf checkpointHandle
    let req := Request.base MESSAGE_REQ_CKPT_CHECKPOINT_CHECKPOINTSYNCHRONIZE
      (headerSize K (K.sizeof_req MESSAGE_REQ_CKPT_CHECKPOINT_CHECKPOINTSYNCHRONIZE)) ⟨0, []⟩
    let w1 := g.2.log (Event.lock (Mutex.checkpoint_response checkpointHandle))
    let s := saSendRetry env inst.response_fd (Segment.request req)
      (K.sizeof_req MESSAGE_REQ_CKPT_CHECKPOINT_CHECKPOINTSYNCHRONIZE) w1
    if s.1 ≠ SA_AIS_OK then
      (s.1, (s.2.log (Event.unlock (Mutex.checkpoint_response checkpointHandle))).putCheckpoint
        checkpointHandle)
    else
      let r := saRecvRetry env inst.response_fd
        (K.sizeof_res MESSAGE_REQ_CKPT_CHECKPOINT_CHECKPOINTSYNCHRONIZE) s.2
      (statusOf r.1.error r.1.msg.header.error,
       (r.2.log (Event.unlock (Mutex.checkpoint_response checkpointHandle))).putCheckpoint
         checkpointHandle)

/-- `saCkptCheckpointSynchronizeAsync`: returns `SA_AIS_OK` at once. -/
def saCkptCheckpointSynchronizeAsync (ckptHandle : Nat) (checkpointHandle : Nat)
    (invocation : Nat) (w : World) : SaAisErrorT × World :=
  (SA_AIS_OK, w)

/-! ## Section operations -/

/-- `saCkptSectionCreate`. -/
def saCkptSectionCreate (env : Env) (K : Headers) (checkpointHandle : Nat)
    (sectionCreationAttributes : SaCkptSectionCreationAttributesT) (initialDataSize : Nat)
    (w : World) : SaAisErrorT × World :=
  let g := w.getCheckpoint checkpointHandle
  if g.1 ≠ SA_AIS_OK then (g.1, g.2)
  else
    let inst := g.2.checkpointInstanceOf checkpointHandle
    if inst.checkpointOpenFlags &&& K.SA_CKPT_CHECKPOINT_WRITE = 0 then
      (SA_AIS_ERR_ACCESS, g.2.putCheckpoint checkpointHandle)
    else
      let req : Request :=
        { Request.base MESSAGE_REQ_CKPT_CHECKPOINT_SECTIONCREATE
            (headerSize K (K.sizeof_req MESSAGE_REQ_CKPT_CHECKPOINT_SECTIONCREATE +
              sectionCreationAttributes.sectionId.idLen + initialDataSize))
            inst.checkpointName with
          idLen := sectionCreationAttributes.sectionId.idLen,
          time := sectionCreationAttributes.expirationTime,
          dataSize := initialDataSize }
      let w1 := g.2.log (Event.lock (Mutex.checkpoint_response checkpointHandle))
      let s := saSendRetry env inst.response_fd (Segment.request req)
        (K.sizeof_req MESSAGE_REQ_CKPT_CHECKPOINT_SECTIONCREATE) w1
      if s.1 ≠ SA_AIS_OK then (s.1, s.2.putCheckpoint checkpointHandle)
      else
        let s2 := saSendRetry env inst.response_fd Segment.sectionId
          sectionCreationAttributes.sectionId.idLen s.2
        if s2.1 ≠ SA_AIS_OK then (s2.1, s2.2.putCheckpoint checkpointHandle)
        else
          let s3 := saSendRetry env inst.response_fd Segment.data initialDataSize s2.2
          if s3.1 ≠ SA_AIS_OK then (s3.1, s3.2.putCheckpoint checkpointHandle)
          else
            let r := saRecvRetry env inst.response_fd
              (K.sizeof_res MESSAGE_REQ_CKPT_CHECKPOINT_SECTIONCREATE) s3.2
            (statusOf r.1.error r.1.msg.header.error,
             (r.2.log (Event.unlock (Mutex.checkpoint_response checkpointHandle))).putCheckpoint
               checkpointHandle)

/-- `saCkptSectionDelete`. -/
def saCkptSectionDelete (env : Env) (K : Headers) (checkpointHandle : Nat)
    (sectionId : SaCkptSectionIdT) (w : World) : SaAisErrorT × World :=
  let g := w.getCheckpoint checkpointHandle
  if g.1 ≠ SA_AIS_OK then (g.1, g.2)
  else
    let inst := g.2.checkpointInstanceOf checkpointHandle
    let w1 := g.2.log (Event.lock (Mutex.checkpoint_response checkpointHandle))
    let req : Request :=
      { Request.base MESSAGE_REQ_CKPT_CHECKPOINT_SECTIONDELETE
          (headerSize K (K.sizeof_req MESSAGE_REQ_CKPT_CHECKPOINT_SECTIONDELETE +
            sectionId.idLen))
          inst.checkpointName with
        idLen := sectionId.idLen }
    let s := saSendRetry env inst.response_fd (Segment.request req)
      (K.sizeof_req MESSAGE_REQ_CKPT_CHECKPOINT_SECTIONDELETE) w1
    if s.1 ≠ SA_AIS_OK then (s.1, s.2.putCheckpoint checkpointHandle)
    else
      let s2 := saSendRetry env inst.response_fd Segment.sectionId sectionId.idLen s.2
      if s2.1 ≠ SA_AIS_OK then (s2.1, s2.2.putCheckpoint checkpointHandle)
      else
        let r := saRecvRetry env inst.response_fd
          (K.sizeof_res MESSAGE_REQ_CKPT_CHECKPOINT_SECTIONDELETE) s2.2
        (statusOf r.1.error r.1.msg.header.error,
         (r.2.log (Event.unlock (Mutex.checkpoint_response checkpointHandle))).putCheckpoint
           checkpointHandle)

/-- `saCkptSectionExpirationTimeSet`. -/
def saCkptSectionExpirationTimeSet (env : Env) (K : Headers) (checkpointHandle : Nat)
    (sectionId : SaCkptSectionIdT) (expirationTime : Nat) (w : World) :
    SaAisErrorT × World :=
  let g := w.getCheckpoint checkpointHandle
  if g.1 ≠ SA_AIS_OK then (g.1, g.2)
  else
    let inst := g.2.checkpointInstanceOf checkpointHandle
    let req : Request :=
      { Request.base MESSAGE_REQ_CKPT_CHECKPOINT_SECTIONEXPIRATIONTIMESET
          (headerSize K (K.sizeof_req MESSAGE_REQ_CKPT_CHECKPOINT_SECTIONEXPIRATIONTIMESET +
            sectionId.idLen))
          inst.checkpointName with
        idLen := sectionId.idLen,
        time := expirationTime }
    let w1 := g.2.log (Event.lock (Mutex.checkpoint_response checkpointHandle))
    let s := saSendRetry env inst.response_fd (Segment.request req)
      (K.sizeof_req MESSAGE_REQ_CKPT_CHECKPOINT_SECTIONEXPIRATIONTIMESET) w1
    if s.1 ≠ SA_AIS_OK then (s.1, s.2.putCheckpoint checkpointHandle)
    else
      let s2 := if sectionId.idLen ≠ 0 then
          saSendRetry env inst.response_fd Segment.sectionId sectionId.idLen s.2
        else s
      if s2.1 ≠ SA_AIS_OK then (s2.1, s2.2.putCheckpoint checkpointHandle)
      else
        let r := saRecvRetry env inst.response_fd
          (K.sizeof_res MESSAGE_REQ_CKPT_CHECKPOINT_SECTIONEXPIRATIONTIMESET) s2.2
        (statusOf r.1.error r.1.msg.header.error,
         (r.2.log (Event.unlock (Mutex.checkpoint_response checkpointHandle))).putCheckpoint
           checkpointHandle)

/-- `saCkptSectionOverwrite`. -/
def saCkptSectionOverwrite (env : Env) (K : Headers) (checkpointHandle : Nat)
    (sectionId : SaCkptSectionIdT) (dataSize : Nat) (w : World) : SaAisErrorT × World :=
  let g := w.getCheckpoint checkpointHandle
  if g.1 ≠ SA_AIS_OK then (g.1, g.2)
  else
    let inst := g.2.checkpointInstanceOf checkpointHandle
    if inst.checkpointOpenFlags &&& K.SA_CKPT_CHECKPOINT_WRITE = 0 then
      (SA_AIS_ERR_ACCESS, g.2)
    else
      let req : Request :=
        { Request.base MESSAGE_REQ_CKPT_CHECKPOINT_SECTIONOVERWRITE
            (headerSize K (K.sizeof_req MESSAGE_REQ_CKPT_CHECKPOINT_SECTIONOVERWRITE +
              sectionId.idLen + dataSize))
            inst.checkpointName with
          idLen := sectionId.idLen,
          dataSize := dataSize }
      let w1 := g.2.log (Event.lock (Mutex.checkpoint_response checkpointHandle))
      let s := saSendRetry env inst.response_fd (Segment.request req)
        (K.sizeof_req MESSAGE_REQ_CKPT_CHECKPOINT_SECTIONOVERWRITE) w1
      if s.1 ≠ SA_AIS_OK then
        (s.1, (s.2.log (Event.unlock (Mutex.checkpoint_response checkpointHandle))).putCheckpoint
          checkpointHandle)
      else
        let s2 := if sectionId.idLen ≠ 0 then
            saSendRetry env inst.response_fd Segment.sectionId sectionId.idLen s.2
          else s
        if s2.1 ≠ SA_AIS_OK then
          (s2.1,
           (s2.2.log (Event.unlock (Mutex.checkpoint_response checkpointHandle))).putCheckpoint
             checkpointHandle)
        else
          let s3 := saSendRetry env inst.response_fd Segment.data dataSize s2.2
          if s3.1 ≠ SA_AIS_OK then
            (s3.1,
             (s3.2.log (Event.unlock (Mutex.checkpoint_response checkpointHandle))).putCheckpoint
               checkpointHandle)
          else
            let r := saRecvRetry env inst.response_fd
              (K.sizeof_res MESSAGE_REQ_CKPT_CHECKPOINT_SECTIONOVERWRITE) s3.2
            (statusOf r.1.error r.1.msg.header.error,
             (r.2.log (Event.unlock (Mutex.checkpoint_response checkpointHandle))).putCheckpoint
               checkpointHandle)

/-! ## Vectorized write and read -/

/-- The request `saCkptCheckpointWrite` builds for one element. -/
def writeRequest (K : Headers) (inst : ckptCheckpointInstance) (v : SaCkptIOVectorElementT) :
    Request :=
  { Request.base MESSAGE_REQ_CKPT_CHECKPOINT_SECTIONWRITE
      (headerSize K (K.sizeof_req MESSAGE_REQ_CKPT_CHECKPOINT_SECTIONWRITE +
        v.sectionId.idLen + v.dataSize))
      inst.checkpointName with
    dataOffset := v.dataOffset,
    dataSize := v.dataSize,
    idLen := v.sectionId.idLen }

/-- The `for` loop of `saCkptCheckpointWrite`, from index `i` on, over the
elements not yet written.  The arguments after the list are the values of
`error`, of `res_lib_ckpt_sectionwrite.header.error` and of the cell
`*erroneousVectorIndex` (`none` for a NULL pointer) on entry; the result holds
their values where the loop leaves for `error_exit`. -/
def writeLoop (env : Env) (K : Headers) (inst : ckptCheckpointInstance) :
    Nat → List SaCkptIOVectorElementT → SaAisErrorT → SaAisErrorT → Option Nat → World →
    SaAisErrorT × SaAisErrorT × Option Nat × World
  | _, [], error, res, idx, w => (error, res, idx, w)
  | i, v :: vs, _, res, idx, w =>
    let s := saSendMsgRetry env inst.response_fd
      [(Segment.request (writeRequest K inst v),
          K.sizeof_req MESSAGE_REQ_CKPT_CHECKPOINT_SECTIONWRITE),
       (Segment.sectionId, v.sectionId.idLen), (Segment.data, v.dataSize)] w
    if s.1 ≠ SA_AIS_OK then (s.1, res, idx, s.2)
    else
      let r := saRecvRetry env inst.response_fd
        (K.sizeof_res MESSAGE_REQ_CKPT_CHECKPOINT_SECTIONWRITE) s.2
      if r.1.error ≠ SA_AIS_OK then (r.1.error, res, idx, r.2)
      else if r.1.msg.header.error = SA_AIS_ERR_TRY_AGAIN then
        (SA_AIS_ERR_TRY_AGAIN, r.1.msg.header.error, idx, r.2)
      else if r.1.msg.header.error ≠ SA_AIS_OK then
        (r.1.error, r.1.msg.header.error, idx.map (fun _ => i), r.2)
      else writeLoop env K inst (i + 1) vs r.1.error r.1.msg.header.error idx r.2

/-- `saCkptCheckpointWrite`.  The array `ioVector` with its `numberOfElements` is
the list `ioVector`; `erroneousVectorIndex` is `none` for a NULL pointer and
else the content of the cell; `garbage` is the indeterminate initial value of
the local `res_lib_ckpt_sectionwrite.header.error`. -/
def saCkptCheckpointWrite (env : Env) (K : Headers) (garbage : SaAisErrorT)
    (checkpointHandle : Nat) (ioVector : List SaCkptIOVectorElementT)
    (erroneousVectorIndex : Option Nat) (w : World) : SaAisErrorT × Option Nat × World :=
  let g := w.getCheckpoint checkpointHandle
  if g.1 ≠ SA_AIS_OK then (g.1, erroneousVectorIndex, g.2)
  else
    let inst := g.2.checkpointInstanceOf checkpointHandle
    if inst.checkpointOpenFlags &&& K.SA_CKPT_CHECKPOINT_WRITE = 0 then
      (statusOf SA_AIS_ERR_ACCESS garbage, erroneousVectorIndex,
       g.2.putCheckpoint checkpointHandle)
    else
      let w1 := g.2.log (Event.lock (Mutex.checkpoint_response checkpointHandle))
      let l := writeLoop env K inst 0 ioVector g.1 garbage erroneousVectorIndex w1
      (statusOf l.1 l.2.1, l.2.2.1,
       (l.2.2.2.log (Event.unlock (Mutex.checkpoint_response checkpointHandle))).putCheckpoint
         checkpointHandle)

/-- The request `saCkptCheckpointRead` builds for one element. -/
def readRequest (K : Headers) (inst : ckptCheckpointInstance) (v : SaCkptIOVectorElementT) :
    Request :=
  { Request.base MESSAGE_REQ_CKPT_CHECKPOINT_SECTIONREAD
      (headerSize K (K.sizeof_req MESSAGE_REQ_CKPT_CHECKPOINT_SECTIONREAD +
        v.sectionId.idLen))
      inst.checkpointName with
    idLen := v.sectionId.idLen,
    dataOffset := v.dataOffset,
    dataSize := v.dataSize }

/-- The value of `dataLength` in `saCkptCheckpointRead`: the difference of the
received total size and the size of the response structure, in `size_t`
arithmetic, converted to `int`. -/
def readDataLength (K : Headers) (m : Message) : Int :=
  toInt32 (sizeSub m.header.size (K.sizeof_res MESSAGE_REQ_CKPT_CHECKPOINT_SECTIONREAD))

/-- The `for` loop of `saCkptCheckpointRead`, from index `i` on, over the elements
not yet read.  The arguments after the list are the values of `error`, of
`res_lib_ckpt_sectionread.header.error` and of the cell `*erroneousVectorIndex`
on entry; the result holds their values where the loop leaves for `error_exit`,
and the elements of the list as the loop leaves them. -/
def readLoop (env : Env) (K : Headers) (inst : ckptCheckpointInstance) :
    Nat → List SaCkptIOVectorElementT → SaAisErrorT → SaAisErrorT → Option Nat → World →
    SaAisErrorT × SaAisErrorT × Option Nat × List SaCkptIOVectorElementT × World
  | _, [], error, res, idx, w => (error, res, idx, [], w)
  | i, v :: vs, _, res, idx, w =>
    let s := saSendMsgRetry env inst.response_fd
      [(Segment.request (readRequest K inst v),
          K.sizeof_req MESSAGE_REQ_CKPT_CHECKPOINT_SECTIONREAD),
       (Segment.sectionId, v.sectionId.idLen)] w
    let r := saRecvRetry env inst.response_fd
      (K.sizeof_res MESSAGE_REQ_CKPT_CHECKPOINT_SECTIONREAD) s.2
    if r.1.error ≠ SA_AIS_OK then (r.1.error, res, idx, v :: vs, r.2)
    else
      let t := if 0 < readDataLength K r.1.msg then
          saRecvRetryTrailing env s.2.nRecv inst.response_fd (readDataLength K r.1.msg).toNat r.2
        else (r.1.error, r.2)
      if t.1 ≠ SA_AIS_OK then (t.1, r.1.msg.header.error, idx, v :: vs, t.2)
      else if r.1.msg.header.error ≠ SA_AIS_OK then
        (t.1, r.1.msg.header.error, idx.map (fun _ => i), v :: vs, t.2)
      else
        let l := readLoop env K inst (i + 1) vs t.1 r.1.msg.header.error idx t.2
        (l.1, l.2.1, l.2.2.1, { v with readSize := r.1.msg.dataRead } :: l.2.2.2.1, l.2.2.2.2)

/-- `saCkptCheckpointRead`.  The array `ioVector` with its `numberOfElements` is
the list `ioVector`, and the result holds the array afterwards;
`erroneousVectorIndex` is `none` for a NULL pointer and else the content of the
cell; `garbage` is the indeterminate initial value of the local
`res_lib_ckpt_sectionread.header.error`. -/
def saCkptCheckpointRead (env : Env) (K : Headers) (garbage : SaAisErrorT)
    (checkpointHandle : Nat) (ioVector : List SaCkptIOVectorElementT)
    (erroneousVectorIndex : Option Nat) (w : World) :
    SaAisErrorT × Option Nat × List SaCkptIOVectorElementT × World :=
  let g := w.getCheckpoint checkpointHandle
  if g.1 ≠ SA_AIS_OK then (g.1, erroneousVectorIndex, ioVector, g.2)
  else
    let inst := g.2.checkpointInstanceOf checkpointHandle
    if inst.checkpointOpenFlags &&& K.SA_CKPT_CHECKPOINT_READ = 0 then
      (SA_AIS_ERR_ACCESS, erroneousVectorIndex, ioVector, g.2)
    else
      let w1 := g.2.log (Event.lock (Mutex.checkpoint_response checkpointHandle))
      let l := readLoop env K inst 0 ioVector g.1 garbage erroneousVectorIndex w1
      (statusOf l.1 l.2.1, l.2.2.1, l.2.2.2.1,
       (l.2.2.2.2.log (Event.unlock (Mutex.checkpoint_response checkpointHandle))).putCheckpoint
         checkpointHandle)

/-! ## Section iteration -/

/-- `saCkptSectionIterationInitialize`.  `sectionIterationHandle` is the content
of the handle cell before the call, the result holds its content afterwards. -/
def saCkptSectionIterationInitialize (env : Env) (K : Headers) (checkpointHandle : Nat)
    (sectionsChosen : Nat) (expirationTime : Nat) (sectionIterationHandle : Nat) (w : World) :
    SaAisErrorT × Nat × World :=
  let g := w.getCheckpoint checkpointHandle
  if g.1 ≠ SA_AIS_OK then (g.1, sectionIterationHandle, g.2)
  else
    let inst := g.2.checkpointInstanceOf checkpointHandle
    let c := g.2.createIteration env sectionIterationHandle
    if c.1 ≠ SA_AIS_OK then (c.1, c.2.1, c.2.2.putCheckpoint checkpointHandle)
    else
      let g2 := c.2.2.getIteration c.2.1
      if g2.1 ≠ SA_AIS_OK then
        (g2.1, c.2.1, (g2.2.destroyIteration c.2.1).putCheckpoint checkpointHandle)
      else
        let w1 := g2.2.setIteration c.2.1 (fun _ => ⟨inst.response_fd, checkpointHandle, []⟩)
        let req : Request :=
          { Request.base MESSAGE_REQ_CKPT_SECTIONITERATOR_SECTIONITERATORINITIALIZE
              (headerSize K
                (K.sizeof_req MESSAGE_REQ_CKPT_SECTIONITERATOR_SECTIONITERATORINITIALIZE))
              inst.checkpointName with
            sectionsChosen := sectionsChosen,
            time := expirationTime }
        let w2 := w1.log (Event.lock (Mutex.iteration_response c.2.1))
        let s := saSendRetry env inst.response_fd (Segment.request req)
          (K.sizeof_req MESSAGE_REQ_CKPT_SECTIONITERATOR_SECTIONITERATORINITIALIZE) w2
        if s.1 ≠ SA_AIS_OK then
          (s.1, c.2.1,
           ((s.2.putIteration c.2.1).destroyIteration c.2.1).putCheckpoint checkpointHandle)
        else
          let r := saRecvRetry env inst.response_fd
            (K.sizeof_res MESSAGE_REQ_CKPT_SECTIONITERATOR_SECTIONITERATORINITIALIZE) s.2
          (statusOf r.1.error r.1.msg.header.error, c.2.1,
           (r.2.log (Event.unlock (Mutex.iteration_response c.2.1))).putIteration c.2.1)

/-- `saCkptSectionIterationNext`.  `sectionDescriptor` is the content of the
descriptor cell before the call, the result holds its content afterwards.  The
identifier buffer allocated by the call is named by the number of allocations
made before it. -/
def saCkptSectionIterationNext (env : Env) (K : Headers) (sectionIterationHandle : Nat)
    (sectionDescriptor : SaCkptSectionDescriptorT) (w : World) :
    SaAisErrorT × SaCkptSectionDescriptorT × World :=
  let g := w.getIteration sectionIterationHandle
  if g.1 ≠ SA_AIS_OK then (g.1, sectionDescriptor, g.2)
  else
    let inst := g.2.iterationInstanceOf sectionIterationHandle
    let buf := g.2.nAlloc
    if env.alloc g.2.nAlloc = false then
      (SA_AIS_ERR_NO_MEMORY, sectionDescriptor,
       ({ g.2 with nAlloc := g.2.nAlloc + 1 }).putIteration sectionIterationHandle)
    else
      let w1 := ({ g.2 with nAlloc := g.2.nAlloc + 1 }).log
        (Event.malloc buf (K.sizeof_list_head + 500))
      let req := Request.base MESSAGE_REQ_CKPT_SECTIONITERATOR_SECTIONITERATORNEXT
        (headerSize K (K.sizeof_req MESSAGE_REQ_CKPT_SECTIONITERATOR_SECTIONITERATORNEXT))
        ⟨0, []⟩
      let w2 := w1.log (Event.lock (Mutex.iteration_response sectionIterationHandle))
      let s := saSendRetry env inst.response_fd (Segment.request req)
        (K.sizeof_req MESSAGE_REQ_CKPT_SECTIONITERATOR_SECTIONITERATORNEXT) w2
      if s.1 ≠ SA_AIS_OK then
        (s.1, sectionDescriptor,
         (s.2.log (Event.unlock (Mutex.iteration_response sectionIterationHandle))).putIteration
           sectionIterationHandle)
      else
        let r := saRecvRetry env inst.response_fd
          (K.sizeof_res MESSAGE_REQ_CKPT_SECTIONITERATOR_SECTIONITERATORNEXT) s.2
        if r.1.error ≠ SA_AIS_OK then
          (r.1.error, sectionDescriptor,
           (r.2.log (Event.unlock (Mutex.iteration_response sectionIterationHandle))).putIteration
             sectionIterationHandle)
        else
          let t := if 0 < sizeSub r.1.msg.header.size
                (K.sizeof_res MESSAGE_REQ_CKPT_SECTIONITERATOR_SECTIONITERATORNEXT) then
              saRecvRetryTrailing env s.2.nRecv inst.response_fd
                (sizeSub r.1.msg.header.size
                  (K.sizeof_res MESSAGE_REQ_CKPT_SECTIONITERATOR_SECTIONITERATORNEXT)) r.2
            else (r.1.error, r.2)
          let w3 := if t.1 = SA_AIS_OK ∧ r.1.msg.header.error = SA_AIS_OK then
              t.2.setIteration sectionIterationHandle
                (fun i => { i with sectionIdListHead := buf :: i.sectionIdListHead })
            else t.2
          (statusOf t.1 r.1.msg.header.error, ⟨r.1.msg.sectionDescriptor, some buf⟩,
           (w3.log (Event.unlock (Mutex.iteration_response sectionIterationHandle))).putIteration
             sectionIterationHandle)

/-- `saCkptSectionIterationFinalize`. -/
def saCkptSectionIterationFinalize (sectionIterationHandle : Nat) (w : World) :
    SaAisErrorT × World :=
  let g := w.getIteration sectionIterationHandle
  if g.1 ≠ SA_AIS_OK then (g.1, g.2)
  else
    let inst := g.2.iterationInstanceOf sectionIterationHandle
    let w1 := inst.sectionIdListHead.foldl (fun w b => w.log (Event.free b)) g.2
    (g.1,
     ((w1.putCheckpoint inst.checkpointHandle).putIteration
       sectionIterationHandle).destroyIteration sectionIterationHandle)

/-! ## Dispatch -/

/-- The result of one pass through the body of the `do` loop of
`saCkptDispatch`: the call is over, or the loop goes round again. -/
inductive Step where
  | done (o : Outcome) (w : World)
  | again (w : World)
  deriving DecidableEq, Repr

/-- The exit through `error_unlock`: unlock the dispatch mutex, put the library
handle, return `error`. -/
def dispatchErrorUnlock (ckptHandle : Nat) (error : SaAisErrorT) (w : World) : Step :=
  Step.done (Outcome.returned error)
    ((w.log (Event.unlock (Mutex.ckpt_dispatch ckptHandle))).putCkpt ckptHandle)

/-- The end of the loop body: in `SA_DISPATCH_ONE` mode `cont` becomes 0, the
loop ends and control falls into `error_unlock`; in the other modes the loop
goes round again. -/
def dispatchMore (ckptHandle : Nat) (dispatchFlags : SaDispatchFlagsT) (error : SaAisErrorT)
    (w : World) : Step :=
  if dispatchFlags = SaDispatchFlagsT.SA_DISPATCH_ONE then dispatchErrorUnlock ckptHandle error w
  else Step.again w

/-- The message `dispatch_data` holds after the receives: the zeroed overlay
with the received header, and the received body when one was received. -/
def dispatchData (hasBody : Bool) (m : Message) : Message :=
  if hasBody then m else ⟨m.header, 0, 0, 0, 0, 0⟩

/-- One pass through the body of the `do` loop of `saCkptDispatch`.  The body of
a message is received into `dispatch_data.data`: when the header declares more
body bytes than `data` holds and the receive succeeds, the receive has written
past the end of the overlay and the pass ends in `Outcome.bufferOverflow`. -/
def dispatchBody (env : Env) (K : Headers) (ckptHandle : Nat)
    (dispatchFlags : SaDispatchFlagsT) (timeout : Int) (w : World) : Step :=
  let inst := w.ckptInstanceOf ckptHandle
  let p := saPollRetry env inst.dispatch_fd timeout w
  if p.1.error ≠ SA_AIS_OK then Step.done (Outcome.returned p.1.error) (p.2.putCkpt ckptHandle)
  else
    let w1 := p.2.log (Event.lock (Mutex.ckpt_dispatch ckptHandle))
    if inst.finalize = 1 then dispatchErrorUnlock ckptHandle SA_AIS_OK w1
    else if p.1.revents.pollerr ∨ p.1.revents.pollhup ∨ p.1.revents.pollnval then
      dispatchErrorUnlock ckptHandle SA_AIS_ERR_BAD_HANDLE w1
    else if p.1.revents.pollin = false ∧ dispatchFlags = SaDispatchFlagsT.SA_DISPATCH_ALL then
      dispatchErrorUnlock ckptHandle p.1.error
        (w1.log (Event.unlock (Mutex.ckpt_dispatch ckptHandle)))
    else if p.1.revents.pollin = false then
      Step.again (w1.log (Event.unlock (Mutex.ckpt_dispatch ckptHandle)))
    else
      let r := saRecvRetry env inst.dispatch_fd K.sizeof_res_header w1
      if r.1.error ≠ SA_AIS_OK then dispatchErrorUnlock ckptHandle r.1.error r.2
      else
        let hasBody := decide (K.sizeof_res_header < r.1.msg.header.size)
        let t := if hasBody then
            saRecvRetryTrailing env w1.nRecv inst.dispatch_fd
              (r.1.msg.header.size - K.sizeof_res_header) r.2
          else (r.1.error, r.2)
        if t.1 ≠ SA_AIS_OK then dispatchErrorUnlock ckptHandle t.1 t.2
        else if sizeof_message_overlay_data < r.1.msg.header.size - K.sizeof_res_header then
          Step.done Outcome.bufferOverflow t.2
        else
          let data := dispatchData hasBody r.1.msg
          let callbacks := inst.callbacks
          let w2 := t.2.log (Event.unlock (Mutex.ckpt_dispatch ckptHandle))
          if data.header.id = K.MESSAGE_RES_CKPT_CHECKPOINT_CHECKPOINTOPENASYNC then
            match callbacks.saCkptCheckpointOpenCallback with
            | none => Step.again w2
            | some fn =>
              let g := w2.getCheckpoint data.checkpointHandle
              if g.1 ≠ SA_AIS_OK then Step.done Outcome.assertionFailed g.2
              else if data.header.error = SA_AIS_OK then
                dispatchMore ckptHandle dispatchFlags g.1
                  (((g.2.listAdd ckptHandle data.checkpointHandle).log
                    (Event.callback fn data.invocation (data.checkpointHandle : Int)
                      data.header.error)).putCheckpoint data.checkpointHandle)
              else
                dispatchMore ckptHandle dispatchFlags g.1
                  (((g.2.putCheckpoint data.checkpointHandle).destroyCheckpoint
                    data.checkpointHandle).log
                    (Event.callback fn data.invocation (-1) data.header.error))
          else dispatchMore ckptHandle dispatchFlags t.1 w2

/-- The `do` loop of `saCkptDispatch`, for at most `fuel` passes; `none` when
the loop has not ended by then. -/
def dispatchLoop (env : Env) (K : Headers) (ckptHandle : Nat)
    (dispatchFlags : SaDispatchFlagsT) (timeout : Int) : Nat → World → Option (Outcome × World)
  | 0, _ => none
  | fuel + 1, w =>
    match dispatchBody env K ckptHandle dispatchFlags timeout w with
    | Step.done o w1 => some (o, w1)
    | Step.again w1 => dispatchLoop env K ckptHandle dispatchFlags timeout fuel w1

/-- `saCkptDispatch`, for at most `fuel` passes through its loop. -/
def saCkptDispatch (env : Env) (K : Headers) (ckptHandle : Nat)
    (dispatchFlags : SaDispatchFlagsT) (fuel : Nat) (w : World) : Option (Outcome × World) :=
  if dispatchFlags ≠ SaDispatchFlagsT.SA_DISPATCH_ONE ∧
      dispatchFlags ≠ SaDispatchFlagsT.SA_DISPATCH_ALL ∧
      dispatchFlags ≠ SaDispatchFlagsT.SA_DISPATCH_BLOCKING then
    some (Outcome.returned SA_AIS_ERR_INVALID_PARAM, w)
  else
    let g := w.getCkpt ckptHandle
    if g.1 ≠ SA_AIS_OK then some (Outcome.returned g.1, g.2)
    else
      dispatchLoop env K ckptHandle dispatchFlags
        (if dispatchFlags = SaDispatchFlagsT.SA_DISPATCH_ALL then 0 else 1) fuel g.2

/-! ## Exchanges of the vectorized operations, as events -/

/-- The process state after one send call and one receive of a fixed part that
together logged `evs`. -/
def World.exchanged (w : World) (evs : List Event) : World :=
  { w with nSend := w.nSend + 1, nRecv := w.nRecv + 1, trace := w.trace ++ evs }

/-- The events of the exchange of `saCkptCheckpointWrite` for one element: the
three-segment send and the receive of the response. -/
def writeExchange (K : Headers) (inst : ckptCheckpointInstance) (v : SaCkptIOVectorElementT) :
    List Event :=
  [Event.sendMsg inst.response_fd
     [(Segment.request (writeRequest K inst v),
        K.sizeof_req MESSAGE_REQ_CKPT_CHECKPOINT_SECTIONWRITE),
      (Segment.sectionId, v.sectionId.idLen), (Segment.data, v.dataSize)],
   Event.recv inst.response_fd (K.sizeof_res MESSAGE_REQ_CKPT_CHECKPOINT_SECTIONWRITE)]

/-- The status the spec gives to a synchronous exchange made from state `w`:
the transport error of the send when it fails, else the transport error of the
receive when that fails, else the status embedded in the header of the
response. -/
def gatewayStatus (env : Env) (w : World) : SaAisErrorT :=
  if env.send w.nSend ≠ SA_AIS_OK then env.send w.nSend
  else if (env.recv w.nRecv).error ≠ SA_AIS_OK then (env.recv w.nRecv).error
  else (env.recv w.nRecv).msg.header.error

/-- The descriptors closed by the events of a trace, in order. -/
def closes : List Event → List Int
  | [] => []
  | Event.close fd :: es => fd :: closes es
  | _ :: es => closes es

/-- The statuses returned by `n` successive calls of `saCkptFinalize` on the
handle `ckptHandle`, and the state after the last. -/
def finalizeTimes (ckptHandle : Nat) : Nat → World → List SaAisErrorT × World
  | 0, w => ([], w)
  | n + 1, w =>
    ((saCkptFinalize ckptHandle w).1 :: (finalizeTimes ckptHandle n (saCkptFinalize ckptHandle w).2).1,
     (finalizeTimes ckptHandle n (saCkptFinalize ckptHandle w).2).2)

/-- The state a `Step` carries. -/
def Step.world : Step → World
  | Step.done _ w => w
  | Step.again w => w

/-- The notification that the next pass of the loop of `saCkptDispatch` reads in
state `w`: the content of `dispatch_data` after the receives. -/
def notification (env : Env) (K : Headers) (w : World) : Message :=
  dispatchData (decide (K.sizeof_res_header < (env.recv w.nRecv).msg.header.size))
    (env.recv w.nRecv).msg

/-- The events of one pass of the loop of `saCkptDispatch` up to the release of
the dispatch mutex, when the poll reports readable data and message `m` is
received: the poll, the lock, the receive of the header, the receive of the
body when the header declares one, and the unlock. -/
def dispatchReceive (K : Headers) (inst : ckptInstance) (ckptHandle : Nat) (timeout : Int)
    (m : Message) : List Event :=
  [Event.poll inst.dispatch_fd timeout, Event.lock (Mutex.ckpt_dispatch ckptHandle),
   Event.recv inst.dispatch_fd K.sizeof_res_header] ++
  (if K.sizeof_res_header < m.header.size then
    [Event.recv inst.dispatch_fd (m.header.size - K.sizeof_res_header)] else []) ++
  [Event.unlock (Mutex.ckpt_dispatch ckptHandle)]

/-- The process state after one poll and the receive of one message that
together logged `evs`. -/
def World.received (w : World) (evs : List Event) : World :=
  { w with nPoll := w.nPoll + 1, nRecv := w.nRecv + 1, trace := w.trace ++ evs }

/-- The events after the callback of a pass of the loop of `saCkptDispatch`: in
`SA_DISPATCH_ONE` mode the exit through `error_unlock`, in the other modes
none. -/
def dispatchExit (ckptHandle : Nat) (dispatchFlags : SaDispatchFlagsT) : List Event :=
  if dispatchFlags = SaDispatchFlagsT.SA_DISPATCH_ONE then
    [Event.unlock (Mutex.ckpt_dispatch ckptHandle), Event.instancePut Db.ckpt ckptHandle]
  else []

/-! ## Concrete inputs -/

/-- Header constants for the examples: READ = 1, WRITE = 2, CREATE = 4, the
open-completed notification has id 7, 32-bit header sizes, a 12-byte response
header, a 16-byte list head, 64-byte requests and 16-byte responses. -/
def K0 : Headers := ⟨1, 2, 4, 7, 32, 12, 16, fun _ => 64, fun _ => 16⟩

/-- A response message of total size 16 with the given embedded status. -/
def reply (status : SaAisErrorT) : Message := ⟨⟨16, 0, status⟩, 0, 0, 5, 0, 0⟩

/-- An environment where every transport call succeeds, every allocation
succeeds, the connect yields the descriptors 3 and 4, every poll reports
readable data, and the server answers every request with `status`. -/
def envReply (status : SaAisErrorT) : Env :=
  ⟨fun _ => SA_AIS_OK, fun _ => ⟨SA_AIS_OK, reply status, SA_AIS_OK⟩,
   fun _ => ⟨SA_AIS_OK, ⟨true, false, false, false⟩⟩, fun _ => true,
   fun _ => ⟨SA_AIS_OK, 3, 4⟩⟩

/-- The environment `envReply SA_AIS_OK` with every send failing with the
transport error `other 2`. -/
def envSendFails : Env :=
  { envReply SA_AIS_OK with send := fun _ => SaAisErrorT.other 2 }

/-- The environment `envReply status` where each message is an open-completed
notification (id 7 of `K0`) of total size 40 for invocation 11 and checkpoint
handle 0. -/
def envNotify (status : SaAisErrorT) : Env :=
  { envReply status with
    recv := fun _ => ⟨SA_AIS_OK, ⟨⟨40, 7, status⟩, 11, 0, 0, 0, 0⟩, SA_AIS_OK⟩ }

/-- The process state before any call. -/
def World.empty : World := ⟨[], [], [], 0, 0, 0, 0, 0, []⟩

/-- The name used in the examples. -/
def name0 : SaNameT := ⟨1, [99]⟩

/-- A process state with one library instance (handle 0, descriptors 3 and 4,
open callback `cb`) and one checkpoint instance (handle 0) opened on it with
the flags `flags` and linked into its checkpoint list. -/
def worldWith (flags : Nat) (cb : Option Nat) : World :=
  ⟨[⟨HandleState.ACTIVE, 1, ⟨3, 4, ⟨cb, none⟩, 0, [0]⟩⟩],
   [⟨HandleState.ACTIVE, 1, ⟨3, 0, 0, flags, name0⟩⟩], [], 0, 0, 0, 0, 0, []⟩

/-- A section identifier of two bytes. -/
def sid0 : SaCkptSectionIdT := ⟨2, [1, 2]⟩

/-- An I/O vector element for section `sid0` with 8 bytes of data. -/
def iov0 : SaCkptIOVectorElementT := ⟨sid0, 8, 0, 0⟩

/-! ## Observations on traces -/

/-- The callback events of a trace, in order. -/
def callbacksOf : List Event → List Event
  | [] => []
  | Event.callback fn i h e :: es => Event.callback fn i h e :: callbacksOf es
  | _ :: es => callbacksOf es

/-- The timeouts of the polls of a trace, in order. -/
def pollTimeouts : List Event → List Int
  | [] => []
  | Event.poll _ t :: es => t :: pollTimeouts es
  | _ :: es => pollTimeouts es

/-- The lengths of the receives of a trace, in order. -/
def recvSizes : List Event → List Nat
  | [] => []
  | Event.recv _ len :: es => len :: recvSizes es
  | _ :: es => recvSizes es

/-- The buffers allocated by the events of a trace, in order. -/
def mallocs : List Event → List Nat
  | [] => []
  | Event.malloc b _ :: es => b :: mallocs es
  | _ :: es => mallocs es

/-- The buffers freed by the events of a trace, in order. -/
def frees : List Event → List Nat
  | [] => []
  | Event.free b :: es => b :: frees es
  | _ :: es => frees es

/-- Whether every send and receive of a trace happens while the mutex `m` is
held; `held` tells whether it is held where the trace starts. -/
def underLock (m : Mutex) : Bool → List Event → Bool
  | _, [] => true
  | held, Event.lock m2 :: es => underLock m (held || decide (m2 = m)) es
  | held, Event.unlock m2 :: es => underLock m (held && decide (m2 ≠ m)) es
  | held, Event.send _ _ _ :: es => held && underLock m held es
  | held, Event.sendMsg _ _ :: es => held && underLock m held es
  | held, Event.recv _ _ :: es => held && underLock m held es
  | held, _ :: es => underLock m held es

/-- The environment `env` with the status embedded in the response to message
`i` replaced by `s`; nothing else differs. -/
def Env.withStatusAt (env : Env) (i : Nat) (s : SaAisErrorT) : Env :=
  { env with
    recv := fun n =>
      if n = i then
        { env.recv n with
          msg := { (env.recv n).msg with
            header := { (env.recv n).msg.header with error := s } } }
      else env.recv n }

/-- The notification made of message `i` of the environment: the content of
`dispatch_data` after the receives of that message. -/
def notificationAt (env : Env) (K : Headers) (i : Nat) : Message :=
  dispatchData (decide (K.sizeof_res_header < (env.recv i).msg.header.size)) (env.recv i).msg

/-- The callback event that the open-completed notification `m` calls for: the
invocation, the checkpoint handle and OK when its status is OK, and the
invocation, -1 and the status otherwise. -/
def expectedCallback (fn : Nat) (m : Message) : Event :=
  if m.header.error = SA_AIS_OK then
    Event.callback fn m.invocation (m.checkpointHandle : Int) SA_AIS_OK
  else Event.callback fn m.invocation (-1) m.header.error

/-- The callback events that the `n` notifications made of the messages `start`,
`start + 1`, ... call for, in the order of arrival. -/
def expectedCallbacks (env : Env) (K : Headers) (fn : Nat) : Nat → Nat → List Event
  | _, 0 => []
  | start, n + 1 =>
    expectedCallback fn (notificationAt env K start) :: expectedCallbacks env K fn (start + 1) n

/-- The state after the pass of the loop of `saCkptDispatch` that consumes the
open-completed notification read in state `w`, the callback `fn` being
registered: the receive, then link, callback and put when the status is OK, and
put, destroy and callback otherwise. -/
def afterNotification (env : Env) (K : Headers) (ckptHandle : Nat) (timeout : Int) (fn : Nat)
    (w : World) : World :=
  if (notification env K w).header.error = SA_AIS_OK then
    ((((w.received (dispatchReceive K (w.ckptInstanceOf ckptHandle) ckptHandle timeout
        (env.recv w.nRecv).msg)).getCheckpoint
        (notification env K w).checkpointHandle).2.listAdd ckptHandle
        (notification env K w).checkpointHandle).log
      (Event.callback fn (notification env K w).invocation
        ((notification env K w).checkpointHandle : Int)
        (notification env K w).header.error)).putCheckpoint
      (notification env K w).checkpointHandle
  else
    ((((w.received (dispatchReceive K (w.ckptInstanceOf ckptHandle) ckptHandle timeout
        (env.recv w.nRecv).msg)).getCheckpoint
        (notification env K w).checkpointHandle).2.putCheckpoint
        (notification env K w).checkpointHandle).destroyCheckpoint
        (notification env K w).checkpointHandle).log
      (Event.callback fn (notification env K w).invocation (-1)
        (notification env K w).header.error)

/-! ## More concrete inputs -/

/-- The environment `envReply SA_AIS_OK` with every receive failing with the
transport error `other 2`. -/
def envRecvFails : Env :=
  { envReply SA_AIS_OK with
    recv := fun _ => ⟨SaAisErrorT.other 2, reply SA_AIS_OK, SA_AIS_OK⟩ }

/-- The environment `envReply SA_AIS_OK` where the messages 0 and 1 are
open-completed notifications (as in `envNotify`) and every later message is of
another kind (id 0). -/
def envNotifyTwice : Env :=
  { envReply SA_AIS_OK with
    recv := fun n =>
      if n < 2 then ⟨SA_AIS_OK, ⟨⟨40, 7, SA_AIS_OK⟩, 11, 0, 0, 0, 0⟩, SA_AIS_OK⟩
      else ⟨SA_AIS_OK, reply SA_AIS_OK, SA_AIS_OK⟩ }

/-- The environment `envNotify status` where the polls 0, 1 and 2 report
readable data and every later poll reports none: three queued notifications
followed by an empty queue. -/
def envQueue3 (status : SaAisErrorT) : Env :=
  { envNotify status with
    poll := fun n => ⟨SA_AIS_OK, ⟨decide (n < 3), false, false, false⟩⟩ }

/-- The environment `envReply SA_AIS_OK` where the server answers message 2 (the
second `next` of an iteration begun at message 0) with the status `other 27`. -/
def envSecondNextFails : Env :=
  { envReply SA_AIS_OK with
    recv := fun n =>
      if n = 2 then ⟨SA_AIS_OK, reply (SaAisErrorT.other 27), SA_AIS_OK⟩
      else ⟨SA_AIS_OK, reply SA_AIS_OK, SA_AIS_OK⟩ }

/-- The environment `envReply SA_AIS_OK` where every response declares a total
size of 517 bytes: 501 bytes beyond the 16 bytes of a response structure of
`K0`. -/
def envLongId : Env :=
  { envReply SA_AIS_OK with
    recv := fun _ => ⟨SA_AIS_OK, ⟨⟨517, 0, SA_AIS_OK⟩, 0, 0, 5, 0, 0⟩, SA_AIS_OK⟩ }

/-- A section descriptor cell before any `next`. -/
def descriptor0 : SaCkptSectionDescriptorT := ⟨0, none⟩

/-- The run of the spec's example on the example state: an iteration is
initialized on the checkpoint handle 0, `saCkptSectionIterationNext` is called
three times on the iterator handle it hands back, and the iterator is
finalized.  The result is the final state. -/
def iterationRun (env : Env) : World :=
  let i := saCkptSectionIterationInitialize env K0 0 0 0 9 (worldWith 3 none)
  let n1 := saCkptSectionIterationNext env K0 i.2.1 descriptor0 i.2.2
  let n2 := saCkptSectionIterationNext env K0 i.2.1 n1.2.1 n1.2.2
  let n3 := saCkptSectionIterationNext env K0 i.2.1 n2.2.1 n2.2.2
  (saCkptSectionIterationFinalize i.2.1 n3.2.2).2

/-- The example state after an iteration was initialized on the checkpoint
handle 0, the server answering OK: the iterator handle 0 is live. -/
def worldIter : World :=
  (saCkptSectionIterationInitialize (envReply SA_AIS_OK) K0 0 0 0 9 (worldWith 3 none)).2.2

/-- The number of locks of the mutex `m` less the number of its unlocks in a
trace: 1 when the events of a call leave the mutex held, 0 when they release
it. -/
def heldAfter (m : Mutex) (evs : List Event) : Int :=
  (evs.count (Event.lock m) : Int) - (evs.count (Event.unlock m) : Int)

/-- The environment `envReply SA_AIS_OK` where every poll reports readable data
together with a hang-up. -/
def envHangup : Env :=
  { envReply SA_AIS_OK with poll := fun _ => ⟨SA_AIS_OK, ⟨true, false, true, false⟩⟩ }

/-- The example state `worldWith 3 none` with the finalize flag of the library
instance set. -/
def worldFinalizing : World :=
  (worldWith 3 none).setCkpt 0 (fun i => { i with finalize := 1 })
/-- Whether every unlock of the mutex `m` in a trace happens while `m` is held;
`held` is the number of locks of `m` less the number of its unlocks where the
trace starts. -/
def unlocksHeld (m : Mutex) : Nat → List Event → Bool
  | _, [] => true
  | held, Event.lock m2 :: es => unlocksHeld m (if m2 = m then held + 1 else held) es
  | held, Event.unlock m2 :: es =>
    if m2 = m then decide (0 < held) && unlocksHeld m (held - 1) es
    else unlocksHeld m held es
  | held, _ :: es => unlocksHeld m held es

/-- The environment `envReply SA_AIS_OK` where message 0 is an open-completed
notification (id 7 of `K0`) of total size 40 with the status `status` for
invocation 11 and checkpoint handle 0, and every later message is of another
kind (id 0). -/
def envNotifyOnce (status : SaAisErrorT) : Env :=
  { envReply SA_AIS_OK with
    recv := fun n =>
      if n = 0 then ⟨SA_AIS_OK, ⟨⟨40, 7, status⟩, 11, 0, 0, 0, 0⟩, SA_AIS_OK⟩
      else ⟨SA_AIS_OK, reply SA_AIS_OK, SA_AIS_OK⟩ }

/-- The environment `envReply SA_AIS_OK` where no poll reports anything: an empty
notification queue. -/
def envEmptyQueue : Env :=
  { envReply SA_AIS_OK with poll := fun _ => ⟨SA_AIS_OK, ⟨false, false, false, false⟩⟩ }

/-- The environment `envReply SA_AIS_OK` where every poll fails with the
transport error `other 2`. -/
def envPollFails : Env :=
  { envReply SA_AIS_OK with
    poll := fun _ => ⟨SaAisErrorT.other 2, ⟨false, false, false, false⟩⟩ }

/-- A process state with one library instance (handle 0, descriptors 3 and 4,
open callback `cb`, empty checkpoint list) and no checkpoint. -/
def worldLib (cb : Option Nat) : World :=
  ⟨[⟨HandleState.ACTIVE, 1, ⟨3, 4, ⟨cb, none⟩, 0, []⟩⟩], [], [], 0, 0, 0, 0, 0, []⟩

/-- The state after `saCkptCheckpointOpenAsync` for invocation 11 with the flags
3 on the library handle 0 of `worldLib cb`, the send succeeding: the checkpoint
handle 0 is live and not yet linked into the checkpoint list. -/
def worldPending (cb : Option Nat) : World :=
  (saCkptCheckpointOpenAsync (envReply SA_AIS_OK) K0 0 11 name0 none 3 (worldLib cb)).2.2

/-- The environment `envReply SA_AIS_OK` where the polls 0, 1 and 2 report
readable data and every later poll reports none, and message n is an
open-completed notification (id 7 of `K0`) of total size 40 with the status OK
for invocation 11 + n and checkpoint handle n: three queued notifications, each
for a handle of its own, followed by an empty queue. -/
def envQueueThree : Env :=
  { envReply SA_AIS_OK with
    poll := fun n => ⟨SA_AIS_OK, ⟨decide (n < 3), false, false, false⟩⟩,
    recv := fun n => ⟨SA_AIS_OK, ⟨⟨40, 7, SA_AIS_OK⟩, 11 + n, n, 0, 0, 0⟩, SA_AIS_OK⟩ }

/-- The state after three calls of `saCkptCheckpointOpenAsync` (invocations 11,
12 and 13, flags 3) on the library handle 0 of `worldLib cb`, the sends
succeeding: the checkpoint handles 0, 1 and 2 are live and not yet linked. -/
def worldPending3 (cb : Option Nat) : World :=
  (saCkptCheckpointOpenAsync (envReply SA_AIS_OK) K0 0 13 name0 none 3
    (saCkptCheckpointOpenAsync (envReply SA_AIS_OK) K0 0 12 name0 none 3
      (worldPending cb)).2.2).2.2

/-- The environment `envReply SA_AIS_OK` where every message is of another kind
than open-completed (id 0) and declares the total size `size`. -/
def envMessageOfSize (size : Nat) : Env :=
  { envReply SA_AIS_OK with
    recv := fun _ => ⟨SA_AIS_OK, ⟨⟨size, 0, SA_AIS_OK⟩, 0, 0, 0, 0, 0⟩, SA_AIS_OK⟩ }

/-- The state after `saCkptInitialize` on the empty state and a synchronous
`saCkptCheckpointOpen` on the handle it hands back, the server answering OK:
the library handle 0 has the descriptors 3 and 4 and one linked checkpoint. -/
def worldOpened : World :=
  (saCkptCheckpointOpen (envReply SA_AIS_OK) K0 0 name0 none 3 0 9
    (saCkptInitialize (envReply SA_AIS_OK) (some 9) none ⟨'B', 1, 1⟩ World.empty).2.2).2.2

/-! ## Lemmas on the handle table -/

theorem saHandleInstanceGet_live {α : Type} (db : List (HandleEntry α)) (h : Nat)
    (hl : isLive db h = true) : (saHandleInstanceGet db h).1 = SA_AIS_OK := by
  unfold isLive at hl
  unfold saHandleInstanceGet
  cases hg : db[h]? with
  | none => simp [hg] at hl
  | some e =>
    simp only [hg, decide_eq_true_eq] at hl
    simp [hl]

theorem saHandleInstanceGet_dead {α : Type} (db : List (HandleEntry α)) (h : Nat)
    (hl : isLive db h = false) :
    saHandleInstanceGet db h = (SA_AIS_ERR_BAD_HANDLE, db) := by
  unfold isLive at hl
  unfold saHandleInstanceGet
  cases hg : db[h]? with
  | none => rfl
  | some e =>
    simp only [hg, decide_eq_false_iff_not] at hl
    simp [hl]

theorem saHandleInstanceGet_status {α : Type} (db : List (HandleEntry α)) (h : Nat) :
    (saHandleInstanceGet db h).1 = SA_AIS_OK ∨
      saHandleInstanceGet db h = (SA_AIS_ERR_BAD_HANDLE, db) := by
  cases hl : isLive db h with
  | true => exact Or.inl (saHandleInstanceGet_live db h hl)
  | false => exact Or.inr (saHandleInstanceGet_dead db h hl)

theorem instanceAt_get {α : Type} (db : List (HandleEntry α)) (h h2 : Nat) (z : α) :
    instanceAt (saHandleInstanceGet db h).2 h2 z = instanceAt db h2 z := by
  unfold saHandleInstanceGet instanceAt
  cases hg : db[h]? with
  | none => rfl
  | some e =>
    by_cases hs : e.state = HandleState.ACTIVE
    · simp only [hs, if_true]
      by_cases hh : h = h2
      · subst hh
        have hlt : h < db.length := by
          rcases List.getElem?_eq_some_iff.mp hg with ⟨hlt, _⟩
          exact hlt
        simp [List.getElem?_set, hlt, hg]
      · simp [List.getElem?_set, hh]
    · simp [hs]

theorem getCheckpoint_live (w : World) (h : Nat)
    (hl : isLive w.checkpointHandleDatabase h = true) :
    (w.getCheckpoint h).1 = SA_AIS_OK :=
  saHandleInstanceGet_live _ h hl

theorem getCkpt_live (w : World) (h : Nat) (hl : isLive w.ckptHandleDatabase h = true) :
    (w.getCkpt h).1 = SA_AIS_OK :=
  saHandleInstanceGet_live _ h hl

theorem checkpointInstanceOf_getCheckpoint (w : World) (h h2 : Nat) :
    (w.getCheckpoint h).2.checkpointInstanceOf h2 = w.checkpointInstanceOf h2 :=
  instanceAt_get _ h h2 _

theorem ckptInstanceOf_getCkpt (w : World) (h h2 : Nat) :
    (w.getCkpt h).2.ckptInstanceOf h2 = w.ckptInstanceOf h2 :=
  instanceAt_get _ h h2 _

theorem log_trace (w : World) (e : Event) : (w.log e).trace = w.trace ++ [e] := rfl

theorem putCheckpoint_trace (w : World) (h : Nat) :
    (w.putCheckpoint h).trace = w.trace ++ [Event.instancePut Db.checkpoint h] := rfl

theorem putCkpt_trace (w : World) (h : Nat) :
    (w.putCkpt h).trace = w.trace ++ [Event.instancePut Db.ckpt h] := rfl

theorem destroyCheckpoint_trace (w : World) (h : Nat) :
    (w.destroyCheckpoint h).trace = w.trace ++ [Event.handleDestroy Db.checkpoint h] := rfl

theorem getCheckpoint_trace (w : World) (h : Nat) :
    (w.getCheckpoint h).2.trace =
      w.trace ++ [Event.instanceGet Db.checkpoint h (w.getCheckpoint h).1] := rfl

theorem getCkpt_trace (w : World) (h : Nat) :
    (w.getCkpt h).2.trace = w.trace ++ [Event.instanceGet Db.ckpt h (w.getCkpt h).1] := rfl

/-! ## The claims -/

/-- C1: `saCkptCheckpointOpen` and `saCkptCheckpointOpenAsync`, for every library
handle, name and open flags: when the CREATE flag is set and the creation
attributes are absent, or the CREATE flag is clear and the attributes are
present, the call returns `SA_AIS_ERR_INVALID_PARAM` and hands back the process
state it was given: the trace has no new event (zero bytes are sent), no
checkpoint handle is created and the handle cell is not written. -/
theorem open_attributes_mismatch_invalid_param (env : Env) (K : Headers) (ckptHandle : Nat)
    (invocation : Nat) (checkpointName : SaNameT)
    (attrs : Option SaCkptCheckpointCreationAttributesT) (flags : Nat) (timeout : Nat)
    (cell : Nat) (w : World)
    (hbad : (flags &&& K.SA_CKPT_CHECKPOINT_CREATE ≠ 0 ∧ attrs = none) ∨
      (flags &&& K.SA_CKPT_CHECKPOINT_CREATE = 0 ∧ attrs ≠ none)) :
    saCkptCheckpointOpen env K ckptHandle checkpointName attrs flags timeout cell w =
        (SA_AIS_ERR_INVALID_PARAM, cell, w) ∧
      saCkptCheckpointOpenAsync env K ckptHandle invocation checkpointName attrs flags w =
        (SA_AIS_ERR_INVALID_PARAM, none, w) ∧
      bytesSent (saCkptCheckpointOpen env K ckptHandle checkpointName attrs flags timeout
        cell w).2.2.trace = bytesSent w.trace ∧
      bytesSent (saCkptCheckpointOpenAsync env K ckptHandle invocation checkpointName attrs
        flags w).2.2.trace = bytesSent w.trace := by
  have h1 : saCkptCheckpointOpen env K ckptHandle checkpointName attrs flags timeout cell w =
      (SA_AIS_ERR_INVALID_PARAM, cell, w) := by
    unfold saCkptCheckpointOpen
    rcases hbad with h | h
    · rw [if_pos h]
    · by_cases h0 : flags &&& K.SA_CKPT_CHECKPOINT_CREATE ≠ 0 ∧ attrs = none
      · rw [if_pos h0]
      · rw [if_neg h0, if_pos h]
  have h2 : saCkptCheckpointOpenAsync env K ckptHandle invocation checkpointName attrs flags w =
      (SA_AIS_ERR_INVALID_PARAM, none, w) := by
    unfold saCkptCheckpointOpenAsync
    rcases hbad with h | h
    · rw [if_pos h]
    · by_cases h0 : flags &&& K.SA_CKPT_CHECKPOINT_CREATE ≠ 0 ∧ attrs = none
      · rw [if_pos h0]
      · rw [if_neg h0, if_pos h]
  refine ⟨h1, h2, ?_, ?_⟩
  · rw [h1]
  · rw [h2]

/-- Witness of C1: on the example state, an open with CREATE (4) set and no
creation attributes. -/
theorem open_attributes_mismatch_invalid_param_witness :
    saCkptCheckpointOpen (envReply SA_AIS_OK) K0 0 name0 none 4 0 9 (worldWith 3 none) =
        (SA_AIS_ERR_INVALID_PARAM, 9, worldWith 3 none) ∧
      saCkptCheckpointOpenAsync (envReply SA_AIS_OK) K0 0 1 name0 none 4 (worldWith 3 none) =
        (SA_AIS_ERR_INVALID_PARAM, none, worldWith 3 none) ∧
      bytesSent (saCkptCheckpointOpen (envReply SA_AIS_OK) K0 0 name0 none 4 0 9
        (worldWith 3 none)).2.2.trace = bytesSent (worldWith 3 none).trace ∧
      bytesSent (saCkptCheckpointOpenAsync (envReply SA_AIS_OK) K0 0 1 name0 none 4
        (worldWith 3 none)).2.2.trace = bytesSent (worldWith 3 none).trace :=
  open_attributes_mismatch_invalid_param (envReply SA_AIS_OK) K0 0 1 name0 none 4 0 9
    (worldWith 3 none) (Or.inl ⟨by decide, rfl⟩)

/-- C2: for a live checkpoint handle, `saCkptCheckpointWrite` on open flags that
lack WRITE returns `SA_AIS_ERR_ACCESS` for every I/O vector, and
`saCkptCheckpointRead` on open flags that lack READ returns `SA_AIS_ERR_ACCESS`
for every I/O vector; in both the events the call adds to the trace hold no
send call and so zero bytes sent. -/
theorem write_read_without_access (env : Env) (K : Headers) (garbage : SaAisErrorT)
    (checkpointHandle : Nat) (ioVector : List SaCkptIOVectorElementT)
    (erroneousVectorIndex : Option Nat) (w : World)
    (hl : isLive w.checkpointHandleDatabase checkpointHandle = true) :
    ((w.checkpointInstanceOf checkpointHandle).checkpointOpenFlags &&&
          K.SA_CKPT_CHECKPOINT_WRITE = 0 →
        (saCkptCheckpointWrite env K garbage checkpointHandle ioVector erroneousVectorIndex
          w).1 = SA_AIS_ERR_ACCESS ∧
        ∃ evs, (saCkptCheckpointWrite env K garbage checkpointHandle ioVector
            erroneousVectorIndex w).2.2.trace = w.trace ++ evs ∧
          sendCalls evs = 0 ∧ bytesSent evs = 0) ∧
      ((w.checkpointInstanceOf checkpointHandle).checkpointOpenFlags &&&
          K.SA_CKPT_CHECKPOINT_READ = 0 →
        (saCkptCheckpointRead env K garbage checkpointHandle ioVector erroneousVectorIndex
          w).1 = SA_AIS_ERR_ACCESS ∧
        ∃ evs, (saCkptCheckpointRead env K garbage checkpointHandle ioVector
            erroneousVectorIndex w).2.2.2.trace = w.trace ++ evs ∧
          sendCalls evs = 0 ∧ bytesSent evs = 0) := by
  have hg := getCheckpoint_live w checkpointHandle hl
  have hi := checkpointInstanceOf_getCheckpoint w checkpointHandle checkpointHandle
  constructor
  · intro hW
    have hW2 : ((w.getCheckpoint checkpointHandle).2.checkpointInstanceOf
        checkpointHandle).checkpointOpenFlags &&& K.SA_CKPT_CHECKPOINT_WRITE = 0 := by
      rw [hi]; exact hW
    simp only [saCkptCheckpointWrite, hg, ne_eq, not_true_eq_false, if_false, hW2, if_true]
    refine ⟨by simp [statusOf], [Event.instanceGet Db.checkpoint checkpointHandle SA_AIS_OK,
      Event.instancePut Db.checkpoint checkpointHandle], ?_, rfl, rfl⟩
    simp [World.putCheckpoint, World.getCheckpoint, saHandleInstanceGet_live _ _ hl]
  · intro hR
    have hR2 : ((w.getCheckpoint checkpointHandle).2.checkpointInstanceOf
        checkpointHandle).checkpointOpenFlags &&& K.SA_CKPT_CHECKPOINT_READ = 0 := by
      rw [hi]; exact hR
    simp only [saCkptCheckpointRead, hg, ne_eq, not_true_eq_false, if_false, hR2, if_true]
    refine ⟨trivial, [Event.instanceGet Db.checkpoint checkpointHandle SA_AIS_OK], ?_, rfl, rfl⟩
    simp [World.getCheckpoint, saHandleInstanceGet_live _ _ hl]

/-- Witness of C2: the example checkpoint opened with no flag at all, and a
vector of one element. -/
theorem write_read_without_access_witness :
    ((saCkptCheckpointWrite (envReply SA_AIS_OK) K0 SA_AIS_OK 0 [iov0] (some 9)
          (worldWith 0 none)).1 = SA_AIS_ERR_ACCESS ∧
        ∃ evs, (saCkptCheckpointWrite (envReply SA_AIS_OK) K0 SA_AIS_OK 0 [iov0] (some 9)
            (worldWith 0 none)).2.2.trace = (worldWith 0 none).trace ++ evs ∧
          sendCalls evs = 0 ∧ bytesSent evs = 0) ∧
      ((saCkptCheckpointRead (envReply SA_AIS_OK) K0 SA_AIS_OK 0 [iov0] (some 9)
          (worldWith 0 none)).1 = SA_AIS_ERR_ACCESS ∧
        ∃ evs, (saCkptCheckpointRead (envReply SA_AIS_OK) K0 SA_AIS_OK 0 [iov0] (some 9)
            (worldWith 0 none)).2.2.2.trace = (worldWith 0 none).trace ++ evs ∧
          sendCalls evs = 0 ∧ bytesSent evs = 0) :=
  ⟨(write_read_without_access (envReply SA_AIS_OK) K0 SA_AIS_OK 0 [iov0] (some 9)
      (worldWith 0 none) (by decide)).1 (by decide),
   (write_read_without_access (envReply SA_AIS_OK) K0 SA_AIS_OK 0 [iov0] (some 9)
      (worldWith 0 none) (by decide)).2 (by decide)⟩

theorem sendCalls_append (a b : List Event) :
    sendCalls (a ++ b) = sendCalls a + sendCalls b := by
  induction a with
  | nil => simp [sendCalls]
  | cons e es ih => cases e <;> simp [sendCalls, ih, Nat.add_assoc]

theorem writeLoop_cons_ok (env : Env) (K : Headers) (inst : ckptCheckpointInstance)
    (i : Nat) (v : SaCkptIOVectorElementT) (vs : List SaCkptIOVectorElementT)
    (error res : SaAisErrorT) (idx : Option Nat) (w : World)
    (h1 : env.send w.nSend = SA_AIS_OK) (h2 : (env.recv w.nRecv).error = SA_AIS_OK)
    (h3 : (env.recv w.nRecv).msg.header.error = SA_AIS_OK) :
    writeLoop env K inst i (v :: vs) error res idx w =
      writeLoop env K inst (i + 1) vs SA_AIS_OK SA_AIS_OK idx
        (w.exchanged (writeExchange K inst v)) := by
  simp [writeLoop, saSendMsgRetry, saRecvRetry, h1, h2, h3, World.exchanged, writeExchange]

theorem writeLoop_first_failure (env : Env) (K : Headers) (inst : ckptCheckpointInstance) :
    ∀ (vs : List SaCkptIOVectorElementT) (k i : Nat) (error res : SaAisErrorT)
      (idx : Option Nat) (w : World) (s : SaAisErrorT),
      k < vs.length →
      (∀ j, j ≤ k → env.send (w.nSend + j) = SA_AIS_OK) →
      (∀ j, j ≤ k → (env.recv (w.nRecv + j)).error = SA_AIS_OK) →
      (∀ j, j < k → (env.recv (w.nRecv + j)).msg.header.error = SA_AIS_OK) →
      (env.recv (w.nRecv + k)).msg.header.error = s → s ≠ SA_AIS_OK →
      statusOf (writeLoop env K inst i vs error res idx w).1
          (writeLoop env K inst i vs error res idx w).2.1 = s ∧
        (writeLoop env K inst i vs error res idx w).2.2.1 =
          (if s = SA_AIS_ERR_TRY_AGAIN then idx else idx.map (fun _ => i + k)) ∧
        (writeLoop env K inst i vs error res idx w).2.2.2.checkpointHandleDatabase =
          w.checkpointHandleDatabase ∧
        ∃ evs, (writeLoop env K inst i vs error res idx w).2.2.2.trace = w.trace ++ evs ∧
          sendCalls evs = k + 1 := by
  intro vs
  induction vs with
  | nil => intro k i error res idx w s hk; simp at hk
  | cons v vs ih =>
    intro k i error res idx w s hk hsend hrecv hok hs hne
    cases k with
    | zero =>
      have h1 := hsend 0 (Nat.le_refl 0)
      have h2 := hrecv 0 (Nat.le_refl 0)
      simp only [Nat.add_zero] at h1 h2 hs
      by_cases ht : s = SA_AIS_ERR_TRY_AGAIN
      · subst ht
        simp [writeLoop, saSendMsgRetry, saRecvRetry, h1, h2, hs, statusOf, sendCalls]
      · simp [writeLoop, saSendMsgRetry, saRecvRetry, h1, h2, hs, statusOf, sendCalls, ht, hne]
    | succ k =>
      have h1 := hsend 0 (Nat.zero_le _)
      have h2 := hrecv 0 (Nat.zero_le _)
      have h3 := hok 0 (Nat.succ_pos _)
      simp only [Nat.add_zero] at h1 h2 h3
      have hk2 : k < vs.length := by simpa using hk
      have key := ih k (i + 1) SA_AIS_OK SA_AIS_OK idx
        (w.exchanged (writeExchange K inst v)) s hk2
        (fun j hj => by
          have := hsend (j + 1) (Nat.succ_le_succ hj)
          simpa [World.exchanged, Nat.add_assoc, Nat.add_comm 1 j] using this)
        (fun j hj => by
          have := hrecv (j + 1) (Nat.succ_le_succ hj)
          simpa [World.exchanged, Nat.add_assoc, Nat.add_comm 1 j] using this)
        (fun j hj => by
          have := hok (j + 1) (Nat.succ_lt_succ hj)
          simpa [World.exchanged, Nat.add_assoc, Nat.add_comm 1 j] using this)
        (by simpa [World.exchanged, Nat.add_assoc, Nat.add_comm 1 k] using hs) hne
      rw [writeLoop_cons_ok env K inst i v vs error res idx w h1 h2 h3]
      obtain ⟨k1, k2, k3, evs, k4, k5⟩ := key
      refine ⟨k1, ?_, k3, ?_⟩
      · rw [k2]; simp [Nat.add_assoc, Nat.add_comm 1 k]
      · refine ⟨writeExchange K inst v ++ evs, ?_, ?_⟩
        · rw [k4]; simp [World.exchanged]
        · rw [sendCalls_append, k5]; simp [sendCalls, writeExchange]; omega

/-- C3, evaluated where the code departs from it: on the example checkpoint,
live and opened with READ only (flags 1, so the WRITE bit is clear),
`saCkptSectionDelete` and `saCkptSectionExpirationTimeSet` do not return
`SA_AIS_ERR_ACCESS`: each sends its request and the identifier (64 + 2 bytes)
and returns the status of the server, here `SA_AIS_OK`; on the same state
`saCkptSectionCreate` and `saCkptSectionOverwrite` return `SA_AIS_ERR_ACCESS`
with zero bytes sent. -/
theorem section_delete_expiration_skip_access_check :
    isLive (worldWith 1 none).checkpointHandleDatabase 0 = true ∧
      ((worldWith 1 none).checkpointInstanceOf 0).checkpointOpenFlags &&&
        K0.SA_CKPT_CHECKPOINT_WRITE = 0 ∧
      (saCkptSectionDelete (envReply SA_AIS_OK) K0 0 sid0 (worldWith 1 none)).1 = SA_AIS_OK ∧
      bytesSent (saCkptSectionDelete (envReply SA_AIS_OK) K0 0 sid0
        (worldWith 1 none)).2.trace = 66 ∧
      (saCkptSectionExpirationTimeSet (envReply SA_AIS_OK) K0 0 sid0 5
        (worldWith 1 none)).1 = SA_AIS_OK ∧
      bytesSent (saCkptSectionExpirationTimeSet (envReply SA_AIS_OK) K0 0 sid0 5
        (worldWith 1 none)).2.trace = 66 ∧
      (saCkptSectionCreate (envReply SA_AIS_OK) K0 0 ⟨sid0, 5⟩ 8
        (worldWith 1 none)).1 = SA_AIS_ERR_ACCESS ∧
      bytesSent (saCkptSectionCreate (envReply SA_AIS_OK) K0 0 ⟨sid0, 5⟩ 8
        (worldWith 1 none)).2.trace = 0 ∧
      (saCkptSectionOverwrite (envReply SA_AIS_OK) K0 0 sid0 8
        (worldWith 1 none)).1 = SA_AIS_ERR_ACCESS ∧
      bytesSent (saCkptSectionOverwrite (envReply SA_AIS_OK) K0 0 sid0 8
        (worldWith 1 none)).2.trace = 0 := by
  decide

/-- Counterexample to C4 as stated: on the example checkpoint, live and opened
with READ and WRITE (flags 3), a write of two elements to which the server
replies try-again at element 0 returns `SA_AIS_ERR_TRY_AGAIN` after one
request, and the erroneous-vector-index cell, which held 9, still holds 9: it
is not set to 0. -/
theorem write_try_again_index_not_set :
    isLive (worldWith 3 none).checkpointHandleDatabase 0 = true ∧
      ((worldWith 3 none).checkpointInstanceOf 0).checkpointOpenFlags &&&
        K0.SA_CKPT_CHECKPOINT_WRITE ≠ 0 ∧
      ((envReply SA_AIS_ERR_TRY_AGAIN).recv 0).msg.header.error = SA_AIS_ERR_TRY_AGAIN ∧
      (saCkptCheckpointWrite (envReply SA_AIS_ERR_TRY_AGAIN) K0 SA_AIS_OK 0 [iov0, iov0]
        (some 9) (worldWith 3 none)).1 = SA_AIS_ERR_TRY_AGAIN ∧
      (saCkptCheckpointWrite (envReply SA_AIS_ERR_TRY_AGAIN) K0 SA_AIS_OK 0 [iov0, iov0]
        (some 9) (worldWith 3 none)).2.1 = some 9 ∧
      (saCkptCheckpointWrite (envReply SA_AIS_ERR_TRY_AGAIN) K0 SA_AIS_OK 0 [iov0, iov0]
        (some 9) (worldWith 3 none)).2.1 ≠ some 0 := by
  decide

/-- C4, amended: for a write of N elements on a live checkpoint handle with WRITE
access, where the sends and receives of elements 0..k succeed, the server
replies OK to elements 0..k-1 and a non-OK status `s` to element k (k < N):
the call returns `s` and makes exactly k+1 send calls (elements k+1..N-1 are
never sent); when `s` is not try-again the erroneous-vector-index cell is set to
k (a NULL pointer stays NULL), and when `s` is try-again the cell is left as it
was. -/
theorem write_stops_at_first_failure (env : Env) (K : Headers) (garbage : SaAisErrorT)
    (checkpointHandle : Nat) (ioVector : List SaCkptIOVectorElementT)
    (erroneousVectorIndex : Option Nat) (w : World) (k : Nat) (s : SaAisErrorT)
    (hl : isLive w.checkpointHandleDatabase checkpointHandle = true)
    (hW : (w.checkpointInstanceOf checkpointHandle).checkpointOpenFlags &&&
      K.SA_CKPT_CHECKPOINT_WRITE ≠ 0)
    (hk : k < ioVector.length)
    (hsend : ∀ j, j ≤ k → env.send (w.nSend + j) = SA_AIS_OK)
    (hrecv : ∀ j, j ≤ k → (env.recv (w.nRecv + j)).error = SA_AIS_OK)
    (hok : ∀ j, j < k → (env.recv (w.nRecv + j)).msg.header.error = SA_AIS_OK)
    (hs : (env.recv (w.nRecv + k)).msg.header.error = s) (hne : s ≠ SA_AIS_OK) :
    (saCkptCheckpointWrite env K garbage checkpointHandle ioVector erroneousVectorIndex
        w).1 = s ∧
      (saCkptCheckpointWrite env K garbage checkpointHandle ioVector erroneousVectorIndex
        w).2.1 = (if s = SA_AIS_ERR_TRY_AGAIN then erroneousVectorIndex
          else erroneousVectorIndex.map (fun _ => k)) ∧
      ∃ evs, (saCkptCheckpointWrite env K garbage checkpointHandle ioVector
          erroneousVectorIndex w).2.2.trace = w.trace ++ evs ∧ sendCalls evs = k + 1 := by
  have hg := getCheckpoint_live w checkpointHandle hl
  have hi := checkpointInstanceOf_getCheckpoint w checkpointHandle checkpointHandle
  have hW2 : ¬ ((w.getCheckpoint checkpointHandle).2.checkpointInstanceOf
      checkpointHandle).checkpointOpenFlags &&& K.SA_CKPT_CHECKPOINT_WRITE = 0 := by
    rw [hi]; exact hW
  obtain ⟨k1, k2, _, evs, k4, k5⟩ := writeLoop_first_failure env K
    ((w.getCheckpoint checkpointHandle).2.checkpointInstanceOf checkpointHandle) ioVector k 0
    SA_AIS_OK garbage erroneousVectorIndex
    ((w.getCheckpoint checkpointHandle).2.log
      (Event.lock (Mutex.checkpoint_response checkpointHandle))) s hk hsend hrecv hok hs hne
  simp only [saCkptCheckpointWrite, hg, ne_eq, not_true_eq_false, if_false, hW2]
  refine ⟨k1, ?_, ?_⟩
  · rw [k2]; simp
  · refine ⟨[Event.instanceGet Db.checkpoint checkpointHandle SA_AIS_OK,
      Event.lock (Mutex.checkpoint_response checkpointHandle)] ++ evs ++
      [Event.unlock (Mutex.checkpoint_response checkpointHandle),
       Event.instancePut Db.checkpoint checkpointHandle], ?_, ?_⟩
    · rw [putCheckpoint_trace, log_trace, k4, log_trace, getCheckpoint_trace, hg]
      simp
    · simp [sendCalls_append, k5, sendCalls]

/-- Witness of C4, amended: on the example checkpoint (flags 3), a write of two
elements to which the server replies access-denied at element 0. -/
theorem write_stops_at_first_failure_witness :
    (saCkptCheckpointWrite (envReply SA_AIS_ERR_ACCESS) K0 SA_AIS_OK 0 [iov0, iov0] (some 9)
        (worldWith 3 none)).1 = SA_AIS_ERR_ACCESS ∧
      (saCkptCheckpointWrite (envReply SA_AIS_ERR_ACCESS) K0 SA_AIS_OK 0 [iov0, iov0] (some 9)
        (worldWith 3 none)).2.1 = (if SA_AIS_ERR_ACCESS = SA_AIS_ERR_TRY_AGAIN then some 9
          else (some 9).map (fun _ => 0)) ∧
      ∃ evs, (saCkptCheckpointWrite (envReply SA_AIS_ERR_ACCESS) K0 SA_AIS_OK 0 [iov0, iov0]
          (some 9) (worldWith 3 none)).2.2.trace = (worldWith 3 none).trace ++ evs ∧
        sendCalls evs = 0 + 1 :=
  write_stops_at_first_failure (envReply SA_AIS_ERR_ACCESS) K0 SA_AIS_OK 0 [iov0, iov0] (some 9)
    (worldWith 3 none) 0 SA_AIS_ERR_ACCESS (by decide) (by decide) (by decide)
    (fun _ _ => rfl) (fun _ _ => rfl) (fun j hj => absurd hj (Nat.not_lt_zero j)) rfl
    (by decide)

theorem getCkpt_dead (w : World) (h : Nat) (hl : isLive w.ckptHandleDatabase h = false) :
    w.getCkpt h =
      (SA_AIS_ERR_BAD_HANDLE, w.log (Event.instanceGet Db.ckpt h SA_AIS_ERR_BAD_HANDLE)) := by
  simp [World.getCkpt, World.log, saHandleInstanceGet_dead _ h hl]

theorem closes_append (a b : List Event) : closes (a ++ b) = closes a ++ closes b := by
  induction a with
  | nil => simp [closes]
  | cons e es ih => cases e <;> simp [closes, ih]

theorem isLive_put {α : Type} (db : List (HandleEntry α)) (h h2 : Nat) :
    isLive (saHandleInstancePut db h).1 h2 = isLive db h2 := by
  unfold saHandleInstancePut isLive
  cases hg : db[h]? with
  | none => rfl
  | some e =>
    have hlt : h < db.length := (List.getElem?_eq_some_iff.mp hg).1
    by_cases hh : h = h2
    · subst hh
      by_cases hc : e.state = HandleState.PENDINGREMOVAL ∧ e.refCount - 1 = 0
      · simp [hc, List.getElem?_set, hlt, hg]
      · simp only [hc, if_false, List.getElem?_set, hlt, if_true, hg]
    · by_cases hc : e.state = HandleState.PENDINGREMOVAL ∧ e.refCount - 1 = 0
      · simp [hc, List.getElem?_set, hh]
      · simp [hc, List.getElem?_set, hh]

theorem isLive_destroy_self {α : Type} (db : List (HandleEntry α)) (h : Nat) :
    isLive (saHandleDestroy db h) h = false := by
  unfold saHandleDestroy isLive
  cases hg : db[h]? with
  | none => simp [hg]
  | some e =>
    have hlt : h < db.length := (List.getElem?_eq_some_iff.mp hg).1
    by_cases hs : e.state = HandleState.ACTIVE
    · simp [hs, List.getElem?_set, hlt]
    · simp [hs, hg]

theorem finalizePutAll_trace (l : List Nat) :
    ∀ w : World, ∃ evs, (finalizePutAll w l).trace = w.trace ++ evs ∧ closes evs = [] ∧
      sendCalls evs = 0 := by
  induction l with
  | nil => intro w; exact ⟨[], by simp [finalizePutAll], rfl, rfl⟩
  | cons c cs ih =>
    intro w
    obtain ⟨evs, h1, h2, h3⟩ := ih (w.putCheckpoint (w.checkpointInstanceOf c).checkpointHandle)
    refine ⟨Event.instancePut Db.checkpoint (w.checkpointInstanceOf c).checkpointHandle :: evs,
      ?_, ?_, ?_⟩
    · simp only [finalizePutAll, List.foldl_cons] at h1 ⊢
      rw [h1, putCheckpoint_trace]; simp
    · simpa [closes] using h2
    · simpa [sendCalls] using h3

theorem finalize_dead (w : World) (h : Nat) (hl : isLive w.ckptHandleDatabase h = false) :
    saCkptFinalize h w =
      (SA_AIS_ERR_BAD_HANDLE, w.log (Event.instanceGet Db.ckpt h SA_AIS_ERR_BAD_HANDLE)) := by
  simp [saCkptFinalize, getCkpt_dead w h hl]

theorem finalize_live (w : World) (h : Nat) (hl : isLive w.ckptHandleDatabase h = true)
    (hf : (w.ckptInstanceOf h).finalize = 0)
    (hr : (w.ckptInstanceOf h).response_fd ≠ -1)
    (hd : (w.ckptInstanceOf h).dispatch_fd ≠ -1) :
    (saCkptFinalize h w).1 = SA_AIS_OK ∧
      isLive (saCkptFinalize h w).2.ckptHandleDatabase h = false ∧
      ∃ evs, (saCkptFinalize h w).2.trace = w.trace ++ evs ∧
        closes evs = [(w.ckptInstanceOf h).response_fd, (w.ckptInstanceOf h).dispatch_fd] := by
  have hg := getCkpt_live w h hl
  have hi := ckptInstanceOf_getCkpt w h h
  obtain ⟨evs, e1, e2, _⟩ := finalizePutAll_trace (w.ckptInstanceOf h).checkpoint_list
    ((((w.getCkpt h).2.log (Event.lock (Mutex.ckpt_response h))).setCkpt h
      (fun i => { i with finalize := 1 })).log (Event.unlock (Mutex.ckpt_response h)))
  simp only [saCkptFinalize, hg, ne_eq, not_true_eq_false, if_false, hi, hf, hr, hd,
    not_false_eq_true, if_true]
  refine ⟨trivial, ?_, ?_⟩
  · simp only [World.putCkpt, World.log, World.destroyCkpt]
    rw [isLive_put, isLive_destroy_self]
  · refine ⟨[Event.instanceGet Db.ckpt h SA_AIS_OK, Event.lock (Mutex.ckpt_response h),
        Event.unlock (Mutex.ckpt_response h)] ++ evs ++
      [Event.handleDestroy Db.ckpt h, Event.shutdown (w.ckptInstanceOf h).response_fd,
       Event.close (w.ckptInstanceOf h).response_fd,
       Event.shutdown (w.ckptInstanceOf h).dispatch_fd,
       Event.close (w.ckptInstanceOf h).dispatch_fd, Event.instancePut Db.ckpt h], ?_, ?_⟩
    · rw [putCkpt_trace, log_trace, log_trace, log_trace, log_trace]
      simp only [World.destroyCkpt]
      rw [e1]
      simp [World.log, World.setCkpt, getCkpt_trace, hg]
    · simp [closes_append, e2, closes]

theorem finalizeTimes_dead (h : Nat) (n : Nat) :
    ∀ w : World, isLive w.ckptHandleDatabase h = false →
      (finalizeTimes h n w).1 = List.replicate n SA_AIS_ERR_BAD_HANDLE ∧
      ∃ evs, (finalizeTimes h n w).2.trace = w.trace ++ evs ∧ closes evs = [] := by
  induction n with
  | zero => intro w _; exact ⟨rfl, [], by simp [finalizeTimes], rfl⟩
  | succ n ih =>
    intro w hl
    have hd := finalize_dead w h hl
    obtain ⟨r1, evs, r2, r3⟩ := ih (w.log (Event.instanceGet Db.ckpt h SA_AIS_ERR_BAD_HANDLE)) hl
    simp only [finalizeTimes, hd]
    refine ⟨?_, Event.instanceGet Db.ckpt h SA_AIS_ERR_BAD_HANDLE :: evs, ?_, ?_⟩
    · rw [r1]; rfl
    · rw [r2, log_trace]; simp
    · simpa [closes] using r3

theorem lookup_get {α : Type} (db : List (HandleEntry α)) (h : Nat) (e : HandleEntry α)
    (hg : db[h]? = some e) (hs : e.state = HandleState.ACTIVE) :
    (saHandleInstanceGet db h).1 = SA_AIS_OK ∧
      (saHandleInstanceGet db h).2[h]? = some { e with refCount := e.refCount + 1 } := by
  have hlt : h < db.length := (List.getElem?_eq_some_iff.mp hg).1
  simp [saHandleInstanceGet, hg, hs, List.getElem?_set, hlt]

theorem lookup_modify {α : Type} (db : List (HandleEntry α)) (h : Nat) (e : HandleEntry α)
    (f : α → α) (hg : db[h]? = some e) :
    (modifyInstance db h f)[h]? = some { e with inst := f e.inst } := by
  have hlt : h < db.length := (List.getElem?_eq_some_iff.mp hg).1
  simp [modifyInstance, hg, List.getElem?_set, hlt]

theorem lookup_put_active {α : Type} (db : List (HandleEntry α)) (h : Nat) (e : HandleEntry α)
    (hg : db[h]? = some e) (hs : e.state = HandleState.ACTIVE) :
    (saHandleInstancePut db h).1[h]? = some { e with refCount := e.refCount - 1 } := by
  have hlt : h < db.length := (List.getElem?_eq_some_iff.mp hg).1
  simp [saHandleInstancePut, hg, hs, List.getElem?_set, hlt]

theorem isLive_of_lookup {α : Type} (db : List (HandleEntry α)) (h : Nat) (e : HandleEntry α)
    (hg : db[h]? = some e) (hs : e.state = HandleState.ACTIVE) : isLive db h = true := by
  simp [isLive, hg, hs]

theorem instanceAt_of_lookup {α : Type} (db : List (HandleEntry α)) (h : Nat)
    (e : HandleEntry α) (z : α) (hg : db[h]? = some e) : instanceAt db h z = e.inst := by
  simp [instanceAt, hg]

theorem createCkpt_ok (env : Env) (cell : Nat) (w : World)
    (ha : env.alloc w.nAlloc = true) :
    w.createCkpt env cell =
      (SA_AIS_OK, w.ckptHandleDatabase.length,
       { w with ckptHandleDatabase :=
                  w.ckptHandleDatabase ++ [⟨HandleState.ACTIVE, 1, ckptInstance.zero⟩],
                nAlloc := w.nAlloc + 1,
                trace := w.trace ++
                  [Event.handleCreate Db.ckpt w.ckptHandleDatabase.length] }) := by
  simp [World.createCkpt, saHandleCreate, ha]

theorem createCkpt_fail (env : Env) (cell : Nat) (w : World)
    (ha : env.alloc w.nAlloc = false) :
    (w.createCkpt env cell).1 = SA_AIS_ERR_NO_MEMORY := by
  simp [World.createCkpt, saHandleCreate, ha]

theorem createCkpt_ok_db (env : Env) (cell : Nat) (w : World)
    (ha : env.alloc w.nAlloc = true) :
    (w.createCkpt env cell).1 = SA_AIS_OK ∧
      (w.createCkpt env cell).2.1 = w.ckptHandleDatabase.length ∧
      (w.createCkpt env cell).2.2.ckptHandleDatabase =
        w.ckptHandleDatabase ++ [⟨HandleState.ACTIVE, 1, ckptInstance.zero⟩] ∧
      (w.createCkpt env cell).2.2.nConnect = w.nConnect := by
  rw [createCkpt_ok env cell w ha]
  exact ⟨rfl, rfl, rfl, rfl⟩

theorem initialize_success (env : Env) (cell : Nat) (callbacks : Option SaCkptCallbacksT)
    (version : SaVersionT) (w w1 : World) (h : Nat)
    (hinit : saCkptInitialize env (some cell) callbacks version w = (SA_AIS_OK, some h, w1)) :
    isLive w1.ckptHandleDatabase h = true ∧
      (w1.ckptInstanceOf h).finalize = 0 ∧
      (w1.ckptInstanceOf h).response_fd = (env.connect w.nConnect).response_fd ∧
      (w1.ckptInstanceOf h).dispatch_fd = (env.connect w.nConnect).dispatch_fd ∧
      (w1.ckptInstanceOf h).checkpoint_list = [] := by
  simp only [saCkptInitialize] at hinit
  by_cases hv : saVersionVerify ckptVersionsSupported version = SA_AIS_OK
  swap
  · rw [if_pos hv] at hinit
    exact absurd (congrArg Prod.fst hinit) hv
  rw [if_neg (not_not.mpr hv)] at hinit
  cases ha : env.alloc w.nAlloc with
  | false =>
    have hc := createCkpt_fail env cell w ha
    have hne : (w.createCkpt env cell).1 ≠ SA_AIS_OK := by rw [hc]; decide
    rw [if_pos hne] at hinit
    exact absurd (congrArg Prod.fst hinit) hne
  | true =>
    obtain ⟨c1, c2, c3, c4⟩ := createCkpt_ok_db env cell w ha
    rw [if_neg (not_not.mpr c1)] at hinit
    have e0 : (w.createCkpt env cell).2.2.ckptHandleDatabase[(w.createCkpt env cell).2.1]? =
        some ⟨HandleState.ACTIVE, 1, ckptInstance.zero⟩ := by
      rw [c2, c3]; simp
    obtain ⟨g1, g2⟩ := lookup_get _ _ _ e0 rfl
    have hg1 : ((w.createCkpt env cell).2.2.getCkpt (w.createCkpt env cell).2.1).1 =
        SA_AIS_OK := g1
    rw [if_neg (not_not.mpr hg1)] at hinit
    have hk0 : (saServiceConnectTwo env
        (((w.createCkpt env cell).2.2.getCkpt (w.createCkpt env cell).2.1).2.setCkpt
          (w.createCkpt env cell).2.1 (fun i => { i with response_fd := -1 }))).1 =
        env.connect w.nConnect := by
      simp only [saServiceConnectTwo]
      exact congrArg env.connect c4
    rw [hk0] at hinit
    by_cases hk : (env.connect w.nConnect).error = SA_AIS_OK
    swap
    · rw [if_pos hk] at hinit
      exact absurd (congrArg Prod.fst hinit) hk
    rw [if_neg (not_not.mpr hk)] at hinit
    have hh : (w.createCkpt env cell).2.1 = h := by
      have := congrArg (fun x => x.2.1) hinit
      simpa using this
    have e1 := lookup_modify _ _ _ (fun i : ckptInstance => { i with response_fd := -1 }) g2
    have e2 := lookup_modify _ _ _ (fun i : ckptInstance =>
      { i with response_fd := (env.connect w.nConnect).response_fd,
               dispatch_fd := (env.connect w.nConnect).dispatch_fd,
               callbacks := callbacks.getD ⟨none, none⟩,
               checkpoint_list := [] }) e1
    have e3 := lookup_put_active _ _ _ e2 rfl
    have hdb : w1.ckptHandleDatabase =
        (saHandleInstancePut
          (modifyInstance
            (modifyInstance
              (saHandleInstanceGet (w.createCkpt env cell).2.2.ckptHandleDatabase
                (w.createCkpt env cell).2.1).2
              (w.createCkpt env cell).2.1 (fun i => { i with response_fd := -1 }))
            (w.createCkpt env cell).2.1 (fun i : ckptInstance =>
              { i with response_fd := (env.connect w.nConnect).response_fd,
                       dispatch_fd := (env.connect w.nConnect).dispatch_fd,
                       callbacks := callbacks.getD ⟨none, none⟩,
                       checkpoint_list := [] }))
          (w.createCkpt env cell).2.1).1 := by
      have hw := (congrArg (fun x => x.2.2) hinit).symm
      simp only at hw
      rw [hw]
      rfl
    have hlive := isLive_of_lookup _ _ _ e3 rfl
    have hinst := instanceAt_of_lookup _ _ _ ckptInstance.zero e3
    rw [← hh]
    unfold World.ckptInstanceOf
    rw [hdb]
    refine ⟨hlive, ?_, ?_, ?_, ?_⟩
    · rw [hinst]; simp [ckptInstance.zero]
    · rw [hinst]
    · rw [hinst]
    · rw [hinst]

theorem isLive_get {α : Type} (db : List (HandleEntry α)) (h h2 : Nat) :
    isLive (saHandleInstanceGet db h).2 h2 = isLive db h2 := by
  unfold saHandleInstanceGet isLive
  cases hg : db[h]? with
  | none => rfl
  | some e =>
    have hlt : h < db.length := (List.getElem?_eq_some_iff.mp hg).1
    by_cases hs : e.state = HandleState.ACTIVE
    · by_cases hh : h = h2
      · subst hh; simp [hs, List.getElem?_set, hlt, hg]
      · simp [hs, List.getElem?_set, hh]
    · simp [hs]

theorem isLive_modify {α : Type} (db : List (HandleEntry α)) (h h2 : Nat) (f : α → α) :
    isLive (modifyInstance db h f) h2 = isLive db h2 := by
  unfold modifyInstance isLive
  cases hg : db[h]? with
  | none => rfl
  | some e =>
    have hlt : h < db.length := (List.getElem?_eq_some_iff.mp hg).1
    by_cases hh : h = h2
    · subst hh; simp [List.getElem?_set, hlt, hg]
    · simp [List.getElem?_set, hh]

theorem isLive_destroy_other {α : Type} (db : List (HandleEntry α)) (h h2 : Nat)
    (hne : h ≠ h2) : isLive (saHandleDestroy db h) h2 = isLive db h2 := by
  unfold saHandleDestroy isLive
  cases hg : db[h]? with
  | none => rfl
  | some e =>
    by_cases hs : e.state = HandleState.ACTIVE
    · simp [hs, List.getElem?_set, hne]
    · simp [hs]

theorem isLive_append_new {α : Type} (db : List (HandleEntry α)) (z : α) (rc : Int) :
    isLive (db ++ [⟨HandleState.ACTIVE, rc, z⟩]) db.length = true := by
  simp [isLive]

theorem isLive_append_old {α : Type} (db : List (HandleEntry α)) (e : HandleEntry α) (h : Nat)
    (hl : isLive db h = true) : isLive (db ++ [e]) h = true := by
  unfold isLive at hl ⊢
  cases hg : db[h]? with
  | none => simp [hg] at hl
  | some e2 =>
    have hlt : h < db.length := (List.getElem?_eq_some_iff.mp hg).1
    rw [List.getElem?_append_left hlt, hg]
    simpa [hg] using hl

theorem instanceAt_put {α : Type} (db : List (HandleEntry α)) (h h2 : Nat) (z : α) :
    instanceAt (saHandleInstancePut db h).1 h2 z = instanceAt db h2 z := by
  unfold saHandleInstancePut instanceAt
  cases hg : db[h]? with
  | none => rfl
  | some e =>
    have hlt : h < db.length := (List.getElem?_eq_some_iff.mp hg).1
    by_cases hh : h = h2
    · subst hh
      by_cases hc : e.state = HandleState.PENDINGREMOVAL ∧ e.refCount - 1 = 0
      · simp [hc, List.getElem?_set, hlt, hg]
      · simp only [hc, if_false, List.getElem?_set, hlt, if_true, hg]
    · by_cases hc : e.state = HandleState.PENDINGREMOVAL ∧ e.refCount - 1 = 0
      · simp [hc, List.getElem?_set, hh]
      · simp [hc, List.getElem?_set, hh]

theorem instanceAt_destroy {α : Type} (db : List (HandleEntry α)) (h h2 : Nat) (z : α) :
    instanceAt (saHandleDestroy db h) h2 z = instanceAt db h2 z := by
  unfold saHandleDestroy instanceAt
  cases hg : db[h]? with
  | none => rfl
  | some e =>
    have hlt : h < db.length := (List.getElem?_eq_some_iff.mp hg).1
    by_cases hs : e.state = HandleState.ACTIVE
    · by_cases hh : h = h2
      · subst hh; simp [hs, List.getElem?_set, hlt, hg]
      · simp [hs, List.getElem?_set, hh]
    · simp [hs]

theorem instanceAt_modify_self {α : Type} (db : List (HandleEntry α)) (h : Nat) (f : α → α)
    (z : α) (hl : isLive db h = true) :
    instanceAt (modifyInstance db h f) h z = f (instanceAt db h z) := by
  unfold isLive at hl
  unfold modifyInstance instanceAt
  cases hg : db[h]? with
  | none => simp [hg] at hl
  | some e =>
    have hlt : h < db.length := (List.getElem?_eq_some_iff.mp hg).1
    simp [List.getElem?_set, hlt]

theorem instanceAt_modify_other {α : Type} (db : List (HandleEntry α)) (h h2 : Nat)
    (f : α → α) (z : α) (hne : h ≠ h2) :
    instanceAt (modifyInstance db h f) h2 z = instanceAt db h2 z := by
  unfold modifyInstance instanceAt
  cases hg : db[h]? with
  | none => rfl
  | some e => simp [List.getElem?_set, hne]

/-- C8: for every `saCkptCheckpointOpen` that passes validation on a live library
handle (the allocation of the checkpoint handle succeeding), the call returns
`gatewayStatus`: the transport error `e` of the send or of the receive when one
fails, else the status of the server.  The handle it hands back is the new slot
of the checkpoint database.  When the result is `SA_AIS_OK` that handle is live
and heads the checkpoint list of the owning library instance; when the result
is anything else (a non-OK status `s` of the server, or a transport error `e`)
the handle is destroyed, so lookups of it fail, and the checkpoint list of the
library is as before. -/
theorem open_sync_outcomes (env : Env) (K : Headers) (ckptHandle : Nat)
    (checkpointName : SaNameT) (attrs : Option SaCkptCheckpointCreationAttributesT)
    (flags timeout cell : Nat) (w : World)
    (hv1 : ¬ (flags &&& K.SA_CKPT_CHECKPOINT_CREATE ≠ 0 ∧ attrs = none))
    (hv2 : ¬ (flags &&& K.SA_CKPT_CHECKPOINT_CREATE = 0 ∧ attrs ≠ none))
    (hl : isLive w.ckptHandleDatabase ckptHandle = true)
    (ha : env.alloc w.nAlloc = true) :
    (saCkptCheckpointOpen env K ckptHandle checkpointName attrs flags timeout cell w).1 =
        gatewayStatus env w ∧
      (saCkptCheckpointOpen env K ckptHandle checkpointName attrs flags timeout cell w).2.1 =
        w.checkpointHandleDatabase.length ∧
      (gatewayStatus env w = SA_AIS_OK →
        isLive (saCkptCheckpointOpen env K ckptHandle checkpointName attrs flags timeout cell
          w).2.2.checkpointHandleDatabase w.checkpointHandleDatabase.length = true ∧
        ((saCkptCheckpointOpen env K ckptHandle checkpointName attrs flags timeout cell
          w).2.2.ckptInstanceOf ckptHandle).checkpoint_list =
          w.checkpointHandleDatabase.length :: (w.ckptInstanceOf ckptHandle).checkpoint_list) ∧
      (gatewayStatus env w ≠ SA_AIS_OK →
        isLive (saCkptCheckpointOpen env K ckptHandle checkpointName attrs flags timeout cell
          w).2.2.checkpointHandleDatabase w.checkpointHandleDatabase.length = false ∧
        ((saCkptCheckpointOpen env K ckptHandle checkpointName attrs flags timeout cell
          w).2.2.ckptInstanceOf ckptHandle).checkpoint_list =
          (w.ckptInstanceOf ckptHandle).checkpoint_list) := by
  have hg := getCkpt_live w ckptHandle hl
  have hgl : (saHandleInstanceGet (w.checkpointHandleDatabase ++
      [(⟨HandleState.ACTIVE, 1, ckptCheckpointInstance.zero⟩ :
        HandleEntry ckptCheckpointInstance)]) w.checkpointHandleDatabase.length).1 = SA_AIS_OK :=
    saHandleInstanceGet_live _ _ (isLive_append_new _ _ _)
  have hlg : isLive (saHandleInstanceGet w.ckptHandleDatabase ckptHandle).2 ckptHandle = true := by
    rw [isLive_get]; exact hl
  unfold saCkptCheckpointOpen
  rw [if_neg hv1, if_neg hv2]
  simp only [hg, ne_eq, not_true_eq_false, if_false]
  simp only [World.createCheckpoint, saHandleCreate, World.getCkpt, ha, if_true,
    World.getCheckpoint, hgl, not_true_eq_false, if_false, World.setCheckpoint, saSendRetry,
    saRecvRetry, gatewayStatus, World.ckptInstanceOf, World.putCheckpoint, World.putCkpt,
    World.destroyCheckpoint, World.listAdd]
  by_cases h1 : env.send w.nSend = SA_AIS_OK
  · by_cases h2 : (env.recv w.nRecv).error = SA_AIS_OK
    · by_cases h3 : (env.recv w.nRecv).msg.header.error = SA_AIS_OK
      · simp only [h1, h2, h3, ne_eq, not_true_eq_false, if_false, true_and, not_false_eq_true,
          forall_true_left, false_implies, and_true, implies_true]
        refine ⟨?_, ?_⟩
        · rw [isLive_put, isLive_modify, isLive_get]; exact isLive_append_new _ _ _
        · rw [instanceAt_modify_self _ _ _ _ (by rw [isLive_put]; exact hlg), instanceAt_put,
            instanceAt_get]
      · simp only [h1, h2, h3, ne_eq, not_true_eq_false, if_false, true_and, not_false_eq_true,
          forall_true_left, false_implies, and_true, implies_true, if_true]
        refine ⟨?_, ?_⟩
        · rw [isLive_destroy_self]
        · rw [instanceAt_put, instanceAt_get]
    · simp only [h1, h2, ne_eq, not_true_eq_false, if_false, true_and, not_false_eq_true,
        forall_true_left, false_implies, and_true, implies_true, if_true]
      refine ⟨?_, ?_⟩
      · rw [isLive_destroy_self]
      · rw [instanceAt_put, instanceAt_get]
  · simp only [h1, ne_eq, not_true_eq_false, if_false, true_and, not_false_eq_true,
      forall_true_left, false_implies, and_true, implies_true, if_true]
    refine ⟨?_, ?_⟩
    · rw [isLive_destroy_self]
    · rw [instanceAt_put, instanceAt_get]

/-- Witness of C8: an open with READ and WRITE and no creation attributes on the
example state, the server answering OK. -/
theorem open_sync_outcomes_witness :
    (saCkptCheckpointOpen (envReply SA_AIS_OK) K0 0 name0 none 3 0 9 (worldWith 3 none)).1 =
        gatewayStatus (envReply SA_AIS_OK) (worldWith 3 none) ∧
      (saCkptCheckpointOpen (envReply SA_AIS_OK) K0 0 name0 none 3 0 9
        (worldWith 3 none)).2.1 = (worldWith 3 none).checkpointHandleDatabase.length ∧
      isLive (saCkptCheckpointOpen (envReply SA_AIS_OK) K0 0 name0 none 3 0 9
        (worldWith 3 none)).2.2.checkpointHandleDatabase
          (worldWith 3 none).checkpointHandleDatabase.length = true :=
  have h := open_sync_outcomes (envReply SA_AIS_OK) K0 0 name0 none 3 0 9 (worldWith 3 none)
    (by decide) (by decide) (by decide) rfl
  ⟨h.1, h.2.1, (h.2.2.1 (by decide)).1⟩

theorem notification_header (env : Env) (K : Headers) (w : World) :
    (notification env K w).header = (env.recv w.nRecv).msg.header := by
  unfold notification dispatchData
  split <;> rfl

theorem dispatchBody_notified (env : Env) (K : Headers) (ckptHandle : Nat)
    (dispatchFlags : SaDispatchFlagsT) (timeout : Int) (w : World) (fn : Nat)
    (hfin : (w.ckptInstanceOf ckptHandle).finalize ≠ 1)
    (hcb : (w.ckptInstanceOf ckptHandle).callbacks.saCkptCheckpointOpenCallback = some fn)
    (hp : (env.poll w.nPoll).error = SA_AIS_OK)
    (hrev : (env.poll w.nPoll).revents = ⟨true, false, false, false⟩)
    (hr : (env.recv w.nRecv).error = SA_AIS_OK)
    (ht : K.sizeof_res_header < (env.recv w.nRecv).msg.header.size →
      (env.recv w.nRecv).trailError = SA_AIS_OK)
    (hfit : (env.recv w.nRecv).msg.header.size - K.sizeof_res_header ≤
      sizeof_message_overlay_data)
    (hid : (notification env K w).header.id =
      K.MESSAGE_RES_CKPT_CHECKPOINT_CHECKPOINTOPENASYNC)
    (hc : isLive w.checkpointHandleDatabase (notification env K w).checkpointHandle = true) :
    dispatchBody env K ckptHandle dispatchFlags timeout w =
      if (notification env K w).header.error = SA_AIS_OK then
        dispatchMore ckptHandle dispatchFlags SA_AIS_OK
          (((((w.received (dispatchReceive K (w.ckptInstanceOf ckptHandle) ckptHandle timeout
              (env.recv w.nRecv).msg)).getCheckpoint
              (notification env K w).checkpointHandle).2.listAdd ckptHandle
              (notification env K w).checkpointHandle).log
            (Event.callback fn (notification env K w).invocation
              ((notification env K w).checkpointHandle : Int)
              (notification env K w).header.error)).putCheckpoint
            (notification env K w).checkpointHandle)
      else
        dispatchMore ckptHandle dispatchFlags SA_AIS_OK
          (((((w.received (dispatchReceive K (w.ckptInstanceOf ckptHandle) ckptHandle timeout
              (env.recv w.nRecv).msg)).getCheckpoint
              (notification env K w).checkpointHandle).2.putCheckpoint
              (notification env K w).checkpointHandle).destroyCheckpoint
              (notification env K w).checkpointHandle).log
            (Event.callback fn (notification env K w).invocation (-1)
              (notification env K w).header.error)) := by
  have hgc := saHandleInstanceGet_live _ _ hc
  have hfit2 : ¬ sizeof_message_overlay_data <
      (env.recv w.nRecv).msg.header.size - K.sizeof_res_header := Nat.not_lt.mpr hfit
  have hfin2 : ¬ (instanceAt w.ckptHandleDatabase ckptHandle ckptInstance.zero).finalize = 1 :=
    hfin
  have hcb2 : (instanceAt w.ckptHandleDatabase ckptHandle
      ckptInstance.zero).callbacks.saCkptCheckpointOpenCallback = some fn := hcb
  by_cases hb : K.sizeof_res_header < (env.recv w.nRecv).msg.header.size
  · have ht2 := ht hb
    have hd : decide (K.sizeof_res_header < (env.recv w.nRecv).msg.header.size) = true := by
      simp [hb]
    simp only [notification, hd, dispatchData, ↓reduceIte] at hgc hc hid ⊢
    simp only [dispatchBody, saPollRetry, hp, hrev, World.ckptInstanceOf, hfin2, World.log,
      saRecvRetry, hr, hd, hb, hfit2, saRecvRetryTrailing, ht2, dispatchData, ↓reduceIte, hid, hcb2,
      World.getCheckpoint, hgc, World.received, dispatchReceive,
      ne_eq, not_true_eq_false, if_false, if_true, Bool.false_eq_true, or_self,
      Bool.true_eq_false, false_and, not_false_eq_true, decide_True]
    by_cases he : (env.recv w.nRecv).msg.header.error = SA_AIS_OK
    · simp only [he, if_true, World.listAdd, World.putCheckpoint, World.destroyCheckpoint,
        List.append_assoc, List.singleton_append, List.cons_append, List.nil_append]
    · simp only [he, if_false, World.listAdd, World.putCheckpoint, World.destroyCheckpoint,
        List.append_assoc, List.singleton_append, List.cons_append, List.nil_append]
  · have hd : decide (K.sizeof_res_header < (env.recv w.nRecv).msg.header.size) = false := by
      simp [hb]
    simp only [notification, hd, dispatchData, ↓reduceIte, Bool.false_eq_true] at hgc hc hid ⊢
    simp only [dispatchBody, saPollRetry, hp, hrev, World.ckptInstanceOf, hfin2, World.log,
      saRecvRetry, hr, hd, hb, hfit2, saRecvRetryTrailing, dispatchData, ↓reduceIte, hid, hcb2,
      World.getCheckpoint, hgc, World.received, dispatchReceive,
      ne_eq, not_true_eq_false, if_false, if_true, Bool.false_eq_true, or_self,
      Bool.true_eq_false, false_and, not_false_eq_true, decide_False]
    by_cases he : (env.recv w.nRecv).msg.header.error = SA_AIS_OK
    · simp only [he, if_true, World.listAdd, World.putCheckpoint, World.destroyCheckpoint,
        List.append_assoc, List.singleton_append, List.cons_append, List.nil_append]
    · simp only [he, if_false, World.listAdd, World.putCheckpoint, World.destroyCheckpoint,
        List.append_assoc, List.singleton_append, List.cons_append, List.nil_append]

/-- C12, evaluated where the code departs from it: on the example state (library
handle 0 live, finalize flag clear, no open callback registered), with two
open-completed notifications queued before a message of another kind,
`saCkptDispatch` in `SA_DISPATCH_ONE` mode does not stop after one message: it
polls three times and reads three framed messages (header and body of each)
before it returns `SA_AIS_OK`.  With an open callback registered the same call
reads one message and returns. -/
theorem dispatch_one_without_callback_reads_on :
    isLive (worldWith 3 none).ckptHandleDatabase 0 = true ∧
      ((worldWith 3 none).ckptInstanceOf 0).finalize = 0 ∧
      ((worldWith 3 none).ckptInstanceOf 0).callbacks.saCkptCheckpointOpenCallback = none ∧
      (saCkptDispatch envNotifyTwice K0 0 SaDispatchFlagsT.SA_DISPATCH_ONE 5
          (worldWith 3 none)).map
        (fun r => (r.1, r.2.nPoll, r.2.nRecv, recvSizes r.2.trace)) =
        some (Outcome.returned SA_AIS_OK, 3, 3, [12, 28, 12, 28, 12, 4]) ∧
      (saCkptDispatch envNotifyTwice K0 0 SaDispatchFlagsT.SA_DISPATCH_ONE 5
          (worldWith 3 (some 1))).map
        (fun r => (r.1, r.2.nPoll, r.2.nRecv, recvSizes r.2.trace)) =
        some (Outcome.returned SA_AIS_OK, 1, 1, [12, 28]) := by
  decide

/-- C17, evaluated where the code departs from it: in the run initialize, three
times next, finalize on the example state, when the server answers the second
`next` with a non-OK status (`other 27`) three identifier buffers are allocated
(1, 2 and 3) and two are freed (3 and 1): the buffer of the second `next` is
never linked into the list of the iterator and never freed.  When the server
answers every `next` with OK, three are allocated and the same three are
freed. -/
theorem iteration_buffer_leaks_on_server_error :
    mallocs (iterationRun envSecondNextFails).trace = [1, 2, 3] ∧
      frees (iterationRun envSecondNextFails).trace = [3, 1] ∧
      mallocs (iterationRun (envReply SA_AIS_OK)).trace = [1, 2, 3] ∧
      frees (iterationRun (envReply SA_AIS_OK)).trace = [3, 2, 1] := by
  decide

/-- C18, evaluated where the code departs from it: on the example state (live
checkpoint handle 0 with READ and WRITE, live iterator handle 0), when the send
fails with the transport error `other 2`, the calls of
`saCkptCheckpointRetentionDurationSet`, `saCkptActiveReplicaSet`,
`saCkptCheckpointStatusGet`, `saCkptSectionCreate`, `saCkptSectionDelete` and
`saCkptSectionExpirationTimeSet` return that error with the mutex of the
checkpoint instance locked once and never unlocked; so does
`saCkptCheckpointStatusGet` when the receive fails.  On the same failure
`saCkptSectionOverwrite`, `saCkptCheckpointSynchronize`, `saCkptCheckpointWrite`
and `saCkptSectionIterationNext` release the mutex they locked. -/
theorem transport_failure_leaves_mutex_locked :
    (saCkptCheckpointRetentionDurationSet envSendFails K0 0 5 (worldWith 3 none)).1 =
        SaAisErrorT.other 2 ∧
      heldAfter (Mutex.checkpoint_response 0)
        (saCkptCheckpointRetentionDurationSet envSendFails K0 0 5
          (worldWith 3 none)).2.trace = 1 ∧
      heldAfter (Mutex.checkpoint_response 0)
        (saCkptActiveReplicaSet envSendFails K0 0 (worldWith 3 none)).2.trace = 1 ∧
      heldAfter (Mutex.checkpoint_response 0)
        (saCkptCheckpointStatusGet envSendFails K0 0 (some 0) (worldWith 3 none)).2.2.trace = 1 ∧
      heldAfter (Mutex.checkpoint_response 0)
        (saCkptCheckpointStatusGet envRecvFails K0 0 (some 0) (worldWith 3 none)).2.2.trace = 1 ∧
      heldAfter (Mutex.checkpoint_response 0)
        (saCkptSectionCreate envSendFails K0 0 ⟨sid0, 5⟩ 8 (worldWith 3 none)).2.trace = 1 ∧
      heldAfter (Mutex.checkpoint_response 0)
        (saCkptSectionDelete envSendFails K0 0 sid0 (worldWith 3 none)).2.trace = 1 ∧
      heldAfter (Mutex.checkpoint_response 0)
        (saCkptSectionExpirationTimeSet envSendFails K0 0 sid0 5 (worldWith 3 none)).2.trace =
        1 ∧
      heldAfter (Mutex.checkpoint_response 0)
        (saCkptSectionOverwrite envSendFails K0 0 sid0 8 (worldWith 3 none)).2.trace = 0 ∧
      heldAfter (Mutex.checkpoint_response 0)
        (saCkptCheckpointSynchronize envSendFails K0 0 0 (worldWith 3 none)).2.trace = 0 ∧
      heldAfter (Mutex.checkpoint_response 0)
        (saCkptCheckpointWrite envSendFails K0 SA_AIS_OK 0 [iov0] (some 9)
          (worldWith 3 none)).2.2.trace = 0 ∧
      isLive worldIter.ckptSectionIterationHandleDatabase 0 = true ∧
      heldAfter (Mutex.iteration_response 0)
        ((saCkptSectionIterationNext envSendFails K0 0 descriptor0 worldIter).2.2.trace.drop
          worldIter.trace.length) = 0 := by
  decide

/-- C19, evaluated where the code departs from it: on the example state with the
live iterator handle 0, when the response to `saCkptSectionIterationNext`
declares a total size of 517 bytes, 501 more than the 16 bytes of the response
structure, the call allocates the buffer of 500 identifier bytes (516 bytes
with the list head) and then receives the 16 bytes of the response and 501
identifier bytes into it: one byte more than its capacity. -/
theorem iteration_next_receives_beyond_capacity :
    isLive worldIter.ckptSectionIterationHandleDatabase 0 = true ∧
      (envLongId.recv worldIter.nRecv).msg.header.size = 517 ∧
      K0.sizeof_res MESSAGE_REQ_CKPT_SECTIONITERATOR_SECTIONITERATORNEXT = 16 ∧
      ((saCkptSectionIterationNext envLongId K0 0 descriptor0 worldIter).2.2.trace.drop
          worldIter.trace.length).filter
        (fun e => decide (e ∉ [Event.instanceGet Db.iteration 0 SA_AIS_OK,
          Event.lock (Mutex.iteration_response 0),
          Event.unlock (Mutex.iteration_response 0),
          Event.instancePut Db.iteration 0])) =
        [Event.malloc 1 (K0.sizeof_list_head + 500),
         Event.send 3 (Segment.request
           (Request.base MESSAGE_REQ_CKPT_SECTIONITERATOR_SECTIONITERATORNEXT 64 ⟨0, []⟩)) 64,
         Event.recv 3 16, Event.recv 3 501] ∧
      recvSizes ((saCkptSectionIterationNext envLongId K0 0 descriptor0
        worldIter).2.2.trace.drop worldIter.trace.length) = [16, 501] := by
  decide

/-- C20, evaluated where the code departs from it: on the example state,
`saCkptCheckpointClose` of the live checkpoint handle 0 sends its request and
receives the response without ever locking the mutex of the checkpoint
instance: its events hold no lock, and its send and receive are not under the
lock.  `saCkptCheckpointSynchronize`, `saCkptCheckpointStatusGet`,
`saCkptSectionDelete` and `saCkptCheckpointRead` on the same state make their
sends and receives under the lock. -/
theorem close_exchanges_without_lock :
    isLive (worldWith 3 none).checkpointHandleDatabase 0 = true ∧
      (saCkptCheckpointClose (envReply SA_AIS_OK) K0 0 (worldWith 3 none)).2.trace.count
        (Event.lock (Mutex.checkpoint_response 0)) = 0 ∧
      sendCalls (saCkptCheckpointClose (envReply SA_AIS_OK) K0 0 (worldWith 3 none)).2.trace =
        1 ∧
      recvSizes (saCkptCheckpointClose (envReply SA_AIS_OK) K0 0 (worldWith 3 none)).2.trace =
        [16] ∧
      underLock (Mutex.checkpoint_response 0) false
        (saCkptCheckpointClose (envReply SA_AIS_OK) K0 0 (worldWith 3 none)).2.trace = false ∧
      underLock (Mutex.checkpoint_response 0) false
        (saCkptCheckpointSynchronize (envReply SA_AIS_OK) K0 0 0 (worldWith 3 none)).2.trace =
        true ∧
      underLock (Mutex.checkpoint_response 0) false
        (saCkptCheckpointStatusGet (envReply SA_AIS_OK) K0 0 (some 0)
          (worldWith 3 none)).2.2.trace = true ∧
      underLock (Mutex.checkpoint_response 0) false
        (saCkptSectionDelete (envReply SA_AIS_OK) K0 0 sid0 (worldWith 3 none)).2.trace = true ∧
      underLock (Mutex.checkpoint_response 0) false
        (saCkptCheckpointRead (envReply SA_AIS_OK) K0 SA_AIS_OK 0 [iov0] (some 9)
          (worldWith 3 none)).2.2.2.trace = true := by
  decide

theorem withStatusAt_error (env : Env) (i n : Nat) (s : SaAisErrorT) :
    ((env.withStatusAt i s).recv n).error = (env.recv n).error := by
  unfold Env.withStatusAt
  by_cases h : n = i
  · simp [h]
  · simp [h]

theorem withStatusAt_send (env : Env) (i : Nat) (s : SaAisErrorT) :
    (env.withStatusAt i s).send = env.send := rfl

theorem set_same {α : Type} (l : List α) (i : Nat) (a : α) (h : l[i]? = some a) :
    l.set i a = l := by
  apply List.ext_getElem?
  intro n
  rw [List.getElem?_set]
  by_cases hn : i = n
  · subst hn
    simp [h, (List.getElem?_eq_some_iff.mp h).1]
  · simp [hn]

theorem put_get_restores {α : Type} (db : List (HandleEntry α)) (h : Nat)
    (hl : isLive db h = true) :
    (saHandleInstancePut (saHandleInstanceGet db h).2 h).1 = db := by
  unfold isLive at hl
  cases hg : db[h]? with
  | none => simp [hg] at hl
  | some e =>
    simp only [hg, decide_eq_true_eq] at hl
    have hlt : h < db.length := (List.getElem?_eq_some_iff.mp hg).1
    have hget : (saHandleInstanceGet db h).2 =
        db.set h { e with refCount := e.refCount + 1 } := by
      simp [saHandleInstanceGet, hg, hl]
    have hg1 : (db.set h { e with refCount := e.refCount + 1 })[h]? =
        some { e with refCount := e.refCount + 1 } := by
      simp [List.getElem?_set, hlt]
    have hback : (⟨HandleState.ACTIVE, e.refCount + 1 - 1, e.inst⟩ : HandleEntry α) = e := by
      rw [← hl]; cases e; simp
    rw [hget]
    unfold saHandleInstancePut
    rw [hg1]
    simp only [hl, false_and, if_false, List.set_set, reduceCtorEq]
    rw [hback]
    exact set_same db h e hg

/-- C15: one pass of the loop of `saCkptDispatch` whose poll succeeds.  If the
finalize flag of the instance is set, the pass ends the dispatch with
`SA_AIS_OK`, whatever the poll reports (hang-up and error included); otherwise,
if the poll reports error, hang-up or an invalid descriptor, it ends the
dispatch with `SA_AIS_ERR_BAD_HANDLE`.  In both cases the events of the pass are
the poll, the lock and unlock of the dispatch mutex and the put of the library
handle: no message is read (no receive, the receive counter is unchanged) and no
callback is invoked. -/
theorem dispatch_finalize_or_hangup (env : Env) (K : Headers) (ckptHandle : Nat)
    (dispatchFlags : SaDispatchFlagsT) (timeout : Int) (fuel : Nat) (w : World)
    (hp : (env.poll w.nPoll).error = SA_AIS_OK) :
    ((w.ckptInstanceOf ckptHandle).finalize = 1 →
        ∃ w1, dispatchBody env K ckptHandle dispatchFlags timeout w =
            Step.done (Outcome.returned SA_AIS_OK) w1 ∧
          dispatchLoop env K ckptHandle dispatchFlags timeout (fuel + 1) w =
            some (Outcome.returned SA_AIS_OK, w1) ∧
          w1.nRecv = w.nRecv ∧
          w1.trace = w.trace ++
            [Event.poll (w.ckptInstanceOf ckptHandle).dispatch_fd timeout,
             Event.lock (Mutex.ckpt_dispatch ckptHandle),
             Event.unlock (Mutex.ckpt_dispatch ckptHandle),
             Event.instancePut Db.ckpt ckptHandle]) ∧
      ((w.ckptInstanceOf ckptHandle).finalize ≠ 1 →
        ((env.poll w.nPoll).revents.pollerr = true ∨ (env.poll w.nPoll).revents.pollhup = true ∨
          (env.poll w.nPoll).revents.pollnval = true) →
        ∃ w1, dispatchBody env K ckptHandle dispatchFlags timeout w =
            Step.done (Outcome.returned SA_AIS_ERR_BAD_HANDLE) w1 ∧
          dispatchLoop env K ckptHandle dispatchFlags timeout (fuel + 1) w =
            some (Outcome.returned SA_AIS_ERR_BAD_HANDLE, w1) ∧
          w1.nRecv = w.nRecv ∧
          w1.trace = w.trace ++
            [Event.poll (w.ckptInstanceOf ckptHandle).dispatch_fd timeout,
             Event.lock (Mutex.ckpt_dispatch ckptHandle),
             Event.unlock (Mutex.ckpt_dispatch ckptHandle),
             Event.instancePut Db.ckpt ckptHandle]) := by
  constructor
  · intro hfin
    have hb : dispatchBody env K ckptHandle dispatchFlags timeout w =
        dispatchErrorUnlock ckptHandle SA_AIS_OK
          ((saPollRetry env (w.ckptInstanceOf ckptHandle).dispatch_fd timeout w).2.log
            (Event.lock (Mutex.ckpt_dispatch ckptHandle))) := by
      simp only [dispatchBody, saPollRetry, hp, hfin, ne_eq, not_true_eq_false, if_false,
        if_true]
    refine ⟨_, hb, ?_, rfl, ?_⟩
    · simp only [dispatchLoop, hb, dispatchErrorUnlock]
    · simp [saPollRetry, World.log, World.putCkpt]
  · intro hfin hrev
    have hb : dispatchBody env K ckptHandle dispatchFlags timeout w =
        dispatchErrorUnlock ckptHandle SA_AIS_ERR_BAD_HANDLE
          ((saPollRetry env (w.ckptInstanceOf ckptHandle).dispatch_fd timeout w).2.log
            (Event.lock (Mutex.ckpt_dispatch ckptHandle))) := by
      simp only [dispatchBody, saPollRetry, hp, hfin, hrev, ne_eq, not_true_eq_false, if_false,
        if_true]
    refine ⟨_, hb, ?_, rfl, ?_⟩
    · simp only [dispatchLoop, hb, dispatchErrorUnlock]
    · simp [saPollRetry, World.log, World.putCkpt]

theorem dispatchBody_other (env : Env) (K : Headers) (ckptHandle : Nat)
    (dispatchFlags : SaDispatchFlagsT) (timeout : Int) (w : World)
    (hfin : (w.ckptInstanceOf ckptHandle).finalize ≠ 1)
    (hp : (env.poll w.nPoll).error = SA_AIS_OK)
    (hrev : (env.poll w.nPoll).revents = ⟨true, false, false, false⟩)
    (hr : (env.recv w.nRecv).error = SA_AIS_OK)
    (ht : K.sizeof_res_header < (env.recv w.nRecv).msg.header.size →
      (env.recv w.nRecv).trailError = SA_AIS_OK)
    (hfit : (env.recv w.nRecv).msg.header.size - K.sizeof_res_header ≤
      sizeof_message_overlay_data)
    (hid : (env.recv w.nRecv).msg.header.id ≠
      K.MESSAGE_RES_CKPT_CHECKPOINT_CHECKPOINTOPENASYNC) :
    dispatchBody env K ckptHandle dispatchFlags timeout w =
      dispatchMore ckptHandle dispatchFlags SA_AIS_OK
        (w.received (dispatchReceive K (w.ckptInstanceOf ckptHandle) ckptHandle timeout
          (env.recv w.nRecv).msg)) := by
  have hfin2 : ¬ (instanceAt w.ckptHandleDatabase ckptHandle ckptInstance.zero).finalize = 1 :=
    hfin
  have hfit2 : ¬ sizeof_message_overlay_data <
      (env.recv w.nRecv).msg.header.size - K.sizeof_res_header := Nat.not_lt.mpr hfit
  by_cases hb : K.sizeof_res_header < (env.recv w.nRecv).msg.header.size
  · have ht2 := ht hb
    have hd : decide (K.sizeof_res_header < (env.recv w.nRecv).msg.header.size) = true := by
      simp [hb]
    simp only [dispatchBody, saPollRetry, hp, hrev, World.ckptInstanceOf, hfin2, World.log,
      saRecvRetry, hr, hd, hb, hfit2, saRecvRetryTrailing, ht2, dispatchData, ↓reduceIte, hid,
      World.received, dispatchReceive,
      ne_eq, not_true_eq_false, if_false, if_true, Bool.false_eq_true, or_self,
      Bool.true_eq_false, false_and, not_false_eq_true, decide_True,
      List.append_assoc, List.singleton_append, List.cons_append, List.nil_append]
  · have hd : decide (K.sizeof_res_header < (env.recv w.nRecv).msg.header.size) = false := by
      simp [hb]
    simp only [dispatchBody, saPollRetry, hp, hrev, World.ckptInstanceOf, hfin2, World.log,
      saRecvRetry, hr, hd, hb, hfit2, saRecvRetryTrailing, dispatchData, ↓reduceIte, hid,
      World.received, dispatchReceive,
      ne_eq, not_true_eq_false, if_false, if_true, Bool.false_eq_true, or_self,
      Bool.true_eq_false, false_and, not_false_eq_true, decide_False,
      List.append_assoc, List.singleton_append, List.cons_append, List.nil_append]

/-- C15 at concrete inputs: with every poll reporting readable data and a
hang-up, the pass on the state whose finalize flag is set ends with
`SA_AIS_OK`, and the pass on the state whose flag is clear ends with
`SA_AIS_ERR_BAD_HANDLE`; neither reads a message. -/
theorem dispatch_finalize_or_hangup_witness :
    ∃ w1 w2,
      dispatchBody envHangup K0 0 SaDispatchFlagsT.SA_DISPATCH_ONE 1 worldFinalizing =
          Step.done (Outcome.returned SA_AIS_OK) w1 ∧
        w1.nRecv = 0 ∧
        dispatchBody envHangup K0 0 SaDispatchFlagsT.SA_DISPATCH_ONE 1 (worldWith 3 none) =
          Step.done (Outcome.returned SA_AIS_ERR_BAD_HANDLE) w2 ∧
        w2.nRecv = 0 := by
  obtain ⟨w1, h1, -, h2, -⟩ :=
    (dispatch_finalize_or_hangup envHangup K0 0 SaDispatchFlagsT.SA_DISPATCH_ONE 1 0
      worldFinalizing (by decide)).1 (by decide)
  obtain ⟨w2, h3, -, h4, -⟩ :=
    (dispatch_finalize_or_hangup envHangup K0 0 SaDispatchFlagsT.SA_DISPATCH_ONE 1 0
      (worldWith 3 none) (by decide)).2 (by decide) (by decide)
  exact ⟨w1, w2, h1, h2, h3, h4⟩

theorem callbacksOf_append (a b : List Event) :
    callbacksOf (a ++ b) = callbacksOf a ++ callbacksOf b := by
  induction a with
  | nil => rfl
  | cons e es ih => cases e <;> simp [callbacksOf, ih]

theorem pollTimeouts_append (a b : List Event) :
    pollTimeouts (a ++ b) = pollTimeouts a ++ pollTimeouts b := by
  induction a with
  | nil => rfl
  | cons e es ih => cases e <;> simp [pollTimeouts, ih]

theorem instanceAt_modify_field {α β : Type} (db : List (HandleEntry α)) (h h2 : Nat)
    (f : α → α) (z : α) (g : α → β) (hf : ∀ a, g (f a) = g a) :
    g (instanceAt (modifyInstance db h f) h2 z) = g (instanceAt db h2 z) := by
  unfold modifyInstance instanceAt
  cases hg : db[h]? with
  | none => rfl
  | some e =>
    have hlt : h < db.length := (List.getElem?_eq_some_iff.mp hg).1
    by_cases hh : h = h2
    · subst hh
      simp [List.getElem?_set, hlt, hg, hf]
    · simp [List.getElem?_set, hh]

theorem callbacksOf_dispatchReceive (K : Headers) (inst : ckptInstance) (h : Nat)
    (timeout : Int) (m : Message) : callbacksOf (dispatchReceive K inst h timeout m) = [] := by
  unfold dispatchReceive
  split <;> rfl

theorem pollTimeouts_dispatchReceive (K : Headers) (inst : ckptInstance) (h : Nat)
    (timeout : Int) (m : Message) :
    pollTimeouts (dispatchReceive K inst h timeout m) = [timeout] := by
  unfold dispatchReceive
  split <;> rfl

theorem afterNotification_nPoll (env : Env) (K : Headers) (h : Nat) (timeout : Int) (fn : Nat)
    (w : World) : (afterNotification env K h timeout fn w).nPoll = w.nPoll + 1 := by
  unfold afterNotification
  split <;> rfl

theorem afterNotification_nRecv (env : Env) (K : Headers) (h : Nat) (timeout : Int) (fn : Nat)
    (w : World) : (afterNotification env K h timeout fn w).nRecv = w.nRecv + 1 := by
  unfold afterNotification
  split <;> rfl

theorem afterNotification_finalize (env : Env) (K : Headers) (h : Nat) (timeout : Int)
    (fn : Nat) (w : World) :
    ((afterNotification env K h timeout fn w).ckptInstanceOf h).finalize =
      (w.ckptInstanceOf h).finalize := by
  unfold afterNotification
  split
  · exact instanceAt_modify_field w.ckptHandleDatabase h h
      (fun i => { i with checkpoint_list :=
        (notification env K w).checkpointHandle :: i.checkpoint_list })
      ckptInstance.zero ckptInstance.finalize (fun _ => rfl)
  · rfl

theorem afterNotification_callbacks (env : Env) (K : Headers) (h : Nat) (timeout : Int)
    (fn : Nat) (w : World) :
    ((afterNotification env K h timeout fn w).ckptInstanceOf h).callbacks =
      (w.ckptInstanceOf h).callbacks := by
  unfold afterNotification
  split
  · exact instanceAt_modify_field w.ckptHandleDatabase h h
      (fun i => { i with checkpoint_list :=
        (notification env K w).checkpointHandle :: i.checkpoint_list })
      ckptInstance.zero ckptInstance.callbacks (fun _ => rfl)
  · rfl

theorem afterNotification_dispatch_fd (env : Env) (K : Headers) (h : Nat) (timeout : Int)
    (fn : Nat) (w : World) :
    ((afterNotification env K h timeout fn w).ckptInstanceOf h).dispatch_fd =
      (w.ckptInstanceOf h).dispatch_fd := by
  unfold afterNotification
  split
  · exact instanceAt_modify_field w.ckptHandleDatabase h h
      (fun i => { i with checkpoint_list :=
        (notification env K w).checkpointHandle :: i.checkpoint_list })
      ckptInstance.zero ckptInstance.dispatch_fd (fun _ => rfl)
  · rfl

theorem afterNotification_isLive (env : Env) (K : Headers) (h : Nat) (timeout : Int)
    (fn : Nat) (w : World) (c : Nat)
    (hc : (notification env K w).header.error ≠ SA_AIS_OK →
      (notification env K w).checkpointHandle ≠ c) :
    isLive (afterNotification env K h timeout fn w).checkpointHandleDatabase c =
      isLive w.checkpointHandleDatabase c := by
  unfold afterNotification
  split
  · show isLive (saHandleInstancePut (saHandleInstanceGet w.checkpointHandleDatabase _).2 _).1 c =
      isLive w.checkpointHandleDatabase c
    rw [isLive_put, isLive_get]
  · rename_i he
    show isLive (saHandleDestroy (saHandleInstancePut
      (saHandleInstanceGet w.checkpointHandleDatabase _).2 _).1 _) c =
      isLive w.checkpointHandleDatabase c
    rw [isLive_destroy_other _ _ _ (hc he), isLive_put, isLive_get]

theorem afterNotification_trace (env : Env) (K : Headers) (h : Nat) (timeout : Int)
    (fn : Nat) (w : World) :
    ∃ evs, (afterNotification env K h timeout fn w).trace = w.trace ++ evs ∧
      callbacksOf evs = [expectedCallback fn (notificationAt env K w.nRecv)] ∧
      pollTimeouts evs = [timeout] := by
  unfold afterNotification
  split
  · rename_i he
    refine ⟨dispatchReceive K (w.ckptInstanceOf h) h timeout (env.recv w.nRecv).msg ++
      [Event.instanceGet Db.checkpoint (notification env K w).checkpointHandle
        (saHandleInstanceGet w.checkpointHandleDatabase
          (notification env K w).checkpointHandle).1,
       Event.listAdd h (notification env K w).checkpointHandle,
       Event.callback fn (notification env K w).invocation
         ((notification env K w).checkpointHandle : Int) (notification env K w).header.error,
       Event.instancePut Db.checkpoint (notification env K w).checkpointHandle], ?_, ?_, ?_⟩
    · simp [World.putCheckpoint, World.log, World.listAdd, World.getCheckpoint, World.received]
    · rw [callbacksOf_append, callbacksOf_dispatchReceive]
      have he2 : (notificationAt env K w.nRecv).header.error = SA_AIS_OK := he
      simp only [callbacksOf, expectedCallback, he2, if_true, List.nil_append]
      rw [he]
      rfl
    · rw [pollTimeouts_append, pollTimeouts_dispatchReceive]
      rfl
  · rename_i he
    refine ⟨dispatchReceive K (w.ckptInstanceOf h) h timeout (env.recv w.nRecv).msg ++
      [Event.instanceGet Db.checkpoint (notification env K w).checkpointHandle
        (saHandleInstanceGet w.checkpointHandleDatabase
          (notification env K w).checkpointHandle).1,
       Event.instancePut Db.checkpoint (notification env K w).checkpointHandle,
       Event.handleDestroy Db.checkpoint (notification env K w).checkpointHandle,
       Event.callback fn (notification env K w).invocation (-1)
         (notification env K w).header.error], ?_, ?_, ?_⟩
    · simp [World.putCheckpoint, World.log, World.destroyCheckpoint, World.getCheckpoint,
        World.received]
    · rw [callbacksOf_append, callbacksOf_dispatchReceive]
      have he2 : ¬ (notificationAt env K w.nRecv).header.error = SA_AIS_OK := he
      simp only [callbacksOf, expectedCallback, he2, if_false, List.nil_append]
      rfl
    · rw [pollTimeouts_append, pollTimeouts_dispatchReceive]
      rfl

theorem dispatchBody_all_notified (env : Env) (K : Headers) (h : Nat) (w : World) (fn : Nat)
    (hfin : (w.ckptInstanceOf h).finalize ≠ 1)
    (hcb : (w.ckptInstanceOf h).callbacks.saCkptCheckpointOpenCallback = some fn)
    (hp : env.poll w.nPoll = ⟨SA_AIS_OK, ⟨true, false, false, false⟩⟩)
    (hr : (env.recv w.nRecv).error = SA_AIS_OK)
    (ht : K.sizeof_res_header < (env.recv w.nRecv).msg.header.size →
      (env.recv w.nRecv).trailError = SA_AIS_OK)
    (hfit : (env.recv w.nRecv).msg.header.size - K.sizeof_res_header ≤
      sizeof_message_overlay_data)
    (hid : (env.recv w.nRecv).msg.header.id =
      K.MESSAGE_RES_CKPT_CHECKPOINT_CHECKPOINTOPENASYNC)
    (hc : isLive w.checkpointHandleDatabase (notificationAt env K w.nRecv).checkpointHandle =
      true) :
    dispatchBody env K h SaDispatchFlagsT.SA_DISPATCH_ALL 0 w =
      Step.again (afterNotification env K h 0 fn w) := by
  have hid2 : (notification env K w).header.id =
      K.MESSAGE_RES_CKPT_CHECKPOINT_CHECKPOINTOPENASYNC := by
    rw [notification_header]; exact hid
  rw [dispatchBody_notified env K h SaDispatchFlagsT.SA_DISPATCH_ALL 0 w fn hfin hcb
    (by rw [hp]) (by rw [hp]) hr ht hfit hid2 hc]
  unfold afterNotification
  split <;> simp [dispatchMore]

theorem dispatchBody_all_empty (env : Env) (K : Headers) (h : Nat) (w : World)
    (hfin : (w.ckptInstanceOf h).finalize ≠ 1)
    (hp : env.poll w.nPoll = ⟨SA_AIS_OK, ⟨false, false, false, false⟩⟩) :
    ∃ w1 evs, dispatchBody env K h SaDispatchFlagsT.SA_DISPATCH_ALL 0 w =
        Step.done (Outcome.returned SA_AIS_OK) w1 ∧
      w1.trace = w.trace ++ evs ∧ callbacksOf evs = [] ∧ pollTimeouts evs = [0] ∧
      w1.nRecv = w.nRecv := by
  have hfin2 : ¬ (instanceAt w.ckptHandleDatabase h ckptInstance.zero).finalize = 1 := hfin
  have hb : dispatchBody env K h SaDispatchFlagsT.SA_DISPATCH_ALL 0 w =
      dispatchErrorUnlock h SA_AIS_OK
        (((saPollRetry env (w.ckptInstanceOf h).dispatch_fd 0 w).2.log
          (Event.lock (Mutex.ckpt_dispatch h))).log (Event.unlock (Mutex.ckpt_dispatch h))) := by
    simp only [dispatchBody, saPollRetry, hp, World.ckptInstanceOf, hfin2, World.log,
      ne_eq, not_true_eq_false, if_false, if_true, Bool.false_eq_true,
      or_self, and_self]
  refine ⟨_, [Event.poll (w.ckptInstanceOf h).dispatch_fd 0,
    Event.lock (Mutex.ckpt_dispatch h), Event.unlock (Mutex.ckpt_dispatch h),
    Event.unlock (Mutex.ckpt_dispatch h), Event.instancePut Db.ckpt h], hb, ?_, rfl, rfl, rfl⟩
  simp [World.putCkpt, World.log, saPollRetry]

theorem dispatchLoop_all (env : Env) (K : Headers) (h : Nat) (fn : Nat) :
    ∀ (n extra : Nat) (w : World),
      (w.ckptInstanceOf h).finalize ≠ 1 →
      (w.ckptInstanceOf h).callbacks.saCkptCheckpointOpenCallback = some fn →
      (∀ i, i < n → env.poll (w.nPoll + i) = ⟨SA_AIS_OK, ⟨true, false, false, false⟩⟩) →
      env.poll (w.nPoll + n) = ⟨SA_AIS_OK, ⟨false, false, false, false⟩⟩ →
      (∀ i, i < n → (env.recv (w.nRecv + i)).error = SA_AIS_OK ∧
        (K.sizeof_res_header < (env.recv (w.nRecv + i)).msg.header.size →
          (env.recv (w.nRecv + i)).trailError = SA_AIS_OK) ∧
        (env.recv (w.nRecv + i)).msg.header.size - K.sizeof_res_header ≤
          sizeof_message_overlay_data ∧
        (env.recv (w.nRecv + i)).msg.header.id =
          K.MESSAGE_RES_CKPT_CHECKPOINT_CHECKPOINTOPENASYNC) →
      (∀ i, i < n → isLive w.checkpointHandleDatabase
        (notificationAt env K (w.nRecv + i)).checkpointHandle = true) →
      (∀ j, j < n → ∀ i, i < j →
        (notificationAt env K (w.nRecv + i)).header.error ≠ SA_AIS_OK →
        (notificationAt env K (w.nRecv + i)).checkpointHandle ≠
          (notificationAt env K (w.nRecv + j)).checkpointHandle) →
      ∃ w1 evs, dispatchLoop env K h SaDispatchFlagsT.SA_DISPATCH_ALL 0 (n + 1 + extra) w =
          some (Outcome.returned SA_AIS_OK, w1) ∧
        w1.trace = w.trace ++ evs ∧
        callbacksOf evs = expectedCallbacks env K fn w.nRecv n ∧
        pollTimeouts evs = List.replicate (n + 1) 0 ∧
        w1.nRecv = w.nRecv + n := by
  intro n
  induction n with
  | zero =>
    intro extra w hfin hcb _ hempty _ _ _
    obtain ⟨w1, evs, k1, k2, k3, k4, k5⟩ := dispatchBody_all_empty env K h w hfin hempty
    refine ⟨w1, evs, ?_, k2, k3, k4, k5⟩
    have hf : 0 + 1 + extra = extra + 1 := by omega
    rw [hf]
    simp only [dispatchLoop, k1]
  | succ n ih =>
    intro extra w hfin hcb hpoll hempty hrecv hlive hfresh
    have hr0 := hrecv 0 (Nat.succ_pos n)
    have hl0 := hlive 0 (Nat.succ_pos n)
    have hbody := dispatchBody_all_notified env K h w fn hfin hcb (hpoll 0 (Nat.succ_pos n))
      hr0.1 hr0.2.1 hr0.2.2.1 hr0.2.2.2 hl0
    have hnp := afterNotification_nPoll env K h 0 fn w
    have hnr := afterNotification_nRecv env K h 0 fn w
    have hsh : ∀ a i : Nat, a + 1 + i = a + (i + 1) := by intro a i; omega
    obtain ⟨w1, evs, k1, k2, k3, k4, k5⟩ := ih extra (afterNotification env K h 0 fn w)
      (by rw [afterNotification_finalize]; exact hfin)
      (by rw [afterNotification_callbacks]; exact hcb)
      (by intro i hi; rw [hnp, hsh]; exact hpoll (i + 1) (Nat.succ_lt_succ hi))
      (by rw [hnp, hsh]; exact hempty)
      (by intro i hi; rw [hnr, hsh]; exact hrecv (i + 1) (Nat.succ_lt_succ hi))
      (by
        intro i hi
        rw [hnr, hsh, afterNotification_isLive]
        · exact hlive (i + 1) (Nat.succ_lt_succ hi)
        · intro he
          exact hfresh (i + 1) (Nat.succ_lt_succ hi) 0 (Nat.succ_pos i) he)
      (by
        intro j hj i hi
        rw [hnr, hsh, hsh]
        exact hfresh (j + 1) (Nat.succ_lt_succ hj) (i + 1) (Nat.succ_lt_succ hi))
    obtain ⟨evs0, t1, t2, t3⟩ := afterNotification_trace env K h 0 fn w
    refine ⟨w1, evs0 ++ evs, ?_, ?_, ?_, ?_, ?_⟩
    · have hf : n + 1 + 1 + extra = (n + 1 + extra) + 1 := by omega
      rw [hf]
      simp only [dispatchLoop, hbody]
      exact k1
    · rw [k2, t1, List.append_assoc]
    · rw [callbacksOf_append, t2, k3, hnr]
      rfl
    · rw [pollTimeouts_append, t3, k4]
      rfl
    · rw [k5, hnr]
      omega

theorem expectedCallbacks_length (env : Env) (K : Headers) (fn : Nat) :
    ∀ (n start : Nat), (expectedCallbacks env K fn start n).length = n := by
  intro n
  induction n with
  | zero => intro start; rfl
  | succ n ih => intro start; simp [expectedCallbacks, ih]

/-- C21, evaluated where the code departs from it: on the example checkpoint
(live handle 0 with READ access), when every send fails with the transport
error `other 2`, `saCkptCheckpointRead` of two elements does not abort: after
the failed send of element 0 it receives the 16-byte response of that element,
then sends element 1 and receives again, and it returns `SA_AIS_OK`, the status
of the last response, where the transport error of the send was `other 2`; the
erroneous-vector-index cell is left at 9.  `saCkptCheckpointWrite` on the same
state does abort: one send call, no receive, and the result `other 2`. -/
theorem read_ignores_send_failure :
    isLive (worldWith 3 none).checkpointHandleDatabase 0 = true ∧
      envSendFails.send 0 = SaAisErrorT.other 2 ∧
      (saCkptCheckpointRead envSendFails K0 SA_AIS_OK 0 [iov0, iov0] (some 9)
        (worldWith 3 none)).1 = SA_AIS_OK ∧
      (saCkptCheckpointRead envSendFails K0 SA_AIS_OK 0 [iov0, iov0] (some 9)
        (worldWith 3 none)).2.1 = some 9 ∧
      sendCalls (saCkptCheckpointRead envSendFails K0 SA_AIS_OK 0 [iov0, iov0] (some 9)
        (worldWith 3 none)).2.2.2.trace = 2 ∧
      recvSizes (saCkptCheckpointRead envSendFails K0 SA_AIS_OK 0 [iov0, iov0] (some 9)
        (worldWith 3 none)).2.2.2.trace = [16, 16] ∧
      (saCkptCheckpointWrite envSendFails K0 SA_AIS_OK 0 [iov0, iov0] (some 9)
        (worldWith 3 none)).1 = SaAisErrorT.other 2 ∧
      sendCalls (saCkptCheckpointWrite envSendFails K0 SA_AIS_OK 0 [iov0, iov0] (some 9)
        (worldWith 3 none)).2.2.trace = 1 ∧
      recvSizes (saCkptCheckpointWrite envSendFails K0 SA_AIS_OK 0 [iov0, iov0] (some 9)
        (worldWith 3 none)).2.2.trace = [] := by
  decide

/-- C22, evaluated where the code departs from it: the checkpoint handle 0 of
the example state has the reference count 1.  On the state opened for WRITE
only (flags 2) `saCkptCheckpointRead` returns `SA_AIS_ERR_ACCESS` after the
lookup alone, with no put, and on the state opened for READ only (flags 1) so
does `saCkptSectionOverwrite`: the count is 2 afterwards.  The access-denied
returns of `saCkptCheckpointWrite`, `saCkptSectionCreate` and
`saCkptActiveReplicaSet` put the handle (count 1), and so do the returns after
a failed send and after a failed receive of read and overwrite. -/
theorem access_denied_return_keeps_reference :
    refCountOf (worldWith 2 none).checkpointHandleDatabase 0 = 1 ∧
      refCountOf (worldWith 1 none).checkpointHandleDatabase 0 = 1 ∧
      (saCkptCheckpointRead (envReply SA_AIS_OK) K0 SA_AIS_OK 0 [iov0] (some 9)
        (worldWith 2 none)).1 = SA_AIS_ERR_ACCESS ∧
      (saCkptCheckpointRead (envReply SA_AIS_OK) K0 SA_AIS_OK 0 [iov0] (some 9)
        (worldWith 2 none)).2.2.2.trace =
        [Event.instanceGet Db.checkpoint 0 SA_AIS_OK] ∧
      refCountOf (saCkptCheckpointRead (envReply SA_AIS_OK) K0 SA_AIS_OK 0 [iov0] (some 9)
        (worldWith 2 none)).2.2.2.checkpointHandleDatabase 0 = 2 ∧
      (saCkptSectionOverwrite (envReply SA_AIS_OK) K0 0 sid0 8 (worldWith 1 none)).1 =
        SA_AIS_ERR_ACCESS ∧
      (saCkptSectionOverwrite (envReply SA_AIS_OK) K0 0 sid0 8 (worldWith 1 none)).2.trace =
        [Event.instanceGet Db.checkpoint 0 SA_AIS_OK] ∧
      refCountOf (saCkptSectionOverwrite (envReply SA_AIS_OK) K0 0 sid0 8
        (worldWith 1 none)).2.checkpointHandleDatabase 0 = 2 ∧
      refCountOf (saCkptCheckpointWrite (envReply SA_AIS_OK) K0 SA_AIS_OK 0 [iov0] (some 9)
        (worldWith 1 none)).2.2.checkpointHandleDatabase 0 = 1 ∧
      refCountOf (saCkptSectionCreate (envReply SA_AIS_OK) K0 0 ⟨sid0, 5⟩ 8
        (worldWith 1 none)).2.checkpointHandleDatabase 0 = 1 ∧
      refCountOf (saCkptActiveReplicaSet (envReply SA_AIS_OK) K0 0
        (worldWith 1 none)).2.checkpointHandleDatabase 0 = 1 ∧
      refCountOf (saCkptCheckpointRead envSendFails K0 SA_AIS_OK 0 [iov0] (some 9)
        (worldWith 3 none)).2.2.2.checkpointHandleDatabase 0 = 1 ∧
      refCountOf (saCkptCheckpointRead envRecvFails K0 SA_AIS_OK 0 [iov0] (some 9)
        (worldWith 3 none)).2.2.2.checkpointHandleDatabase 0 = 1 ∧
      refCountOf (saCkptSectionOverwrite envSendFails K0 0 sid0 8
        (worldWith 3 none)).2.checkpointHandleDatabase 0 = 1 ∧
      refCountOf (saCkptSectionOverwrite envRecvFails K0 0 sid0 8
        (worldWith 3 none)).2.checkpointHandleDatabase 0 = 1 := by
  decide

/-- C23, evaluated where the code departs from it: on the example state,
`saCkptDispatch` in `SA_DISPATCH_ONE` mode that reads one message (of another
kind, or an open-completed notification with a callback registered) locks the
dispatch mutex once and unlocks it twice: after the receive, and again at
`error_unlock` where the loop ends.  So does the call in `SA_DISPATCH_ALL` mode
on an empty queue: it unlocks before `break` and again at `error_unlock`.  The
second unlock happens while the mutex is not held, and the locks less the
unlocks are -1 when the call returns.  The exits on a set finalize flag, on a
hang-up and on a failed receive unlock once, and the exit on a failed poll
neither locks nor unlocks. -/
theorem dispatch_unlocks_twice :
    (saCkptDispatch (envReply SA_AIS_OK) K0 0 SaDispatchFlagsT.SA_DISPATCH_ONE 5
        (worldWith 3 (some 1))).map
        (fun r => (r.1, r.2.trace.count (Event.lock (Mutex.ckpt_dispatch 0)),
          r.2.trace.count (Event.unlock (Mutex.ckpt_dispatch 0)),
          unlocksHeld (Mutex.ckpt_dispatch 0) 0 r.2.trace)) =
        some (Outcome.returned SA_AIS_OK, 1, 2, false) ∧
      (saCkptDispatch (envNotify SA_AIS_OK) K0 0 SaDispatchFlagsT.SA_DISPATCH_ONE 5
        (worldWith 3 (some 1))).map
        (fun r => (r.1, r.2.trace.count (Event.lock (Mutex.ckpt_dispatch 0)),
          r.2.trace.count (Event.unlock (Mutex.ckpt_dispatch 0)),
          unlocksHeld (Mutex.ckpt_dispatch 0) 0 r.2.trace)) =
        some (Outcome.returned SA_AIS_OK, 1, 2, false) ∧
      (saCkptDispatch envEmptyQueue K0 0 SaDispatchFlagsT.SA_DISPATCH_ALL 5
        (worldWith 3 (some 1))).map
        (fun r => (r.1, r.2.trace, heldAfter (Mutex.ckpt_dispatch 0) r.2.trace,
          unlocksHeld (Mutex.ckpt_dispatch 0) 0 r.2.trace)) =
        some (Outcome.returned SA_AIS_OK,
          [Event.instanceGet Db.ckpt 0 SA_AIS_OK, Event.poll 4 0,
           Event.lock (Mutex.ckpt_dispatch 0), Event.unlock (Mutex.ckpt_dispatch 0),
           Event.unlock (Mutex.ckpt_dispatch 0), Event.instancePut Db.ckpt 0], -1, false) ∧
      (saCkptDispatch (envQueue3 SA_AIS_OK) K0 0 SaDispatchFlagsT.SA_DISPATCH_ALL 5
        (worldWith 3 (some 1))).map
        (fun r => (r.1, r.2.trace.count (Event.lock (Mutex.ckpt_dispatch 0)),
          r.2.trace.count (Event.unlock (Mutex.ckpt_dispatch 0)),
          unlocksHeld (Mutex.ckpt_dispatch 0) 0 r.2.trace)) =
        some (Outcome.returned SA_AIS_OK, 4, 5, false) ∧
      (saCkptDispatch envHangup K0 0 SaDispatchFlagsT.SA_DISPATCH_ONE 5 worldFinalizing).map
        (fun r => (r.1, heldAfter (Mutex.ckpt_dispatch 0) r.2.trace,
          unlocksHeld (Mutex.ckpt_dispatch 0) 0 r.2.trace)) =
        some (Outcome.returned SA_AIS_OK, 0, true) ∧
      (saCkptDispatch envHangup K0 0 SaDispatchFlagsT.SA_DISPATCH_BLOCKING 5
        (worldWith 3 (some 1))).map
        (fun r => (r.1, heldAfter (Mutex.ckpt_dispatch 0) r.2.trace,
          unlocksHeld (Mutex.ckpt_dispatch 0) 0 r.2.trace)) =
        some (Outcome.returned SA_AIS_ERR_BAD_HANDLE, 0, true) ∧
      (saCkptDispatch envRecvFails K0 0 SaDispatchFlagsT.SA_DISPATCH_ONE 5
        (worldWith 3 none)).map
        (fun r => (r.1, heldAfter (Mutex.ckpt_dispatch 0) r.2.trace,
          unlocksHeld (Mutex.ckpt_dispatch 0) 0 r.2.trace)) =
        some (Outcome.returned (SaAisErrorT.other 2), 0, true) ∧
      (saCkptDispatch envPollFails K0 0 SaDispatchFlagsT.SA_DISPATCH_ONE 5
        (worldWith 3 none)).map
        (fun r => (r.1, r.2.trace.count (Event.lock (Mutex.ckpt_dispatch 0)),
          r.2.trace.count (Event.unlock (Mutex.ckpt_dispatch 0)))) =
        some (Outcome.returned (SaAisErrorT.other 2), 0, 0) := by
  refine ⟨by decide, by decide, by decide, by decide, by decide, by decide, by decide,
    by decide⟩

/-- C24, evaluated where the code departs from it: in the state after an
asynchronous open (checkpoint handle 0 live, not yet linked), `saCkptDispatch`
in `SA_DISPATCH_ONE` mode reads the open-completed notification for that
handle.  With the open callback 1 registered and the status OK the handle is
linked into the checkpoint list of the library; with no callback registered the
list stays empty.  With the callback registered and the status `other 27` the
handle is destroyed (lookups fail); with no callback registered it stays live.
Without a callback the events of the call hold no link, no destroy and no
lookup of the checkpoint handle. -/
theorem dispatch_without_callback_drops_notification :
    (worldPending none).checkpointHandleDatabase =
        (worldPending (some 1)).checkpointHandleDatabase ∧
      isLive (worldPending none).checkpointHandleDatabase 0 = true ∧
      ((worldPending none).ckptInstanceOf 0).checkpoint_list = [] ∧
      (saCkptDispatch (envNotifyOnce SA_AIS_OK) K0 0 SaDispatchFlagsT.SA_DISPATCH_ONE 5
        (worldPending (some 1))).map
        (fun r => (r.1, (r.2.ckptInstanceOf 0).checkpoint_list,
          isLive r.2.checkpointHandleDatabase 0)) =
        some (Outcome.returned SA_AIS_OK, [0], true) ∧
      (saCkptDispatch (envNotifyOnce SA_AIS_OK) K0 0 SaDispatchFlagsT.SA_DISPATCH_ONE 5
        (worldPending none)).map
        (fun r => (r.1, (r.2.ckptInstanceOf 0).checkpoint_list,
          isLive r.2.checkpointHandleDatabase 0)) =
        some (Outcome.returned SA_AIS_OK, [], true) ∧
      (saCkptDispatch (envNotifyOnce (SaAisErrorT.other 27)) K0 0
        SaDispatchFlagsT.SA_DISPATCH_ONE 5 (worldPending (some 1))).map
        (fun r => (r.1, (r.2.ckptInstanceOf 0).checkpoint_list,
          isLive r.2.checkpointHandleDatabase 0)) =
        some (Outcome.returned SA_AIS_OK, [], false) ∧
      (saCkptDispatch (envNotifyOnce (SaAisErrorT.other 27)) K0 0
        SaDispatchFlagsT.SA_DISPATCH_ONE 5 (worldPending none)).map
        (fun r => (r.1, (r.2.ckptInstanceOf 0).checkpoint_list,
          isLive r.2.checkpointHandleDatabase 0)) =
        some (Outcome.returned SA_AIS_OK, [], true) ∧
      (dispatchBody (envNotifyOnce (SaAisErrorT.other 27)) K0 0
        SaDispatchFlagsT.SA_DISPATCH_ONE 1 (worldPending none)).world.trace.drop
        (worldPending none).trace.length =
        [Event.poll 4 1, Event.lock (Mutex.ckpt_dispatch 0), Event.recv 4 12, Event.recv 4 28,
         Event.unlock (Mutex.ckpt_dispatch 0)] := by
  decide

/-- C25, evaluated where the code departs from it: on the example state, whose
checkpoint handle 0 has the reference count 1, `saCkptSectionIterationInitialize`
that returns the transport error `other 2` of a failed receive, or the status
`other 27` embedded in the response of the server, leaves the iterator handle 0
it created live and the reference it took on the checkpoint handle in place
(count 2): after the receive it unlocks, puts the iterator handle and returns.
When the send fails the iterator handle is put and destroyed and the checkpoint
handle is put (not live, count 1), and when the lookup of the checkpoint handle
fails nothing is created. -/
theorem iteration_initialize_failure_keeps_handle :
    refCountOf (worldWith 3 none).checkpointHandleDatabase 0 = 1 ∧
      (fun r => (r.1, r.2.1, isLive r.2.2.ckptSectionIterationHandleDatabase r.2.1,
          refCountOf r.2.2.checkpointHandleDatabase 0))
        (saCkptSectionIterationInitialize envRecvFails K0 0 0 0 9 (worldWith 3 none)) =
        (SaAisErrorT.other 2, 0, true, 2) ∧
      (fun r => (r.1, r.2.1, isLive r.2.2.ckptSectionIterationHandleDatabase r.2.1,
          refCountOf r.2.2.checkpointHandleDatabase 0))
        (saCkptSectionIterationInitialize (envReply (SaAisErrorT.other 27)) K0 0 0 0 9
          (worldWith 3 none)) =
        (SaAisErrorT.other 27, 0, true, 2) ∧
      (fun r => (r.1, r.2.1, isLive r.2.2.ckptSectionIterationHandleDatabase r.2.1,
          refCountOf r.2.2.checkpointHandleDatabase 0))
        (saCkptSectionIterationInitialize envSendFails K0 0 0 0 9 (worldWith 3 none)) =
        (SaAisErrorT.other 2, 0, false, 1) ∧
      (fun r => (r.1, r.2.2.ckptSectionIterationHandleDatabase,
          refCountOf r.2.2.checkpointHandleDatabase 0))
        (saCkptSectionIterationInitialize (envReply SA_AIS_OK) K0 7 0 0 9 (worldWith 3 none)) =
        (SA_AIS_ERR_BAD_HANDLE, [], 1) := by
  decide

/-- C26, evaluated where the code departs from it: on the example checkpoint
(live handle 0 with READ and WRITE access), `saCkptCheckpointWrite` and
`saCkptCheckpointRead` of zero elements send nothing, receive nothing and leave
the erroneous-vector-index cell at 9, and they return `garbage`, the
indeterminate initial value of the local response header's `error`, whatever
that is: the loop never assigns the header, and the return statement reads it
because `error` is `SA_AIS_OK`. -/
theorem empty_vector_returns_uninitialised_status (garbage : SaAisErrorT) :
    (saCkptCheckpointWrite (envReply SA_AIS_OK) K0 garbage 0 [] (some 9)
        (worldWith 3 none)).1 = garbage ∧
      (saCkptCheckpointWrite (envReply SA_AIS_OK) K0 garbage 0 [] (some 9)
        (worldWith 3 none)).2.1 = some 9 ∧
      (saCkptCheckpointWrite (envReply SA_AIS_OK) K0 garbage 0 [] (some 9)
        (worldWith 3 none)).2.2.trace =
        [Event.instanceGet Db.checkpoint 0 SA_AIS_OK, Event.lock (Mutex.checkpoint_response 0),
         Event.unlock (Mutex.checkpoint_response 0), Event.instancePut Db.checkpoint 0] ∧
      (saCkptCheckpointRead (envReply SA_AIS_OK) K0 garbage 0 [] (some 9)
        (worldWith 3 none)).1 = garbage ∧
      (saCkptCheckpointRead (envReply SA_AIS_OK) K0 garbage 0 [] (some 9)
        (worldWith 3 none)).2.1 = some 9 ∧
      (saCkptCheckpointRead (envReply SA_AIS_OK) K0 garbage 0 [] (some 9)
        (worldWith 3 none)).2.2.2.trace =
        [Event.instanceGet Db.checkpoint 0 SA_AIS_OK, Event.lock (Mutex.checkpoint_response 0),
         Event.unlock (Mutex.checkpoint_response 0), Event.instancePut Db.checkpoint 0] ∧
      (saCkptCheckpointWrite (envReply SA_AIS_OK) K0 (SaAisErrorT.other 9) 0 [] (some 9)
        (worldWith 3 none)).1 ≠ SA_AIS_OK := by
  refine ⟨rfl, rfl, rfl, rfl, rfl, rfl, by decide⟩

/-- A `saCkptFinalize` on a live handle whose finalize flag is already set
returns `SA_AIS_ERR_BAD_HANDLE`; its events are the lookup, the lock, the unlock
and the put, and the handle table is as before. -/
theorem finalize_flagged (w : World) (h : Nat) (hl : isLive w.ckptHandleDatabase h = true)
    (hf : (w.ckptInstanceOf h).finalize ≠ 0) :
    saCkptFinalize h w =
      (SA_AIS_ERR_BAD_HANDLE,
       { w with trace := w.trace ++
          [Event.instanceGet Db.ckpt h SA_AIS_OK, Event.lock (Mutex.ckpt_response h),
           Event.unlock (Mutex.ckpt_response h), Event.instancePut Db.ckpt h] }) := by
  have hg := getCkpt_live w h hl
  have hgl : (saHandleInstanceGet w.ckptHandleDatabase h).1 = SA_AIS_OK :=
    saHandleInstanceGet_live _ _ hl
  have hi := ckptInstanceOf_getCkpt w h h
  have hdb := put_get_restores w.ckptHandleDatabase h hl
  simp only [saCkptFinalize, hg, ne_eq, not_true_eq_false, if_false, hi, hf,
    not_false_eq_true, if_true]
  simp only [World.putCkpt, World.log, World.getCkpt, hgl, hdb, List.append_assoc,
    List.singleton_append, List.cons_append, List.nil_append]

/-- Every one of n calls of `saCkptFinalize` on a live handle whose finalize flag
is set returns `SA_AIS_ERR_BAD_HANDLE`, and none closes a descriptor. -/
theorem finalizeTimes_flagged (h : Nat) (n : Nat) :
    ∀ w : World, isLive w.ckptHandleDatabase h = true → (w.ckptInstanceOf h).finalize ≠ 0 →
      (finalizeTimes h n w).1 = List.replicate n SA_AIS_ERR_BAD_HANDLE ∧
      ∃ evs, (finalizeTimes h n w).2.trace = w.trace ++ evs ∧ closes evs = [] := by
  induction n with
  | zero => intro w _ _; exact ⟨rfl, [], by simp [finalizeTimes], rfl⟩
  | succ n ih =>
    intro w hl hf
    have hd := finalize_flagged w h hl hf
    obtain ⟨r1, evs, r2, r3⟩ := ih (saCkptFinalize h w).2 (by rw [hd]; exact hl)
      (by rw [hd]; exact hf)
    simp only [finalizeTimes]
    refine ⟨?_, [Event.instanceGet Db.ckpt h SA_AIS_OK, Event.lock (Mutex.ckpt_response h),
      Event.unlock (Mutex.ckpt_response h), Event.instancePut Db.ckpt h] ++ evs, ?_, ?_⟩
    · rw [r1, hd]; rfl
    · rw [r2, hd]; simp
    · rw [closes_append, r3]; rfl

/-- C7: for every state in which the library handle is live with two valid
descriptors (the state `saCkptInitialize` leaves and every state reached from
it by opens, whatever checkpoints are linked) and every sequence of
`saCkptFinalize` calls on the handle.  When the finalize flag is clear, the
first of n + 1 calls returns `SA_AIS_OK`, each of the n others returns
`SA_AIS_ERR_BAD_HANDLE`, and the descriptors closed over the whole sequence are
the response descriptor and the dispatch descriptor, once each.  When the flag
is already set (another finalize has begun), every call returns
`SA_AIS_ERR_BAD_HANDLE` and closes nothing. -/
theorem finalize_exactly_once (w : World) (ckptHandle n : Nat)
    (hl : isLive w.ckptHandleDatabase ckptHandle = true)
    (hr : (w.ckptInstanceOf ckptHandle).response_fd ≠ -1)
    (hd : (w.ckptInstanceOf ckptHandle).dispatch_fd ≠ -1) :
    ((w.ckptInstanceOf ckptHandle).finalize = 0 →
        (finalizeTimes ckptHandle (n + 1) w).1 =
          SA_AIS_OK :: List.replicate n SA_AIS_ERR_BAD_HANDLE ∧
        ∃ evs, (finalizeTimes ckptHandle (n + 1) w).2.trace = w.trace ++ evs ∧
          closes evs = [(w.ckptInstanceOf ckptHandle).response_fd,
            (w.ckptInstanceOf ckptHandle).dispatch_fd]) ∧
      ((w.ckptInstanceOf ckptHandle).finalize ≠ 0 →
        (finalizeTimes ckptHandle n w).1 = List.replicate n SA_AIS_ERR_BAD_HANDLE ∧
        ∃ evs, (finalizeTimes ckptHandle n w).2.trace = w.trace ++ evs ∧ closes evs = []) := by
  constructor
  · intro hf
    obtain ⟨f1, f2, evs, f3, f4⟩ := finalize_live w ckptHandle hl hf hr hd
    obtain ⟨d1, evs2, d2, d3⟩ := finalizeTimes_dead ckptHandle n (saCkptFinalize ckptHandle w).2 f2
    simp only [finalizeTimes]
    refine ⟨by rw [f1, d1], evs ++ evs2, ?_, ?_⟩
    · rw [d2, f3, List.append_assoc]
    · rw [closes_append, f4, d3]; rfl
  · intro hf
    exact finalizeTimes_flagged ckptHandle n w hl hf

/-- Witness of C7: three calls of finalize on the library handle 0 after an
initialize and a synchronous open, so that one checkpoint is linked (the
descriptors are 3 and 4); and three calls on the state whose finalize flag is
already set. -/
theorem finalize_exactly_once_witness :
    (worldOpened.ckptInstanceOf 0).checkpoint_list = [0] ∧
      (finalizeTimes 0 (2 + 1) worldOpened).1 =
        [SA_AIS_OK, SA_AIS_ERR_BAD_HANDLE, SA_AIS_ERR_BAD_HANDLE] ∧
      (∃ evs, (finalizeTimes 0 (2 + 1) worldOpened).2.trace = worldOpened.trace ++ evs ∧
        closes evs = [3, 4]) ∧
      (finalizeTimes 0 3 worldFinalizing).1 =
        [SA_AIS_ERR_BAD_HANDLE, SA_AIS_ERR_BAD_HANDLE, SA_AIS_ERR_BAD_HANDLE] :=
  ⟨by decide,
   ((finalize_exactly_once worldOpened 0 2 (by decide) (by decide) (by decide)).1
      (by decide)).1,
   ((finalize_exactly_once worldOpened 0 2 (by decide) (by decide) (by decide)).1
      (by decide)).2,
   ((finalize_exactly_once worldFinalizing 0 3 (by decide) (by decide) (by decide)).2
      (by decide)).1⟩

/-- On an instance that was never linked `list_del` dereferences a null
pointer. -/
theorem listDel_unlinked (w : World) (c : Nat) (hd : w.isDangling c = false)
    (hlk : w.isLinked c = false) :
    w.listDel c = Except.error Outcome.nullDereference := by
  simp [World.listDel, hlk, hd]

/-- What a `list_del` that does not fault changes: every checkpoint list loses
`c`, the checkpoint handle table is as before and the trace grows by the one
event. -/
theorem listDel_list (w w1 : World) (c lib : Nat) (h : w.listDel c = Except.ok w1) :
    (w1.ckptInstanceOf lib).checkpoint_list =
        (w.ckptInstanceOf lib).checkpoint_list.filter (fun x => x ≠ c) ∧
      w1.checkpointHandleDatabase = w.checkpointHandleDatabase ∧
      w1.trace = w.trace ++ [Event.listDel c] := by
  unfold World.listDel at h
  by_cases hd : w.isDangling c = true
  · rw [if_pos hd] at h
    exact absurd h (by simp)
  · rw [if_neg hd] at h
    by_cases hlk : w.isLinked c = true
    · rw [if_pos hlk] at h
      injection h with h
      subst h
      refine ⟨?_, rfl, rfl⟩
      unfold World.ckptInstanceOf instanceAt
      cases hg : w.ckptHandleDatabase[lib]? with
      | none => simp [List.getElem?_map, hg, ckptInstance.zero]
      | some e => simp [List.getElem?_map, hg]
    · rw [if_neg hlk] at h
      exact absurd h (by simp)

/-- The `list_del` of a linked instance neither of whose neighbours is a freed
head does not fault. -/
theorem listDel_linked (w : World) (c : Nat) (hd : w.isDangling c = false)
    (hlk : w.isLinked c = true) :
    ∃ w1, w.listDel c = Except.ok w1 := by
  simp [World.listDel, hlk, hd]

/-- A close of a live handle whose send succeeds reaches `list_del`, in a state
with the library handle table of the start. -/
theorem close_sent (env : Env) (K : Headers) (checkpointHandle : Nat) (w : World)
    (hl : isLive w.checkpointHandleDatabase checkpointHandle = true)
    (hs : env.send w.nSend = SA_AIS_OK) :
    ∃ wr : World, wr.ckptHandleDatabase = w.ckptHandleDatabase ∧
      wr.checkpointHandleDatabase = (w.getCheckpoint checkpointHandle).2.checkpointHandleDatabase ∧
      saCkptCheckpointClose env K checkpointHandle w =
        match wr.listDel checkpointHandle with
        | Except.error fault => (fault, wr)
        | Except.ok w1 =>
          (Outcome.returned (env.recv w.nRecv).error,
           (w1.destroyCheckpoint checkpointHandle).putCheckpoint checkpointHandle) := by
  have hg := getCheckpoint_live w checkpointHandle hl
  have n1 : (w.getCheckpoint checkpointHandle).2.nSend = w.nSend := rfl
  have n2 : (w.getCheckpoint checkpointHandle).2.nRecv = w.nRecv := rfl
  refine ⟨(saRecvRetry env
    ((w.getCheckpoint checkpointHandle).2.checkpointInstanceOf checkpointHandle).response_fd
    (K.sizeof_res MESSAGE_REQ_CKPT_CHECKPOINT_CHECKPOINTCLOSE)
    (saSendRetry env
      ((w.getCheckpoint checkpointHandle).2.checkpointInstanceOf checkpointHandle).response_fd
      (Segment.request (Request.base MESSAGE_REQ_CKPT_CHECKPOINT_CHECKPOINTCLOSE
        (headerSize K (K.sizeof_req MESSAGE_REQ_CKPT_CHECKPOINT_CHECKPOINTCLOSE))
        ((w.getCheckpoint checkpointHandle).2.checkpointInstanceOf
          checkpointHandle).checkpointName))
      (K.sizeof_req MESSAGE_REQ_CKPT_CHECKPOINT_CHECKPOINTCLOSE)
      (w.getCheckpoint checkpointHandle).2).2).2, rfl, rfl, ?_⟩
  have hs2 : (saSendRetry env
      ((w.getCheckpoint checkpointHandle).2.checkpointInstanceOf checkpointHandle).response_fd
      (Segment.request (Request.base MESSAGE_REQ_CKPT_CHECKPOINT_CHECKPOINTCLOSE
        (headerSize K (K.sizeof_req MESSAGE_REQ_CKPT_CHECKPOINT_CHECKPOINTCLOSE))
        ((w.getCheckpoint checkpointHandle).2.checkpointInstanceOf
          checkpointHandle).checkpointName))
      (K.sizeof_req MESSAGE_REQ_CKPT_CHECKPOINT_CHECKPOINTCLOSE)
      (w.getCheckpoint checkpointHandle).2).1 = SA_AIS_OK := hs
  simp only [saCkptCheckpointClose, hg, hs2, ne_eq, not_true_eq_false, if_false]
  rfl

/-- Counterexample to C10 as stated: on the example state, where the checkpoint
handle 0 is live and linked, a close whose send fails with the transport error
`other 2` returns that error and leaves the handle live and linked. -/
theorem close_send_failure_keeps_handle :
    isLive (worldWith 3 none).checkpointHandleDatabase 0 = true ∧
      (saCkptCheckpointClose envSendFails K0 0 (worldWith 3 none)).1 =
        Outcome.returned (SaAisErrorT.other 2) ∧
      isLive (saCkptCheckpointClose envSendFails K0 0
        (worldWith 3 none)).2.checkpointHandleDatabase 0 = true ∧
      ((saCkptCheckpointClose envSendFails K0 0 (worldWith 3 none)).2.ckptInstanceOf
        0).checkpoint_list = [0] := by
  decide

/-- C10, amended: for every live checkpoint handle whose instance is linked into
a checkpoint list (every handle that a successful open has completed) and has
no freed list head for a neighbour (its library instance has not been freed),
when the send of the close request succeeds, `saCkptCheckpointClose` returns
the transport result of the receive and, whatever that result and whatever
status the server embeds, removes the instance from the checkpoint list of
every library instance and destroys the checkpoint handle, so that every lookup
of it fails afterwards.  When the send fails with `e` the call returns `e`, the
handle stays live and every checkpoint list is as before. -/
theorem close_outcomes (env : Env) (K : Headers) (checkpointHandle : Nat) (w : World)
    (hl : isLive w.checkpointHandleDatabase checkpointHandle = true) :
    (env.send w.nSend = SA_AIS_OK → w.isLinked checkpointHandle = true →
        w.isDangling checkpointHandle = false →
        (saCkptCheckpointClose env K checkpointHandle w).1 =
          Outcome.returned (env.recv w.nRecv).error ∧
        isLive (saCkptCheckpointClose env K checkpointHandle w).2.checkpointHandleDatabase
          checkpointHandle = false ∧
        (saHandleInstanceGet
          (saCkptCheckpointClose env K checkpointHandle w).2.checkpointHandleDatabase
          checkpointHandle).1 = SA_AIS_ERR_BAD_HANDLE ∧
        ∀ lib, ((saCkptCheckpointClose env K checkpointHandle w).2.ckptInstanceOf
            lib).checkpoint_list =
            (w.ckptInstanceOf lib).checkpoint_list.filter (fun x => x ≠ checkpointHandle) ∧
          checkpointHandle ∉ ((saCkptCheckpointClose env K checkpointHandle w).2.ckptInstanceOf
            lib).checkpoint_list) ∧
      (env.send w.nSend ≠ SA_AIS_OK →
        (saCkptCheckpointClose env K checkpointHandle w).1 =
          Outcome.returned (env.send w.nSend) ∧
        isLive (saCkptCheckpointClose env K checkpointHandle w).2.checkpointHandleDatabase
          checkpointHandle = true ∧
        ∀ lib, ((saCkptCheckpointClose env K checkpointHandle w).2.ckptInstanceOf
            lib).checkpoint_list = (w.ckptInstanceOf lib).checkpoint_list) := by
  have hg := getCheckpoint_live w checkpointHandle hl
  have n1 : (w.getCheckpoint checkpointHandle).2.nSend = w.nSend := rfl
  constructor
  · intro hs hlk hdg
    obtain ⟨wr, hdb, hcdb, hclose⟩ := close_sent env K checkpointHandle w hl hs
    have hlk2 : wr.isLinked checkpointHandle = true := by
      unfold World.isLinked at hlk ⊢
      rw [hdb]; exact hlk
    have hdg2 : wr.isDangling checkpointHandle = false := by
      unfold World.isDangling at hdg ⊢
      rw [hdb]; exact hdg
    obtain ⟨w1, hw1⟩ := listDel_linked wr checkpointHandle hdg2 hlk2
    rw [hw1] at hclose
    rw [hclose]
    have hinst : ∀ lib, wr.ckptInstanceOf lib = w.ckptInstanceOf lib := by
      intro lib
      unfold World.ckptInstanceOf
      rw [hdb]
    have hdead : isLive (saHandleInstancePut (saHandleDestroy w1.checkpointHandleDatabase
        checkpointHandle) checkpointHandle).1 checkpointHandle = false := by
      rw [isLive_put, isLive_destroy_self]
    refine ⟨rfl, hdead, congrArg Prod.fst (saHandleInstanceGet_dead _ _ hdead), ?_⟩
    intro lib
    have hlist := (listDel_list wr w1 checkpointHandle lib hw1).1
    have hsame : (((w1.destroyCheckpoint checkpointHandle).putCheckpoint
        checkpointHandle).ckptInstanceOf lib) = w1.ckptInstanceOf lib := rfl
    constructor
    · show (((w1.destroyCheckpoint checkpointHandle).putCheckpoint
        checkpointHandle).ckptInstanceOf lib).checkpoint_list = _
      rw [hsame, hlist, hinst]
    · show checkpointHandle ∉ (((w1.destroyCheckpoint checkpointHandle).putCheckpoint
        checkpointHandle).ckptInstanceOf lib).checkpoint_list
      rw [hsame, hlist]; simp
  · intro hs
    simp only [saCkptCheckpointClose, hg, ne_eq, not_true_eq_false, if_false, saSendRetry, n1,
      hs, not_false_eq_true, if_true, World.putCheckpoint]
    refine ⟨trivial, ?_, ?_⟩
    · rw [isLive_put]
      simp only [World.getCheckpoint]
      rw [isLive_get]; exact hl
    · intro lib; rfl

/-- Witness of C10, amended: the close of the live and linked checkpoint handle 0
of the example state, the server answering with the status access-denied. -/
theorem close_outcomes_witness :
    (worldWith 3 none).isLinked 0 = true ∧
      (worldWith 3 none).isDangling 0 = false ∧
      (saCkptCheckpointClose (envReply SA_AIS_ERR_ACCESS) K0 0 (worldWith 3 none)).1 =
        Outcome.returned ((envReply SA_AIS_ERR_ACCESS).recv (worldWith 3 none).nRecv).error ∧
      isLive (saCkptCheckpointClose (envReply SA_AIS_ERR_ACCESS) K0 0
        (worldWith 3 none)).2.checkpointHandleDatabase 0 = false :=
  have h := (close_outcomes (envReply SA_AIS_ERR_ACCESS) K0 0 (worldWith 3 none)
    (by decide)).1 rfl (by decide) (by decide)
  ⟨by decide, by decide, h.1, h.2.1⟩

/-- The status embedded in the response header plays no part in
`saCkptCheckpointClose`: replacing it in message i leaves the result and the
state of the call unchanged; and on a live handle that is linked, with no freed
head for a neighbour, a close whose send and receive succeed returns
`SA_AIS_OK`. -/
theorem close_status_independent (env : Env) (K : Headers) (checkpointHandle : Nat)
    (w : World) (i : Nat) (s1 s2 : SaAisErrorT) :
    ((env.withStatusAt i s1).recv i).msg.header.error = s1 ∧
      saCkptCheckpointClose (env.withStatusAt i s1) K checkpointHandle w =
        saCkptCheckpointClose (env.withStatusAt i s2) K checkpointHandle w ∧
      (isLive w.checkpointHandleDatabase checkpointHandle = true →
        w.isLinked checkpointHandle = true → w.isDangling checkpointHandle = false →
        env.send w.nSend = SA_AIS_OK → (env.recv w.nRecv).error = SA_AIS_OK →
        (saCkptCheckpointClose (env.withStatusAt i s1) K checkpointHandle w).1 =
          Outcome.returned SA_AIS_OK) := by
  refine ⟨by simp [Env.withStatusAt], ?_, ?_⟩
  · simp only [saCkptCheckpointClose, saSendRetry, saRecvRetry, withStatusAt_error,
      withStatusAt_send]
  · intro hl hlk hdg hs hr
    obtain ⟨wr, hdb, -, hclose⟩ := close_sent (env.withStatusAt i s1) K checkpointHandle w hl hs
    have hlk2 : wr.isLinked checkpointHandle = true := by
      unfold World.isLinked at hlk ⊢
      rw [hdb]; exact hlk
    have hdg2 : wr.isDangling checkpointHandle = false := by
      unfold World.isDangling at hdg ⊢
      rw [hdb]; exact hdg
    obtain ⟨w1, hw1⟩ := listDel_linked wr checkpointHandle hdg2 hlk2
    rw [hw1] at hclose
    rw [hclose]
    show Outcome.returned ((env.withStatusAt i s1).recv w.nRecv).error = _
    rw [withStatusAt_error, hr]

theorem dispatch_other_kind_within_capacity (env : Env) (K : Headers) (ckptHandle : Nat)
    (dispatchFlags : SaDispatchFlagsT) (timeout : Int) (fuel : Nat) (w : World)
    (hl : isLive w.ckptHandleDatabase ckptHandle = true)
    (hfin : (w.ckptInstanceOf ckptHandle).finalize ≠ 1)
    (hp : (env.poll w.nPoll).error = SA_AIS_OK)
    (hrev : (env.poll w.nPoll).revents = ⟨true, false, false, false⟩)
    (hr : (env.recv w.nRecv).error = SA_AIS_OK)
    (ht : K.sizeof_res_header < (env.recv w.nRecv).msg.header.size →
      (env.recv w.nRecv).trailError = SA_AIS_OK)
    (hfit : (env.recv w.nRecv).msg.header.size - K.sizeof_res_header ≤
      sizeof_message_overlay_data)
    (hid : (env.recv w.nRecv).msg.header.id ≠
      K.MESSAGE_RES_CKPT_CHECKPOINT_CHECKPOINTOPENASYNC) :
    dispatchBody env K ckptHandle dispatchFlags timeout w =
        dispatchMore ckptHandle dispatchFlags SA_AIS_OK
          (w.received (dispatchReceive K (w.ckptInstanceOf ckptHandle) ckptHandle timeout
            (env.recv w.nRecv).msg)) ∧
      recvSizes (dispatchReceive K (w.ckptInstanceOf ckptHandle) ckptHandle timeout
          (env.recv w.nRecv).msg) =
        (if K.sizeof_res_header < (env.recv w.nRecv).msg.header.size then
          [K.sizeof_res_header, (env.recv w.nRecv).msg.header.size - K.sizeof_res_header]
         else [K.sizeof_res_header]) ∧
      callbacksOf (dispatchReceive K (w.ckptInstanceOf ckptHandle) ckptHandle timeout
          (env.recv w.nRecv).msg ++ dispatchExit ckptHandle dispatchFlags) = [] ∧
      saCkptDispatch env K ckptHandle SaDispatchFlagsT.SA_DISPATCH_ONE (fuel + 1) w =
        some (Outcome.returned SA_AIS_OK,
          w.received (Event.instanceGet Db.ckpt ckptHandle SA_AIS_OK ::
            (dispatchReceive K (w.ckptInstanceOf ckptHandle) ckptHandle 1
              (env.recv w.nRecv).msg ++
            dispatchExit ckptHandle SaDispatchFlagsT.SA_DISPATCH_ONE))) := by
  refine ⟨dispatchBody_other env K ckptHandle dispatchFlags timeout w hfin hp hrev hr ht hfit hid,
    ?_, ?_, ?_⟩
  · unfold dispatchReceive
    split <;> rfl
  · unfold dispatchReceive dispatchExit
    split <;> split <;> rfl
  · have hg := getCkpt_live w ckptHandle hl
    have hi := ckptInstanceOf_getCkpt w ckptHandle ckptHandle
    have hb := dispatchBody_other env K ckptHandle SaDispatchFlagsT.SA_DISPATCH_ONE 1
      (w.getCkpt ckptHandle).2 (by rw [hi]; exact hfin) hp hrev hr ht hfit hid
    have hgl : (saHandleInstanceGet w.ckptHandleDatabase ckptHandle).1 = SA_AIS_OK :=
      saHandleInstanceGet_live _ _ hl
    have hdb := put_get_restores w.ckptHandleDatabase ckptHandle hl
    simp only [saCkptDispatch, hg, dispatchLoop, hb, hi, dispatchMore, dispatchErrorUnlock,
      ne_eq, not_true_eq_false, false_and, if_false, if_true, reduceCtorEq, and_false]
    simp only [World.received, World.log, World.putCkpt, World.getCkpt, hgl, hdb, dispatchExit,
      if_true, List.append_assoc, List.singleton_append, List.cons_append, List.nil_append]

/-- C14, evaluated where the code departs from it: on the example state,
`saCkptDispatch` in `SA_DISPATCH_ONE` mode reads a message of another kind than
open-completed (id 0) that declares a total size of 5000 bytes.  After the 12
bytes of the header it receives the remaining 4988 bytes into `data`, which
holds 4096: the receive writes past the end of the overlay and the call does not
return `SA_AIS_OK`.  The limit is exact: a body of 4096 bytes (total 4108) is
received and the call returns `SA_AIS_OK`, a body of 4097 bytes (total 4109)
overflows.  A message of 16 bytes is received as 12 and 4 bytes and the call
returns `SA_AIS_OK`. -/
theorem dispatch_large_message_overflows :
    sizeof_message_overlay_data = 4096 ∧
      (saCkptDispatch (envMessageOfSize 5000) K0 0 SaDispatchFlagsT.SA_DISPATCH_ONE 5
        (worldWith 3 none)).map (fun r => (r.1, recvSizes r.2.trace)) =
        some (Outcome.bufferOverflow, [12, 4988]) ∧
      (saCkptDispatch (envMessageOfSize 4109) K0 0 SaDispatchFlagsT.SA_DISPATCH_ONE 5
        (worldWith 3 none)).map (fun r => (r.1, recvSizes r.2.trace)) =
        some (Outcome.bufferOverflow, [12, 4097]) ∧
      (saCkptDispatch (envMessageOfSize 4108) K0 0 SaDispatchFlagsT.SA_DISPATCH_ONE 5
        (worldWith 3 none)).map (fun r => (r.1, recvSizes r.2.trace)) =
        some (Outcome.returned SA_AIS_OK, [12, 4096]) ∧
      (saCkptDispatch (envMessageOfSize 16) K0 0 SaDispatchFlagsT.SA_DISPATCH_ONE 5
        (worldWith 3 none)).map (fun r => (r.1, recvSizes r.2.trace)) =
        some (Outcome.returned SA_AIS_OK, [12, 4]) := by
  refine ⟨by decide, by decide, by decide, by decide, by decide⟩

/-- C13: for every n, `saCkptDispatch` in `SA_DISPATCH_ALL` mode on a live
library handle whose finalize flag is clear and that has the open callback `fn`
registered, when the next n polls report readable data, the next n messages are
open-completed notifications that are received without error and fit the
capacity of `data`, and the poll after them reports nothing (an empty queue):
with enough fuel (n + 1 passes or more) the call returns `SA_AIS_OK`; the
callback events among the events of the call are exactly the n that the
notifications call for, one per notification, in the order of arrival; and the
call makes n + 1 polls, each with the timeout zero.  Each notified checkpoint
handle is live, as the code asserts, and a handle whose failed open was
notified, and so destroyed, is not notified again. -/
theorem dispatch_all_drains_queue (env : Env) (K : Headers) (ckptHandle : Nat) (fn : Nat)
    (n extra : Nat) (w : World)
    (hl : isLive w.ckptHandleDatabase ckptHandle = true)
    (hfin : (w.ckptInstanceOf ckptHandle).finalize ≠ 1)
    (hcb : (w.ckptInstanceOf ckptHandle).callbacks.saCkptCheckpointOpenCallback = some fn)
    (hpoll : ∀ i, i < n → env.poll (w.nPoll + i) = ⟨SA_AIS_OK, ⟨true, false, false, false⟩⟩)
    (hempty : env.poll (w.nPoll + n) = ⟨SA_AIS_OK, ⟨false, false, false, false⟩⟩)
    (hrecv : ∀ i, i < n → (env.recv (w.nRecv + i)).error = SA_AIS_OK ∧
      (K.sizeof_res_header < (env.recv (w.nRecv + i)).msg.header.size →
        (env.recv (w.nRecv + i)).trailError = SA_AIS_OK) ∧
      (env.recv (w.nRecv + i)).msg.header.size - K.sizeof_res_header ≤
        sizeof_message_overlay_data ∧
      (env.recv (w.nRecv + i)).msg.header.id =
        K.MESSAGE_RES_CKPT_CHECKPOINT_CHECKPOINTOPENASYNC)
    (hlive : ∀ i, i < n → isLive w.checkpointHandleDatabase
      (notificationAt env K (w.nRecv + i)).checkpointHandle = true)
    (hfresh : ∀ j, j < n → ∀ i, i < j →
      (notificationAt env K (w.nRecv + i)).header.error ≠ SA_AIS_OK →
      (notificationAt env K (w.nRecv + i)).checkpointHandle ≠
        (notificationAt env K (w.nRecv + j)).checkpointHandle) :
    ∃ w1 evs, saCkptDispatch env K ckptHandle SaDispatchFlagsT.SA_DISPATCH_ALL (n + 1 + extra) w =
        some (Outcome.returned SA_AIS_OK, w1) ∧
      w1.trace = w.trace ++ evs ∧
      callbacksOf evs = expectedCallbacks env K fn w.nRecv n ∧
      (callbacksOf evs).length = n ∧
      pollTimeouts evs = List.replicate (n + 1) 0 ∧
      w1.nRecv = w.nRecv + n := by
  have hg := getCkpt_live w ckptHandle hl
  have hi := ckptInstanceOf_getCkpt w ckptHandle ckptHandle
  obtain ⟨w1, evs, k1, k2, k3, k4, k5⟩ := dispatchLoop_all env K ckptHandle fn n extra
    (w.getCkpt ckptHandle).2 (by rw [hi]; exact hfin) (by rw [hi]; exact hcb) hpoll hempty hrecv
    hlive hfresh
  refine ⟨w1, Event.instanceGet Db.ckpt ckptHandle SA_AIS_OK :: evs, ?_, ?_, ?_, ?_, ?_, k5⟩
  · simp only [saCkptDispatch, hg, ne_eq, not_true_eq_false, false_and, and_false, if_false,
      if_true, reduceCtorEq, not_false_eq_true]
    exact k1
  · rw [k2, getCkpt_trace, hg]
    simp
  · exact k3
  · show (callbacksOf evs).length = n
    rw [k3, expectedCallbacks_length]
  · exact k4

/-- C13 at the spec's witness, n = 3: in the state three asynchronous opens
leave (checkpoint handles 0, 1 and 2 live and not linked, open callback 1
registered), with three notifications queued, one for each handle, the call in
`SA_DISPATCH_ALL` mode returns `SA_AIS_OK` after exactly three callbacks, in the
order of arrival, and four polls with timeout zero. -/
theorem dispatch_all_drains_queue_witness :
    ∃ w1 evs, saCkptDispatch envQueueThree K0 0 SaDispatchFlagsT.SA_DISPATCH_ALL 4
        (worldPending3 (some 1)) = some (Outcome.returned SA_AIS_OK, w1) ∧
      w1.trace = (worldPending3 (some 1)).trace ++ evs ∧
      callbacksOf evs =
        [Event.callback 1 11 0 SA_AIS_OK, Event.callback 1 12 1 SA_AIS_OK,
         Event.callback 1 13 2 SA_AIS_OK] ∧
      pollTimeouts evs = [0, 0, 0, 0] := by
  obtain ⟨w1, evs, k1, k2, k3, -, k5, -⟩ :=
    dispatch_all_drains_queue envQueueThree K0 0 1 3 0 (worldPending3 (some 1))
      (by decide) (by decide) (by decide) (by decide) (by decide) (by decide) (by decide)
      (by decide)
  exact ⟨w1, evs, k1, k2, k3, k5⟩

end Ckpt
